import Mathlib

/-!
# FyuseNet sample network ResNet50: host-side transfer pipeline

A shallow embedding of the member functions of `ResNet50` in
`samples/samplenetworks/resnet50.cpp` that manage the bounded pools of host
buffers for asynchronous upload and download:

* `ResNet50::forward`
* `ResNet50::setInputBuffer`
* `ResNet50::internalULCallback`
* `ResNet50::internalDLCallback`
* `ResNet50::getOutputBuffer`
* `ResNet50::buildLayers`, as the list of builders it registers
* `ResNet50::connectLayers`, as the list of edges it makes and the download
  buffers it creates

and of the parts of the benchmark `samples/desktop/resnet50_bench.cpp` that
wait for a download, size the input image, select the class with the highest
score and look up its label.

Conventions of the embedding.

* The object is an explicit state record; a member function is a function on
  that record.
* A call that waits on a condition variable is modelled by its wait predicate:
  where the predicate is false the call yields `Result.blocked`, where it is
  true the call goes on.  A blocked call is tried again from the state in which
  it is woken up; what `setInputBuffer` does before its wait (the allocation
  loop) gives the same result when repeated.  Mutexes only serialise the
  member functions, which the embedding does by running them one at a time.
* The preprocessor switch `FYUSENET_MULTITHREADING` is the Boolean argument
  `mt` of the functions that have two variants.
* `assert` statements follow the release build (they are compiled out); the
  asserted bound on the upload counter is the subject of a theorem instead.
* A `CPUBuffer *` is a natural number, `0` being `nullptr`.  The two upload
  buffers are stored by value together with their address.
* What the code makes observable to its environment (completion hooks,
  `notify_one`, the advance of the engine) is appended to the list `effects`.
-/

namespace FyuseNet

/-- Address of a `CPUBuffer`; `0` stands for `nullptr`. -/
abbrev Ptr := Nat

/-- Modelled from the spec: the constant `ResNet50::ASYNC_BUFFERS`, declared in
`resnet50.h` (not among the sources); the spec gives the pool bound as
"default bound = 2", and the code addresses exactly the slots `0` and `1`. -/
abbrev ASYNC_BUFFERS : Nat := 2

/-- Modelled from the spec: the constant `ResNet50::IMAGE_SIZE`, declared in
`resnet50.h` (not among the sources); `224` is the input size that
`buildLayers` gives the upload layer and that the benchmark checks. -/
def IMAGE_SIZE : Nat := 224

/-- The values of `AsyncLayer::state` that the source names. -/
inductive AsyncState where
  | UPLOAD_COMMENCED
  | UPLOAD_DONE
  | DOWNLOAD_COMMENCED
  | DOWNLOAD_DONE
deriving DecidableEq, Repr

/-- The values of `BufferShape::type` that the source names. -/
inductive DataType where
  | FLOAT32
  | UINT8
deriving DecidableEq, Repr

/-- The values of `BufferShape::order` that the source names. -/
inductive Order where
  | GPU_SHALLOW
  | GPU_DEEP
  | CHANNELWISE
deriving DecidableEq, Repr

/-- Size in bytes of one element of the given type. -/
def DataType.size : DataType → Nat
  | .FLOAT32 => 4
  | .UINT8 => 1

/-- Arguments of the `BufferShape` constructor as the source passes them:
height, width, channels, padding, element type, order. -/
structure BufferShape where
  height : Nat
  width : Nat
  channels : Nat
  padding : Nat
  dtype : DataType
  order : Order
deriving DecidableEq, Repr

/-- Modelled from the spec: `BufferShape::bytes(BufferShape::order::CHANNELWISE)`
(class `BufferShape` is not among the sources); the spec gives the interleaved
byte size as height x width x channels x elementSize. -/
def BufferShape.bytes (s : BufferShape) : Nat :=
  s.height * s.width * s.channels * s.dtype.size

/-- A host buffer: its address, its shape, and its contents as a map from byte
offset to byte value. -/
structure CPUBuffer where
  addr : Ptr
  shape : BufferShape
  mem : Nat → Nat

/-- Pointer value of a pool slot: `nullptr` while the slot is empty. -/
def ptrOf : Option CPUBuffer → Ptr
  | none => 0
  | some b => b.addr

/-- The upload layer as far as `ResNet50` uses it: `getName()` and the CPU
input buffer of port 0 (`getCPUInputBuffer` / `setCPUInputBuffer`). -/
structure UploadLayer where
  name : String
  cpuInput : Ptr

/-- The download layer as far as `ResNet50` uses it: `getName()` and the CPU
output buffer of port 0 (`getCPUOutputBuffer` / `updateOutputBuffer` /
`addCPUOutputBuffer`). -/
structure DownloadLayer where
  name : String
  cpuOutput : Ptr

/-- What a member function makes observable outside the object, in order.
`downReady` is the invocation of the download-ready hook with its three
arguments; its last field records what the hook finds in the object while it
runs, the value of `usedDownloadBuffers_` at the time of the call. -/
inductive Effect where
  | upReady (name : String) (seqNo : Nat)
  | downReady (name : String) (seqNo : Nat) (buffer : Ptr) (usedDownloadBuffers : Int)
  | notifyUpload
  | notifyDownload
  | advance (seqNo : Nat)
deriving DecidableEq, Repr

/-- Outcome of a member function that may wait. -/
inductive Result (α : Type) where
  | ok (a : α)
  | blocked
  | nullDeref

/-- The state a call returned with, or the given default. -/
def Result.getD {α : Type} : Result α → α → α
  | .ok a, _ => a
  | .blocked, d => d
  | .nullDeref, d => d

/-- Whether the call did not stay in its wait. -/
def Result.pastWait {α : Type} : Result α → Bool
  | .blocked => false
  | _ => true

/-- Whether the call returned. -/
def Result.isOk {α : Type} : Result α → Bool
  | .ok _ => true
  | _ => false

/-- The members of `ResNet50` that the functions below read or write.  The
class is declared in `resnet50.h`, which is not among the sources; the fields
are the members named in `resnet50.cpp`.  `upReady_` and `downReady_` say
whether the corresponding `std::function` of `asyncCallbacks_` holds a
callable; `upload` and `download` are `engine_->getLayers()["upload"]` and
`["download"]`; `nextAddr` is the last address handed out by `new`; `seqNo` is
the sequence number of the last advance. -/
structure ResNet50 where
  upload_ : Bool
  download_ : Bool
  async_ : Bool
  setup_ : Bool
  inputTextureChanged_ : Bool
  inBuffers_ : Fin ASYNC_BUFFERS → Option CPUBuffer
  asyncDLBuffers_ : Fin ASYNC_BUFFERS → Ptr
  usedUploadBuffers_ : Int
  uploadBusy_ : Bool
  usedDownloadBuffers_ : Int
  upReady_ : Bool
  downReady_ : Bool
  upload : UploadLayer
  download : DownloadLayer
  nextAddr : Ptr
  seqNo : Nat
  effects : List Effect

/-- Modelled from the spec: `NeuralNetwork::forward` of the base class (not
among the sources).  Each advance produces one sequence-numbered pass; the
numbers increase by one per advance. -/
def NeuralNetwork.forward (n : ResNet50) : ResNet50 :=
  { n with seqNo := n.seqNo + 1, effects := n.effects ++ [Effect.advance (n.seqNo + 1)] }

namespace ResNet50

/-- Modelled from the spec: the object after construction with
`ResNet50(upload, download)`, an optional `asynchronous(callbacks)` and before
`setup()`: counters at zero, busy flag clear, no pool buffer allocated, the
layers named as in `buildLayers`.  The member initialisers are in
`resnet50.h`, which is not among the sources. -/
def initial (upload download async upReady downReady : Bool) : ResNet50 :=
  { upload_ := upload
    download_ := download
    async_ := async
    setup_ := false
    inputTextureChanged_ := false
    inBuffers_ := fun _ => none
    asyncDLBuffers_ := fun _ => 0
    usedUploadBuffers_ := 0
    uploadBusy_ := false
    usedDownloadBuffers_ := 0
    upReady_ := upReady
    downReady_ := downReady
    upload := { name := "upload", cpuInput := 0 }
    download := { name := "download", cpuOutput := 0 }
    nextAddr := 0
    seqNo := 0
    effects := [] }

/-- The buffer part of `ResNet50::connectLayers` (source lines 529-554): with
download and asynchronous operation the two download buffers are created and
the first one is attached to the download layer; with download and synchronous
operation the buffer manager creates the one output buffer.  The layer edges
made by `connectLayers` do not touch these members. -/
def connectLayers (mt : Bool) (n : ResNet50) : ResNet50 :=
  if n.download_ then
    if mt && n.async_ then
      let b0 := n.nextAddr + 1
      let b1 := n.nextAddr + 2
      { n with
        asyncDLBuffers_ := fun i => if i = 0 then b0 else b1
        download := { n.download with cpuOutput := b0 }
        nextAddr := n.nextAddr + 2 }
    else
      { n with
        download := { n.download with cpuOutput := n.nextAddr + 1 }
        nextAddr := n.nextAddr + 1 }
  else n

/-- The part of `setup()` that the functions below depend on: the layers are
connected and `setup_` is set (`assert(setup_)` in `setInputBuffer`). -/
def setup (mt : Bool) (n : ResNet50) : ResNet50 :=
  { connectLayers mt n with setup_ := true }

/-- The wait predicate of `forward`:
`usedDownloadBuffers_ < ASYNC_BUFFERS`. -/
def downloadWait (n : ResNet50) : Bool :=
  decide (n.usedDownloadBuffers_ < (ASYNC_BUFFERS : Int))

/-- The head of `ResNet50::forward`, the same in both builds:
`if ((!upload_) && (inputTextureChanged_)) { ... inputTextureChanged_ = false; }`.
The rebinding of the GPU input texture inside the block touches device objects
only. -/
def refreshInputTexture (n : ResNet50) : ResNet50 :=
  if (!n.upload_) && n.inputTextureChanged_ then
    { n with inputTextureChanged_ := false }
  else n

/-- The member `ResNet50::forward`. -/
def forward (mt : Bool) (n : ResNet50) : Result ResNet50 :=
  let n1 := refreshInputTexture n
  if mt then
    if n1.async_ then
      if n1.download_ then
        if downloadWait n1 then
          Result.ok (NeuralNetwork.forward
            { n1 with usedDownloadBuffers_ := n1.usedDownloadBuffers_ + 1 })
        else Result.blocked
      else Result.ok (NeuralNetwork.forward n1)
    else Result.ok (NeuralNetwork.forward n1)
  else Result.ok (NeuralNetwork.forward n1)

/-- The buffer made by `new cpu::CPUBuffer(BufferShape(IMAGE_SIZE, IMAGE_SIZE,
3, 0, FLOAT32, GPU_SHALLOW))` at the given address; its contents before the
first write are taken to be zero. -/
def newInputBuffer (addr : Ptr) : CPUBuffer :=
  { addr := addr
    shape := { height := IMAGE_SIZE, width := IMAGE_SIZE, channels := 3, padding := 0,
               dtype := DataType.FLOAT32, order := Order.GPU_SHALLOW }
    mem := fun _ => 0 }

/-- One round of the allocation loop of `setInputBuffer`:
`if (!inBuffers_[i]) inBuffers_[i] = new cpu::CPUBuffer(...)`. -/
def allocInBuffer (n : ResNet50) (i : Fin ASYNC_BUFFERS) : ResNet50 :=
  match n.inBuffers_ i with
  | some _ => n
  | none =>
    { n with
      inBuffers_ := Function.update n.inBuffers_ i (some (newInputBuffer (n.nextAddr + 1)))
      nextAddr := n.nextAddr + 1 }

/-- The allocation loop of `setInputBuffer`: `for (i = 0; i < numbuffers; i++)`. -/
def allocInBuffers (n : ResNet50) (numbuffers : Nat) : ResNet50 :=
  [(0 : Fin ASYNC_BUFFERS), 1].foldl
    (fun s i => if i.val < numbuffers then allocInBuffer s i else s) n

/-- The wait predicate of `setInputBuffer`:
`(uploadBusy_ == false) && (usedUploadBuffers_ < ASYNC_BUFFERS)`. -/
def uploadWait (n : ResNet50) : Bool :=
  (n.uploadBusy_ == false) && decide (n.usedUploadBuffers_ < (ASYNC_BUFFERS : Int))

/-- The C library function `memcpy(tgt, src, count)` on byte maps. -/
def memcpy (tgt src : Nat → Nat) (count : Nat) : Nat → Nat :=
  fun i => if i < count then src i else tgt i

/-- The slot that `setInputBuffer` selects in the multithreaded build:
`inBuffers_[0]` when the upload layer has no CPU input buffer, otherwise
`inBuffers_[1]` if that buffer is `inBuffers_[0]` and `inBuffers_[0]` if not. -/
def selectBuffer (n : ResNet50) : Fin ASYNC_BUFFERS :=
  if n.upload.cpuInput ≠ 0 then
    (if n.upload.cpuInput = ptrOf (n.inBuffers_ 0) then 1 else 0)
  else 0

/-- The tail of `setInputBuffer` from `buf->map<float>()` on: the bytes of
`data` are copied into the selected buffer, which is then handed to the upload
layer.  An empty slot is a null `buf`. -/
def copyToBuffer (n : ResNet50) (slot : Fin ASYNC_BUFFERS) (data : Nat → Nat) :
    Result ResNet50 :=
  match n.inBuffers_ slot with
  | none => Result.nullDeref
  | some buf =>
    Result.ok
      { n with
        inBuffers_ := Function.update n.inBuffers_ slot
          (some { buf with mem := memcpy buf.mem data buf.shape.bytes })
        upload := { n.upload with cpuInput := buf.addr } }

/-- The member `ResNet50::setInputBuffer`; `data` is the caller's array as a map
from byte offset to byte value. -/
def setInputBuffer (mt : Bool) (n : ResNet50) (data : Nat → Nat) : Result ResNet50 :=
  let numbuffers : Nat := if mt then (if n.async_ then ASYNC_BUFFERS else 1) else 1
  let n1 := allocInBuffers n numbuffers
  if mt then
    if uploadWait n1 then
      let slot := selectBuffer n1
      copyToBuffer
        { n1 with usedUploadBuffers_ := n1.usedUploadBuffers_ + 1, uploadBusy_ := true }
        slot data
    else Result.blocked
  else copyToBuffer n1 0 data

/-- The member `ResNet50::internalDLCallback` (multithreaded build only).  The
hook is called before `usedDownloadBuffers_--`, so the logged call carries the
value the counter has at that point of the body. -/
def internalDLCallback (n : ResNet50) (seqNo : Nat) (buffer : Ptr) (state : AsyncState) :
    ResNet50 :=
  let n1 := if state = AsyncState.DOWNLOAD_COMMENCED then
      { n with download := { n.download with
          cpuOutput := if n.download.cpuOutput = n.asyncDLBuffers_ 0
            then n.asyncDLBuffers_ 1 else n.asyncDLBuffers_ 0 } }
    else n
  if state = AsyncState.DOWNLOAD_DONE then
    let n2 := if n1.downReady_ then
        { n1 with effects := n1.effects ++
            [Effect.downReady n1.download.name seqNo buffer n1.usedDownloadBuffers_] }
      else n1
    { n2 with
      usedDownloadBuffers_ := n2.usedDownloadBuffers_ - 1
      effects := n2.effects ++ [Effect.notifyDownload] }
  else n1

/-- The member `ResNet50::internalULCallback` (multithreaded build only). -/
def internalULCallback (n : ResNet50) (seqNo : Nat) (_buffer : Ptr) (state : AsyncState) :
    ResNet50 :=
  let n1 := if state = AsyncState.UPLOAD_COMMENCED then { n with uploadBusy_ := false } else n
  let n2 := if state = AsyncState.UPLOAD_DONE then
      { n1 with usedUploadBuffers_ := n1.usedUploadBuffers_ - 1 } else n1
  let n3 := { n2 with effects := n2.effects ++ [Effect.notifyUpload] }
  if state = AsyncState.UPLOAD_COMMENCED then
    if n3.upReady_ then
      { n3 with effects := n3.effects ++ [Effect.upReady n3.upload.name seqNo] }
    else n3
  else n3

end ResNet50

/-- A call into the object: by the caller (`setInputBuffer`, `forward`) or by
the asynchronous layers (the two callbacks). -/
inductive Event where
  | setInputBuffer (data : Nat → Nat)
  | forward
  | internalULCallback (seqNo : Nat) (buffer : Ptr) (state : AsyncState)
  | internalDLCallback (seqNo : Nat) (buffer : Ptr) (state : AsyncState)

/-- One call. -/
def step (mt : Bool) (n : ResNet50) : Event → Result ResNet50
  | .setInputBuffer data => n.setInputBuffer mt data
  | .forward => n.forward mt
  | .internalULCallback s b st => Result.ok (n.internalULCallback s b st)
  | .internalDLCallback s b st => Result.ok (n.internalDLCallback s b st)

/-- A sequence of calls, each returning before the next is made; the sequence
stops at the first call that does not return. -/
def run (mt : Bool) : List Event → ResNet50 → Result ResNet50
  | [], n => Result.ok n
  | e :: es, n =>
    match step mt n e with
    | .ok n1 => run mt es n1
    | .blocked => Result.blocked
    | .nullDeref => Result.nullDeref

/-- Whether the event is an upload callback reporting `UPLOAD_COMMENCED`. -/
def Event.isUploadCommenced : Event → Bool
  | .internalULCallback _ _ .UPLOAD_COMMENCED => true
  | _ => false

/-- Whether the event is an upload callback reporting `UPLOAD_DONE`. -/
def Event.isUploadDone : Event → Bool
  | .internalULCallback _ _ .UPLOAD_DONE => true
  | _ => false

/-- Whether the event is a call of `forward` or an upload callback reporting
`UPLOAD_COMMENCED`, the callback that a `forward` call sets off first. -/
def Event.pushesUpload : Event → Bool
  | .forward => true
  | .internalULCallback _ _ .UPLOAD_COMMENCED => true
  | _ => false

/-- Discipline of the upload layer: an `UPLOAD_DONE` callback is delivered only
for an upload that was accepted and is not yet done.  The first argument counts
the uploads accepted and not yet done. -/
def uploadDiscipline : Nat → List Event → Bool
  | _, [] => true
  | k, .setInputBuffer _ :: es => uploadDiscipline (k + 1) es
  | k, .internalULCallback _ _ .UPLOAD_DONE :: es => decide (0 < k) && uploadDiscipline (k - 1) es
  | k, _ :: es => uploadDiscipline k es

/-- Discipline of the download layer: a `DOWNLOAD_DONE` callback is delivered
once per outstanding pass.  The first argument counts the passes started by
`forward` whose download is not yet done. -/
def downloadDiscipline : Nat → List Event → Bool
  | _, [] => true
  | k, .forward :: es => downloadDiscipline (k + 1) es
  | k, .internalDLCallback _ _ .DOWNLOAD_DONE :: es =>
    decide (0 < k) && downloadDiscipline (k - 1) es
  | k, _ :: es => downloadDiscipline k es

/-- The invocations of the download-ready hook among the effects, in order. -/
def downReadyCalls : List Effect → List Effect
  | [] => []
  | .downReady name s b u :: es => .downReady name s b u :: downReadyCalls es
  | _ :: es => downReadyCalls es

/-- The invocations of the upload-ready hook among the effects, in order. -/
def upReadyCalls : List Effect → List Effect
  | [] => []
  | .upReady name s :: es => .upReady name s :: upReadyCalls es
  | _ :: es => upReadyCalls es

/-- The asynchronous network in its initial state after `setup()`, with both
hooks registered. -/
def asyncNet : ResNet50 := ResNet50.setup true (ResNet50.initial true true true true true)

/-- The synchronous network in its initial state after `setup()`, in the
multithreaded build. -/
def syncNet : ResNet50 := ResNet50.setup true (ResNet50.initial true true false false false)

/-- An input image: byte `i` holds `i % 256`. -/
def sampleData : Nat → Nat := fun i => i % 256

/-- A run of the asynchronous network: two uploads, the first one pushed through
the pipeline by `forward` and reported commenced and done. -/
def uploadTrace : List Event :=
  [.setInputBuffer sampleData, .forward, .internalULCallback 1 3 .UPLOAD_COMMENCED,
   .setInputBuffer sampleData, .internalULCallback 1 3 .UPLOAD_DONE]

/-- The state at the end of `uploadTrace`. -/
def afterUploadTrace : ResNet50 := (run true uploadTrace asyncNet).getD asyncNet

/-- A run of the asynchronous network: two passes, the download of the first
one reported commenced and done. -/
def downloadTrace : List Event :=
  [.setInputBuffer sampleData, .forward, .internalULCallback 1 3 .UPLOAD_COMMENCED,
   .setInputBuffer sampleData, .forward, .internalDLCallback 1 1 .DOWNLOAD_COMMENCED,
   .internalDLCallback 1 1 .DOWNLOAD_DONE]

/-- The state at the end of `downloadTrace`. -/
def afterDownloadTrace : ResNet50 := (run true downloadTrace asyncNet).getD asyncNet

/-- The asynchronous network after its first accepted `setInputBuffer` call. -/
def afterFirstUpload : ResNet50 := (asyncNet.setInputBuffer true sampleData).getD asyncNet

/-- The synchronous network (multithreaded build) after its first
`setInputBuffer` call. -/
def afterSyncUpload : ResNet50 := (syncNet.setInputBuffer true sampleData).getD syncNet

/-- Download callbacks of an earlier pass, delivered after an upload that no
`forward` call follows. -/
def idleTrace : List Event :=
  [.internalDLCallback 1 1 .DOWNLOAD_COMMENCED, .internalDLCallback 1 1 .DOWNLOAD_DONE]

/-- The state at the end of `idleTrace`, started after the first upload. -/
def afterIdleTrace : ResNet50 := (run true idleTrace afterFirstUpload).getD afterFirstUpload

namespace ResNet50

/-- The member `ResNet50::getOutputBuffer`; `dwn->getCPUOutputBuffer(0)` is the
CPU output buffer of port 0 of the layer named "download". -/
def getOutputBuffer (n : ResNet50) : Ptr :=
  if (!n.download_) || (!n.setup_) then 0
  else n.download.cpuOutput

/-- The addresses of the two upload pool slots, `nullptr` for an empty slot. -/
def poolAddrs (n : ResNet50) : Fin ASYNC_BUFFERS → Ptr :=
  fun i => ptrOf (n.inBuffers_ i)

/-- The number of upload pool slots that hold a buffer. -/
def poolCount (n : ResNet50) : Nat :=
  (if (n.inBuffers_ 0).isSome then 1 else 0) + (if (n.inBuffers_ 1).isSome then 1 else 0)

/-- The value of `numbuffers` in `setInputBuffer`. -/
def numbuffers (mt : Bool) (n : ResNet50) : Nat :=
  if mt then (if n.async_ then ASYNC_BUFFERS else 1) else 1

/-- The shape that `setInputBuffer` gives the upload buffers it creates. -/
def inputShape : BufferShape :=
  { height := IMAGE_SIZE, width := IMAGE_SIZE, channels := 3, padding := 0,
    dtype := DataType.FLOAT32, order := Order.GPU_SHALLOW }

/-- Every upload buffer in the pool has the shape `setInputBuffer` creates
buffers with. -/
def poolShaped (n : ResNet50) : Bool :=
  [(0 : Fin ASYNC_BUFFERS), 1].all fun i =>
    match n.inBuffers_ i with
    | none => true
    | some b => decide (b.shape = inputShape)

end ResNet50

/-- The variables of the benchmark's `main` that its lambda `dlReady` writes:
the atomic `downid` and the pointer `download`.  `downid` has no initialiser
in the source. -/
structure Bench where
  downid : Nat
  download : Ptr
deriving DecidableEq, Repr

/-- The lambda `dlReady` of the benchmark: `downid.store(seq)`, then, under the
lock, `download = buffer` and `waiter.notify_all()`. -/
def dlReady (b : Bench) (_name : String) (seq : Nat) (buffer : Ptr) : Bench :=
  { b with downid := seq, download := buffer }

/-- The benchmark registers `dlReady` as download-ready hook: every invocation
of the hook among the effects of the network runs `dlReady`, in order. -/
def deliver (b : Bench) : List Effect → Bench
  | [] => b
  | .downReady name s buf _ :: es => deliver (dlReady b name s buf) es
  | _ :: es => deliver b es

/-- The wait of the asynchronous benchmark loop after `forward()`:
`waiter.wait(lck, [&] { return (downid.load() >= seqid); })`. -/
def benchWait (b : Bench) (seqid : Nat) : Result Bench :=
  if decide (b.downid ≥ seqid) then Result.ok b else Result.blocked

/-- The size in bytes of the array `new float[width * height * 3]` that the
benchmark's `readImage` returns, a `float` taking 4 bytes. -/
def readImageBytes (width height : Nat) : Nat :=
  width * height * 3 * 4

/-- The check of the benchmark's `main` on the image size: the program goes on
only if `(width != 224) || (height != 224)` is false. -/
def sizeCheckPassed (width height : Nat) : Bool :=
  !((width != 224) || (height != 224))

/-- The calls that follow the first upload in `uploadTrace`. -/
def laterTrace : List Event :=
  [.forward, .internalULCallback 1 3 .UPLOAD_COMMENCED, .setInputBuffer sampleData,
   .internalULCallback 1 3 .UPLOAD_DONE, .forward,
   .internalULCallback 2 4 .UPLOAD_COMMENCED, .setInputBuffer sampleData]

/-- The state at the end of `laterTrace`, started after the first upload. -/
def afterLaterTrace : ResNet50 := (run true laterTrace afterFirstUpload).getD afterFirstUpload

/-- The first run of the asynchronous benchmark loop up to its wait:
`setInputBuffer(rgb)` and `forward()`, no callback delivered yet. -/
def firstRun : List Event :=
  [.setInputBuffer sampleData, .forward]

/-- The state at the end of `firstRun`. -/
def afterFirstRun : ResNet50 := (run true firstRun asyncNet).getD asyncNet

/-- The state in which the download of the first pass is done. -/
def afterFirstDownload : ResNet50 :=
  (asyncNet.internalDLCallback 1 1 .DOWNLOAD_COMMENCED).internalDLCallback 1 1 .DOWNLOAD_DONE

/-- The values of `LayerType` that `buildLayers` names. -/
inductive LayerType where
  | BATCHNORM
  | CONVOLUTION2D
  | MAXPOOL2D
  | AVGPOOL2D
  | GEMM
deriving DecidableEq, Repr

/-- The values of `ActType` that `buildLayers` names. -/
inductive ActType where
  | NONE
  | RELU
deriving DecidableEq, Repr

/-- The value of `NormType` that `buildLayers` names. -/
inductive NormType where
  | BATCHNORM
deriving DecidableEq, Repr

/-- The first constructor argument of `UpDownLayerBuilder`. -/
inductive UpDownDirection where
  | UPLOAD
  | DOWNLOAD
deriving DecidableEq, Repr

/-- The first constructor argument of `PoolLayerBuilder`. -/
inductive PoolOp where
  | POOL_MAX
  | POOL_AVG
deriving DecidableEq, Repr

/-- The builder classes that `buildLayers` instantiates, with the constructor
arguments other than the name: direction, kernel size, pooling operation. -/
inductive BuilderClass where
  | UpDownLayerBuilder (direction : UpDownDirection)
  | GPULayerBuilder
  | ConvLayerBuilder (kernel : Nat)
  | PoolLayerBuilder (op : PoolOp)
deriving DecidableEq, Repr

/-- A layer builder as `buildLayers` configures it.  Each field records one
call of the builder chain: `type(..)`, `number(..)`,
`shape(outChannels, height, width, inChannels)`, `poolSize(..)`,
`downsample(..)`, `global()`, `deep()`, `inputPadding(..)`,
`outputPadding(..)`, `prefixAct(..)`, `postfixNorm(..)`, `residual(..)`,
`async()`; a call that is not made leaves `none` or `false`.  The context is
left out. -/
structure LayerBuilder where
  cls : BuilderClass
  name : String
  type : Option LayerType := none
  number : Nat
  outChannels : Nat
  height : Nat
  width : Nat
  inChannels : Nat
  poolSize : Option (Nat × Nat) := none
  downsample : Option Nat := none
  global : Bool := false
  deep : Bool := false
  inputPadding : Option Nat := none
  outputPadding : Option Nat := none
  prefixAct : Option ActType := none
  postfixNorm : Option NormType := none
  residual : Option (ActType × Bool) := none
  async : Bool := false
deriving DecidableEq, Repr

/-- One call `bufMgr->connectLayers(layers[producer], layers[consumer], port)`. -/
structure Connection where
  producer : Nat
  consumer : Nat
  port : Nat
deriving DecidableEq, Repr

/-- Modelled from the spec: the output shape of a layer as its builder
configures it (the layer classes that derive it are not among the sources):
output channels, and height and width divided by the downsample factor, which
is 1 when `downsample` is not called; 1 x 1 for the global pooling layer. -/
def LayerBuilder.outputShape (b : LayerBuilder) : Nat × Nat × Nat :=
  if b.global then (b.outChannels, 1, 1)
  else (b.outChannels, b.height / b.downsample.getD 1, b.width / b.downsample.getD 1)

/-- The lookup `layers[number]` in the compiled layers, by numeric id. -/
def findLayer (layers : List LayerBuilder) (number : Nat) : Option LayerBuilder :=
  layers.find? fun b => b.number == number

/-- The number of connections that bind the given input port of the given
layer. -/
def portBindings (edges : List Connection) (consumer port : Nat) : Nat :=
  (edges.filter fun e => e.consumer == consumer && e.port == port).length

namespace ResNet50

namespace Builders

/-- The builder `up` of `buildLayers` (source line 210). -/
def up (async : Bool) : LayerBuilder :=
  { cls := BuilderClass.UpDownLayerBuilder UpDownDirection.UPLOAD, name := "upload",
    number := 0, outChannels := 3, height := 224, width := 224, inChannels := 3,
    async := async }

/-- The builder `bn2` of `buildLayers` (source line 217). -/
def bn2 : LayerBuilder :=
  { cls := BuilderClass.GPULayerBuilder, name := "BN2", type := some LayerType.BATCHNORM,
    number := 2, outChannels := 3, height := 224, width := 224, inChannels := 3,
    outputPadding := some 1 }

/-- The builder `conv3` of `buildLayers` (source line 220). -/
def conv3 : LayerBuilder :=
  { cls := BuilderClass.ConvLayerBuilder 7, name := "Conv3",
    type := some LayerType.CONVOLUTION2D, number := 3, outChannels := 64, height := 224,
    width := 224, inChannels := 3, downsample := some 2, deep := true, inputPadding := some 1,
    outputPadding := some 1, postfixNorm := some NormType.BATCHNORM }

/-- The builder `maxpool4` of `buildLayers` (source line 223). -/
def maxpool4 : LayerBuilder :=
  { cls := BuilderClass.PoolLayerBuilder PoolOp.POOL_MAX, name := "MaxPool4",
    type := some LayerType.MAXPOOL2D, number := 4, outChannels := 64, height := 112,
    width := 112, inChannels := 64, poolSize := some (3, 3), downsample := some 2,
    deep := true, inputPadding := some 1, prefixAct := some ActType.RELU }

/-- The builder `bn5` of `buildLayers` (source line 226). -/
def bn5 : LayerBuilder :=
  { cls := BuilderClass.GPULayerBuilder, name := "BN5", type := some LayerType.BATCHNORM,
    number := 5, outChannels := 64, height := 56, width := 56, inChannels := 64, deep := true }

/-- The builder `conv6` of `buildLayers` (source line 229). -/
def conv6 : LayerBuilder :=
  { cls := BuilderClass.ConvLayerBuilder 1, name := "Conv6",
    type := some LayerType.CONVOLUTION2D, number := 6, outChannels := 64, height := 56,
    width := 56, inChannels := 64, deep := true, outputPadding := some 1,
    prefixAct := some ActType.RELU, postfixNorm := some NormType.BATCHNORM }

/-- The builder `conv7` of `buildLayers` (source line 232). -/
def conv7 : LayerBuilder :=
  { cls := BuilderClass.ConvLayerBuilder 1, name := "Conv7",
    type := some LayerType.CONVOLUTION2D, number := 7, outChannels := 256, height := 56,
    width := 56, inChannels := 64, deep := true, prefixAct := some ActType.RELU }

/-- The builder `conv8` of `buildLayers` (source line 235). -/
def conv8 : LayerBuilder :=
  { cls := BuilderClass.ConvLayerBuilder 3, name := "Conv8",
    type := some LayerType.CONVOLUTION2D, number := 8, outChannels := 64, height := 56,
    width := 56, inChannels := 64, deep := true, inputPadding := some 1,
    prefixAct := some ActType.RELU, postfixNorm := some NormType.BATCHNORM }

/-- The builder `conv9` of `buildLayers` (source line 238). -/
def conv9 : LayerBuilder :=
  { cls := BuilderClass.ConvLayerBuilder 1, name := "Conv9",
    type := some LayerType.CONVOLUTION2D, number := 9, outChannels := 256, height := 56,
    width := 56, inChannels := 64, deep := true, prefixAct := some ActType.RELU,
    residual := some (ActType.NONE, false) }

/-- The builder `bn10` of `buildLayers` (source line 241). -/
def bn10 : LayerBuilder :=
  { cls := BuilderClass.GPULayerBuilder, name := "BN10", type := some LayerType.BATCHNORM,
    number := 10, outChannels := 256, height := 56, width := 56, inChannels := 256,
    deep := true }

/-- The builder `conv11` of `buildLayers` (source line 244). -/
def conv11 : LayerBuilder :=
  { cls := BuilderClass.ConvLayerBuilder 1, name := "Conv11",
    type := some LayerType.CONVOLUTION2D, number := 11, outChannels := 64, height := 56,
    width := 56, inChannels := 256, deep := true, outputPadding := some 1,
    prefixAct := some ActType.RELU, postfixNorm := some NormType.BATCHNORM }

/-- The builder `conv12` of `buildLayers` (source line 247). -/
def conv12 : LayerBuilder :=
  { cls := BuilderClass.ConvLayerBuilder 3, name := "Conv12",
    type := some LayerType.CONVOLUTION2D, number := 12, outChannels := 64, height := 56,
    width := 56, inChannels := 64, deep := true, inputPadding := some 1,
    prefixAct := some ActType.RELU, postfixNorm := some NormType.BATCHNORM }

/-- The builder `conv13` of `buildLayers` (source line 250). -/
def conv13 : LayerBuilder :=
  { cls := BuilderClass.ConvLayerBuilder 1, name := "Conv13",
    type := some LayerType.CONVOLUTION2D, number := 13, outChannels := 256, height := 56,
    width := 56, inChannels := 64, deep := true, prefixAct := some ActType.RELU,
    residual := some (ActType.NONE, false) }

/-- The builder `bn14` of `buildLayers` (source line 253). -/
def bn14 : LayerBuilder :=
  { cls := BuilderClass.GPULayerBuilder, name := "BN14", type := some LayerType.BATCHNORM,
    number := 14, outChannels := 256, height := 56, width := 56, inChannels := 256,
    deep := true }

/-- The builder `conv15` of `buildLayers` (source line 256). -/
def conv15 : LayerBuilder :=
  { cls := BuilderClass.ConvLayerBuilder 1, name := "Conv15",
    type := some LayerType.CONVOLUTION2D, number := 15, outChannels := 64, height := 56,
    width := 56, inChannels := 256, deep := true, outputPadding := some 1,
    prefixAct := some ActType.RELU, postfixNorm := some NormType.BATCHNORM }

/-- The builder `conv16` of `buildLayers` (source line 259). -/
def conv16 : LayerBuilder :=
  { cls := BuilderClass.ConvLayerBuilder 3, name := "Conv16",
    type := some LayerType.CONVOLUTION2D, number := 16, outChannels := 64, height := 56,
    width := 56, inChannels := 64, deep := true, inputPadding := some 1,
    prefixAct := some ActType.RELU, postfixNorm := some NormType.BATCHNORM }

/-- The builder `conv17` of `buildLayers` (source line 262). -/
def conv17 : LayerBuilder :=
  { cls := BuilderClass.ConvLayerBuilder 1, name := "Conv17",
    type := some LayerType.CONVOLUTION2D, number := 17, outChannels := 256, height := 56,
    width := 56, inChannels := 64, deep := true, prefixAct := some ActType.RELU,
    postfixNorm := some NormType.BATCHNORM, residual := some (ActType.NONE, true) }

/-- The builder `conv18` of `buildLayers` (source line 265). -/
def conv18 : LayerBuilder :=
  { cls := BuilderClass.ConvLayerBuilder 1, name := "Conv18",
    type := some LayerType.CONVOLUTION2D, number := 18, outChannels := 128, height := 56,
    width := 56, inChannels := 256, deep := true, outputPadding := some 1,
    prefixAct := some ActType.RELU, postfixNorm := some NormType.BATCHNORM }

/-- The builder `conv19` of `buildLayers` (source line 268). -/
def conv19 : LayerBuilder :=
  { cls := BuilderClass.ConvLayerBuilder 1, name := "Conv19",
    type := some LayerType.CONVOLUTION2D, number := 19, outChannels := 512, height := 56,
    width := 56, inChannels := 256, downsample := some 2, deep := true,
    prefixAct := some ActType.RELU }

/-- The builder `conv20` of `buildLayers` (source line 271). -/
def conv20 : LayerBuilder :=
  { cls := BuilderClass.ConvLayerBuilder 3, name := "Conv20",
    type := some LayerType.CONVOLUTION2D, number := 20, outChannels := 128, height := 56,
    width := 56, inChannels := 128, downsample := some 2, deep := true, inputPadding := some 1,
    prefixAct := some ActType.RELU, postfixNorm := some NormType.BATCHNORM }

/-- The builder `conv21` of `buildLayers` (source line 274). -/
def conv21 : LayerBuilder :=
  { cls := BuilderClass.ConvLayerBuilder 1, name := "Conv21",
    type := some LayerType.CONVOLUTION2D, number := 21, outChannels := 512, height := 28,
    width := 28, inChannels := 128, deep := true, prefixAct := some ActType.RELU,
    residual := some (ActType.NONE, false) }

/-- The builder `bn22` of `buildLayers` (source line 277). -/
def bn22 : LayerBuilder :=
  { cls := BuilderClass.GPULayerBuilder, name := "BN22", type := some LayerType.BATCHNORM,
    number := 22, outChannels := 512, height := 28, width := 28, inChannels := 512,
    deep := true }

/-- The builder `conv23` of `buildLayers` (source line 280). -/
def conv23 : LayerBuilder :=
  { cls := BuilderClass.ConvLayerBuilder 1, name := "Conv23",
    type := some LayerType.CONVOLUTION2D, number := 23, outChannels := 128, height := 28,
    width := 28, inChannels := 512, deep := true, outputPadding := some 1,
    prefixAct := some ActType.RELU, postfixNorm := some NormType.BATCHNORM }

/-- The builder `conv24` of `buildLayers` (source line 283). -/
def conv24 : LayerBuilder :=
  { cls := BuilderClass.ConvLayerBuilder 3, name := "Conv24",
    type := some LayerType.CONVOLUTION2D, number := 24, outChannels := 128, height := 28,
    width := 28, inChannels := 128, deep := true, inputPadding := some 1,
    prefixAct := some ActType.RELU, postfixNorm := some NormType.BATCHNORM }

/-- The builder `conv25` of `buildLayers` (source line 286). -/
def conv25 : LayerBuilder :=
  { cls := BuilderClass.ConvLayerBuilder 1, name := "Conv25",
    type := some LayerType.CONVOLUTION2D, number := 25, outChannels := 512, height := 28,
    width := 28, inChannels := 128, deep := true, prefixAct := some ActType.RELU,
    residual := some (ActType.NONE, false) }

/-- The builder `bn26` of `buildLayers` (source line 289). -/
def bn26 : LayerBuilder :=
  { cls := BuilderClass.GPULayerBuilder, name := "BN26", type := some LayerType.BATCHNORM,
    number := 26, outChannels := 512, height := 28, width := 28, inChannels := 512,
    deep := true }

/-- The builder `conv27` of `buildLayers` (source line 292). -/
def conv27 : LayerBuilder :=
  { cls := BuilderClass.ConvLayerBuilder 1, name := "Conv27",
    type := some LayerType.CONVOLUTION2D, number := 27, outChannels := 128, height := 28,
    width := 28, inChannels := 512, deep := true, outputPadding := some 1,
    prefixAct := some ActType.RELU, postfixNorm := some NormType.BATCHNORM }

/-- The builder `conv28` of `buildLayers` (source line 295). -/
def conv28 : LayerBuilder :=
  { cls := BuilderClass.ConvLayerBuilder 3, name := "Conv28",
    type := some LayerType.CONVOLUTION2D, number := 28, outChannels := 128, height := 28,
    width := 28, inChannels := 128, deep := true, inputPadding := some 1,
    prefixAct := some ActType.RELU, postfixNorm := some NormType.BATCHNORM }

/-- The builder `conv29` of `buildLayers` (source line 298). -/
def conv29 : LayerBuilder :=
  { cls := BuilderClass.ConvLayerBuilder 1, name := "Conv29",
    type := some LayerType.CONVOLUTION2D, number := 29, outChannels := 512, height := 28,
    width := 28, inChannels := 128, deep := true, prefixAct := some ActType.RELU,
    residual := some (ActType.NONE, false) }

/-- The builder `bn30` of `buildLayers` (source line 301). -/
def bn30 : LayerBuilder :=
  { cls := BuilderClass.GPULayerBuilder, name := "BN30", type := some LayerType.BATCHNORM,
    number := 30, outChannels := 512, height := 28, width := 28, inChannels := 512,
    deep := true }

/-- The builder `conv31` of `buildLayers` (source line 304). -/
def conv31 : LayerBuilder :=
  { cls := BuilderClass.ConvLayerBuilder 1, name := "Conv31",
    type := some LayerType.CONVOLUTION2D, number := 31, outChannels := 128, height := 28,
    width := 28, inChannels := 512, deep := true, outputPadding := some 1,
    prefixAct := some ActType.RELU, postfixNorm := some NormType.BATCHNORM }

/-- The builder `conv32` of `buildLayers` (source line 307). -/
def conv32 : LayerBuilder :=
  { cls := BuilderClass.ConvLayerBuilder 3, name := "Conv32",
    type := some LayerType.CONVOLUTION2D, number := 32, outChannels := 128, height := 28,
    width := 28, inChannels := 128, deep := true, inputPadding := some 1,
    prefixAct := some ActType.RELU, postfixNorm := some NormType.BATCHNORM }

/-- The builder `conv33` of `buildLayers` (source line 310). -/
def conv33 : LayerBuilder :=
  { cls := BuilderClass.ConvLayerBuilder 1, name := "Conv33",
    type := some LayerType.CONVOLUTION2D, number := 33, outChannels := 512, height := 28,
    width := 28, inChannels := 128, deep := true, prefixAct := some ActType.RELU,
    postfixNorm := some NormType.BATCHNORM, residual := some (ActType.NONE, true) }

/-- The builder `conv34` of `buildLayers` (source line 313). -/
def conv34 : LayerBuilder :=
  { cls := BuilderClass.ConvLayerBuilder 1, name := "Conv34",
    type := some LayerType.CONVOLUTION2D, number := 34, outChannels := 256, height := 28,
    width := 28, inChannels := 512, deep := true, outputPadding := some 1,
    prefixAct := some ActType.RELU, postfixNorm := some NormType.BATCHNORM }

/-- The builder `conv35` of `buildLayers` (source line 316). -/
def conv35 : LayerBuilder :=
  { cls := BuilderClass.ConvLayerBuilder 1, name := "Conv35",
    type := some LayerType.CONVOLUTION2D, number := 35, outChannels := 1024, height := 28,
    width := 28, inChannels := 512, downsample := some 2, deep := true,
    prefixAct := some ActType.RELU }

/-- The builder `conv36` of `buildLayers` (source line 319). -/
def conv36 : LayerBuilder :=
  { cls := BuilderClass.ConvLayerBuilder 3, name := "Conv36",
    type := some LayerType.CONVOLUTION2D, number := 36, outChannels := 256, height := 28,
    width := 28, inChannels := 256, downsample := some 2, deep := true, inputPadding := some 1,
    prefixAct := some ActType.RELU, postfixNorm := some NormType.BATCHNORM }

/-- The builder `conv37` of `buildLayers` (source line 322). -/
def conv37 : LayerBuilder :=
  { cls := BuilderClass.ConvLayerBuilder 1, name := "Conv37",
    type := some LayerType.CONVOLUTION2D, number := 37, outChannels := 1024, height := 14,
    width := 14, inChannels := 256, deep := true, prefixAct := some ActType.RELU,
    residual := some (ActType.NONE, false) }

/-- The builder `bn38` of `buildLayers` (source line 325). -/
def bn38 : LayerBuilder :=
  { cls := BuilderClass.GPULayerBuilder, name := "BN38", type := some LayerType.BATCHNORM,
    number := 38, outChannels := 1024, height := 14, width := 14, inChannels := 1024,
    deep := true }

/-- The builder `conv39` of `buildLayers` (source line 328). -/
def conv39 : LayerBuilder :=
  { cls := BuilderClass.ConvLayerBuilder 1, name := "Conv39",
    type := some LayerType.CONVOLUTION2D, number := 39, outChannels := 256, height := 14,
    width := 14, inChannels := 1024, deep := true, outputPadding := some 1,
    prefixAct := some ActType.RELU, postfixNorm := some NormType.BATCHNORM }

/-- The builder `conv40` of `buildLayers` (source line 331). -/
def conv40 : LayerBuilder :=
  { cls := BuilderClass.ConvLayerBuilder 3, name := "Conv40",
    type := some LayerType.CONVOLUTION2D, number := 40, outChannels := 256, height := 14,
    width := 14, inChannels := 256, deep := true, inputPadding := some 1,
    prefixAct := some ActType.RELU, postfixNorm := some NormType.BATCHNORM }

/-- The builder `conv41` of `buildLayers` (source line 334). -/
def conv41 : LayerBuilder :=
  { cls := BuilderClass.ConvLayerBuilder 1, name := "Conv41",
    type := some LayerType.CONVOLUTION2D, number := 41, outChannels := 1024, height := 14,
    width := 14, inChannels := 256, deep := true, prefixAct := some ActType.RELU,
    residual := some (ActType.NONE, false) }

/-- The builder `bn42` of `buildLayers` (source line 337). -/
def bn42 : LayerBuilder :=
  { cls := BuilderClass.GPULayerBuilder, name := "BN42", type := some LayerType.BATCHNORM,
    number := 42, outChannels := 1024, height := 14, width := 14, inChannels := 1024,
    deep := true }

/-- The builder `conv43` of `buildLayers` (source line 340). -/
def conv43 : LayerBuilder :=
  { cls := BuilderClass.ConvLayerBuilder 1, name := "Conv43",
    type := some LayerType.CONVOLUTION2D, number := 43, outChannels := 256, height := 14,
    width := 14, inChannels := 1024, deep := true, outputPadding := some 1,
    prefixAct := some ActType.RELU, postfixNorm := some NormType.BATCHNORM }

/-- The builder `conv44` of `buildLayers` (source line 343). -/
def conv44 : LayerBuilder :=
  { cls := BuilderClass.ConvLayerBuilder 3, name := "Conv44",
    type := some LayerType.CONVOLUTION2D, number := 44, outChannels := 256, height := 14,
    width := 14, inChannels := 256, deep := true, inputPadding := some 1,
    prefixAct := some ActType.RELU, postfixNorm := some NormType.BATCHNORM }

/-- The builder `conv45` of `buildLayers` (source line 346). -/
def conv45 : LayerBuilder :=
  { cls := BuilderClass.ConvLayerBuilder 1, name := "Conv45",
    type := some LayerType.CONVOLUTION2D, number := 45, outChannels := 1024, height := 14,
    width := 14, inChannels := 256, deep := true, prefixAct := some ActType.RELU,
    residual := some (ActType.NONE, false) }

/-- The builder `bn46` of `buildLayers` (source line 349). -/
def bn46 : LayerBuilder :=
  { cls := BuilderClass.GPULayerBuilder, name := "BN46", type := some LayerType.BATCHNORM,
    number := 46, outChannels := 1024, height := 14, width := 14, inChannels := 1024,
    deep := true }

/-- The builder `conv47` of `buildLayers` (source line 352). -/
def conv47 : LayerBuilder :=
  { cls := BuilderClass.ConvLayerBuilder 1, name := "Conv47",
    type := some LayerType.CONVOLUTION2D, number := 47, outChannels := 256, height := 14,
    width := 14, inChannels := 1024, deep := true, outputPadding := some 1,
    prefixAct := some ActType.RELU, postfixNorm := some NormType.BATCHNORM }

/-- The builder `conv48` of `buildLayers` (source line 355). -/
def conv48 : LayerBuilder :=
  { cls := BuilderClass.ConvLayerBuilder 3, name := "Conv48",
    type := some LayerType.CONVOLUTION2D, number := 48, outChannels := 256, height := 14,
    width := 14, inChannels := 256, deep := true, inputPadding := some 1,
    prefixAct := some ActType.RELU, postfixNorm := some NormType.BATCHNORM }

/-- The builder `conv49` of `buildLayers` (source line 358). -/
def conv49 : LayerBuilder :=
  { cls := BuilderClass.ConvLayerBuilder 1, name := "Conv49",
    type := some LayerType.CONVOLUTION2D, number := 49, outChannels := 1024, height := 14,
    width := 14, inChannels := 256, deep := true, prefixAct := some ActType.RELU,
    residual := some (ActType.NONE, false) }

/-- The builder `bn50` of `buildLayers` (source line 361). -/
def bn50 : LayerBuilder :=
  { cls := BuilderClass.GPULayerBuilder, name := "BN50", type := some LayerType.BATCHNORM,
    number := 50, outChannels := 1024, height := 14, width := 14, inChannels := 1024,
    deep := true }

/-- The builder `conv51` of `buildLayers` (source line 364). -/
def conv51 : LayerBuilder :=
  { cls := BuilderClass.ConvLayerBuilder 1, name := "Conv51",
    type := some LayerType.CONVOLUTION2D, number := 51, outChannels := 256, height := 14,
    width := 14, inChannels := 1024, deep := true, outputPadding := some 1,
    prefixAct := some ActType.RELU, postfixNorm := some NormType.BATCHNORM }

/-- The builder `conv52` of `buildLayers` (source line 367). -/
def conv52 : LayerBuilder :=
  { cls := BuilderClass.ConvLayerBuilder 3, name := "Conv52",
    type := some LayerType.CONVOLUTION2D, number := 52, outChannels := 256, height := 14,
    width := 14, inChannels := 256, deep := true, inputPadding := some 1,
    prefixAct := some ActType.RELU, postfixNorm := some NormType.BATCHNORM }

/-- The builder `conv53` of `buildLayers` (source line 370). -/
def conv53 : LayerBuilder :=
  { cls := BuilderClass.ConvLayerBuilder 1, name := "Conv53",
    type := some LayerType.CONVOLUTION2D, number := 53, outChannels := 1024, height := 14,
    width := 14, inChannels := 256, deep := true, prefixAct := some ActType.RELU,
    residual := some (ActType.NONE, false) }

/-- The builder `bn54` of `buildLayers` (source line 373). -/
def bn54 : LayerBuilder :=
  { cls := BuilderClass.GPULayerBuilder, name := "BN54", type := some LayerType.BATCHNORM,
    number := 54, outChannels := 1024, height := 14, width := 14, inChannels := 1024,
    deep := true }

/-- The builder `conv55` of `buildLayers` (source line 376). -/
def conv55 : LayerBuilder :=
  { cls := BuilderClass.ConvLayerBuilder 1, name := "Conv55",
    type := some LayerType.CONVOLUTION2D, number := 55, outChannels := 256, height := 14,
    width := 14, inChannels := 1024, deep := true, outputPadding := some 1,
    prefixAct := some ActType.RELU, postfixNorm := some NormType.BATCHNORM }

/-- The builder `conv56` of `buildLayers` (source line 379). -/
def conv56 : LayerBuilder :=
  { cls := BuilderClass.ConvLayerBuilder 3, name := "Conv56",
    type := some LayerType.CONVOLUTION2D, number := 56, outChannels := 256, height := 14,
    width := 14, inChannels := 256, deep := true, inputPadding := some 1,
    prefixAct := some ActType.RELU, postfixNorm := some NormType.BATCHNORM }

/-- The builder `conv57` of `buildLayers` (source line 382). -/
def conv57 : LayerBuilder :=
  { cls := BuilderClass.ConvLayerBuilder 1, name := "Conv57",
    type := some LayerType.CONVOLUTION2D, number := 57, outChannels := 1024, height := 14,
    width := 14, inChannels := 256, deep := true, prefixAct := some ActType.RELU,
    postfixNorm := some NormType.BATCHNORM, residual := some (ActType.NONE, true) }

/-- The builder `conv58` of `buildLayers` (source line 385). -/
def conv58 : LayerBuilder :=
  { cls := BuilderClass.ConvLayerBuilder 1, name := "Conv58",
    type := some LayerType.CONVOLUTION2D, number := 58, outChannels := 512, height := 14,
    width := 14, inChannels := 1024, deep := true, outputPadding := some 1,
    prefixAct := some ActType.RELU, postfixNorm := some NormType.BATCHNORM }

/-- The builder `conv59` of `buildLayers` (source line 388). -/
def conv59 : LayerBuilder :=
  { cls := BuilderClass.ConvLayerBuilder 1, name := "Conv59",
    type := some LayerType.CONVOLUTION2D, number := 59, outChannels := 2048, height := 14,
    width := 14, inChannels := 1024, downsample := some 2, deep := true,
    prefixAct := some ActType.RELU }

/-- The builder `conv60` of `buildLayers` (source line 391). -/
def conv60 : LayerBuilder :=
  { cls := BuilderClass.ConvLayerBuilder 3, name := "Conv60",
    type := some LayerType.CONVOLUTION2D, number := 60, outChannels := 512, height := 14,
    width := 14, inChannels := 512, downsample := some 2, deep := true, inputPadding := some 1,
    prefixAct := some ActType.RELU, postfixNorm := some NormType.BATCHNORM }

/-- The builder `conv61` of `buildLayers` (source line 394). -/
def conv61 : LayerBuilder :=
  { cls := BuilderClass.ConvLayerBuilder 1, name := "Conv61",
    type := some LayerType.CONVOLUTION2D, number := 61, outChannels := 2048, height := 7,
    width := 7, inChannels := 512, deep := true, prefixAct := some ActType.RELU,
    residual := some (ActType.NONE, false) }

/-- The builder `bn62` of `buildLayers` (source line 397). -/
def bn62 : LayerBuilder :=
  { cls := BuilderClass.GPULayerBuilder, name := "BN62", type := some LayerType.BATCHNORM,
    number := 62, outChannels := 2048, height := 7, width := 7, inChannels := 2048,
    deep := true }

/-- The builder `conv63` of `buildLayers` (source line 400). -/
def conv63 : LayerBuilder :=
  { cls := BuilderClass.ConvLayerBuilder 1, name := "Conv63",
    type := some LayerType.CONVOLUTION2D, number := 63, outChannels := 512, height := 7,
    width := 7, inChannels := 2048, deep := true, outputPadding := some 1,
    prefixAct := some ActType.RELU, postfixNorm := some NormType.BATCHNORM }

/-- The builder `conv64` of `buildLayers` (source line 403). -/
def conv64 : LayerBuilder :=
  { cls := BuilderClass.ConvLayerBuilder 3, name := "Conv64",
    type := some LayerType.CONVOLUTION2D, number := 64, outChannels := 512, height := 7,
    width := 7, inChannels := 512, deep := true, inputPadding := some 1,
    prefixAct := some ActType.RELU, postfixNorm := some NormType.BATCHNORM }

/-- The builder `conv65` of `buildLayers` (source line 406). -/
def conv65 : LayerBuilder :=
  { cls := BuilderClass.ConvLayerBuilder 1, name := "Conv65",
    type := some LayerType.CONVOLUTION2D, number := 65, outChannels := 2048, height := 7,
    width := 7, inChannels := 512, deep := true, prefixAct := some ActType.RELU,
    residual := some (ActType.NONE, false) }

/-- The builder `bn66` of `buildLayers` (source line 409). -/
def bn66 : LayerBuilder :=
  { cls := BuilderClass.GPULayerBuilder, name := "BN66", type := some LayerType.BATCHNORM,
    number := 66, outChannels := 2048, height := 7, width := 7, inChannels := 2048,
    deep := true }

/-- The builder `conv67` of `buildLayers` (source line 412). -/
def conv67 : LayerBuilder :=
  { cls := BuilderClass.ConvLayerBuilder 1, name := "Conv67",
    type := some LayerType.CONVOLUTION2D, number := 67, outChannels := 512, height := 7,
    width := 7, inChannels := 2048, deep := true, outputPadding := some 1,
    prefixAct := some ActType.RELU, postfixNorm := some NormType.BATCHNORM }

/-- The builder `conv68` of `buildLayers` (source line 415). -/
def conv68 : LayerBuilder :=
  { cls := BuilderClass.ConvLayerBuilder 3, name := "Conv68",
    type := some LayerType.CONVOLUTION2D, number := 68, outChannels := 512, height := 7,
    width := 7, inChannels := 512, deep := true, inputPadding := some 1,
    prefixAct := some ActType.RELU, postfixNorm := some NormType.BATCHNORM }

/-- The builder `conv69` of `buildLayers` (source line 418). -/
def conv69 : LayerBuilder :=
  { cls := BuilderClass.ConvLayerBuilder 1, name := "Conv69",
    type := some LayerType.CONVOLUTION2D, number := 69, outChannels := 2048, height := 7,
    width := 7, inChannels := 512, deep := true, prefixAct := some ActType.RELU,
    postfixNorm := some NormType.BATCHNORM, residual := some (ActType.NONE, true) }

/-- The builder `globavg70` of `buildLayers` (source line 421). -/
def globavg70 : LayerBuilder :=
  { cls := BuilderClass.PoolLayerBuilder PoolOp.POOL_AVG, name := "GlobAvg70",
    type := some LayerType.AVGPOOL2D, number := 70, outChannels := 2048, height := 7,
    width := 7, inChannels := 2048, global := true, deep := true,
    prefixAct := some ActType.RELU }

/-- The builder `gemm72` of `buildLayers` (source line 424). -/
def gemm72 : LayerBuilder :=
  { cls := BuilderClass.GPULayerBuilder, name := "GEMM72", type := some LayerType.GEMM,
    number := 72, outChannels := 1000, height := 1, width := 1, inChannels := 2048,
    deep := true }

/-- The builder `down` of `buildLayers` (source line 428). -/
def down (async : Bool) : LayerBuilder :=
  { cls := BuilderClass.UpDownLayerBuilder UpDownDirection.DOWNLOAD, name := "download",
    number := 73, outChannels := 1000, height := 1, width := 1, inChannels := 1000,
    deep := true, async := async }

end Builders

/-- The builders that `ResNet50::buildLayers` pushes to the layer factory, in
the order of the source; `mt` is the preprocessor switch
`FYUSENET_MULTITHREADING`, under which the upload and the download builder are
made asynchronous when `async_` is set. -/
def buildLayers (mt : Bool) (n : ResNet50) : List LayerBuilder :=
  (if n.upload_ then [Builders.up (mt && n.async_)] else []) ++
  ([
    Builders.bn2, Builders.conv3, Builders.maxpool4, Builders.bn5, Builders.conv6,
    Builders.conv7, Builders.conv8, Builders.conv9, Builders.bn10, Builders.conv11,
    Builders.conv12, Builders.conv13, Builders.bn14, Builders.conv15, Builders.conv16,
    Builders.conv17, Builders.conv18, Builders.conv19, Builders.conv20, Builders.conv21,
    Builders.bn22, Builders.conv23, Builders.conv24, Builders.conv25, Builders.bn26,
    Builders.conv27, Builders.conv28, Builders.conv29, Builders.bn30, Builders.conv31,
    Builders.conv32, Builders.conv33, Builders.conv34, Builders.conv35, Builders.conv36,
    Builders.conv37, Builders.bn38, Builders.conv39, Builders.conv40, Builders.conv41,
    Builders.bn42, Builders.conv43, Builders.conv44, Builders.conv45, Builders.bn46,
    Builders.conv47, Builders.conv48, Builders.conv49, Builders.bn50, Builders.conv51,
    Builders.conv52, Builders.conv53, Builders.bn54, Builders.conv55, Builders.conv56,
    Builders.conv57, Builders.conv58, Builders.conv59, Builders.conv60, Builders.conv61,
    Builders.bn62, Builders.conv63, Builders.conv64, Builders.conv65, Builders.bn66,
    Builders.conv67, Builders.conv68, Builders.conv69, Builders.globavg70, Builders.gemm72 ] ++
  (if n.download_ then [Builders.down (mt && n.async_)] else []))

/-- The calls `bufMgr->connectLayers(layers[producer], layers[consumer], port)`
that `ResNet50::connectLayers` makes, in the order of the source. -/
def connections (n : ResNet50) : List Connection :=
  (if n.upload_ then [Connection.mk 0 2 0] else []) ++
  ([
    Connection.mk 2 3 0, Connection.mk 3 4 0, Connection.mk 4 5 0, Connection.mk 5 6 0,
    Connection.mk 5 7 0, Connection.mk 6 8 0, Connection.mk 7 9 1, Connection.mk 8 9 0,
    Connection.mk 9 10 0, Connection.mk 9 13 1, Connection.mk 10 11 0, Connection.mk 11 12 0,
    Connection.mk 12 13 0, Connection.mk 13 14 0, Connection.mk 13 17 1, Connection.mk 14 15 0,
    Connection.mk 15 16 0, Connection.mk 16 17 0, Connection.mk 17 18 0, Connection.mk 17 19 0,
    Connection.mk 18 20 0, Connection.mk 19 21 1, Connection.mk 20 21 0, Connection.mk 21 22 0,
    Connection.mk 21 25 1, Connection.mk 22 23 0, Connection.mk 23 24 0, Connection.mk 24 25 0,
    Connection.mk 25 26 0, Connection.mk 25 29 1, Connection.mk 26 27 0, Connection.mk 27 28 0,
    Connection.mk 28 29 0, Connection.mk 29 30 0, Connection.mk 29 33 1, Connection.mk 30 31 0,
    Connection.mk 31 32 0, Connection.mk 32 33 0, Connection.mk 33 34 0, Connection.mk 33 35 0,
    Connection.mk 34 36 0, Connection.mk 35 37 1, Connection.mk 36 37 0, Connection.mk 37 38 0,
    Connection.mk 37 41 1, Connection.mk 38 39 0, Connection.mk 39 40 0, Connection.mk 40 41 0,
    Connection.mk 41 42 0, Connection.mk 41 45 1, Connection.mk 42 43 0, Connection.mk 43 44 0,
    Connection.mk 44 45 0, Connection.mk 45 46 0, Connection.mk 45 49 1, Connection.mk 46 47 0,
    Connection.mk 47 48 0, Connection.mk 48 49 0, Connection.mk 49 50 0, Connection.mk 49 53 1,
    Connection.mk 50 51 0, Connection.mk 51 52 0, Connection.mk 52 53 0, Connection.mk 53 54 0,
    Connection.mk 53 57 1, Connection.mk 54 55 0, Connection.mk 55 56 0, Connection.mk 56 57 0,
    Connection.mk 57 58 0, Connection.mk 57 59 0, Connection.mk 58 60 0, Connection.mk 59 61 1,
    Connection.mk 60 61 0, Connection.mk 61 62 0, Connection.mk 61 65 1, Connection.mk 62 63 0,
    Connection.mk 63 64 0, Connection.mk 64 65 0, Connection.mk 65 66 0, Connection.mk 65 69 1,
    Connection.mk 66 67 0, Connection.mk 67 68 0, Connection.mk 68 69 0, Connection.mk 69 70 0,
    Connection.mk 70 72 0 ] ++
  (if n.download_ then [Connection.mk 72 73 0] else []))

/-- The edge relation of the layer graph: some connection made by
`connectLayers` leads from layer `a` to layer `b`. -/
def feeds (n : ResNet50) (a b : Nat) : Prop :=
  ∃ e ∈ connections n, e.producer = a ∧ e.consumer = b

end ResNet50

/-- The input shape of a layer as its builder configures it with
`shape(outChannels, height, width, inChannels)`: input channels, height,
width. -/
def LayerBuilder.inputShape (b : LayerBuilder) : Nat × Nat × Nat :=
  (b.inChannels, b.height, b.width)

/-- The lookup `layers["name"]` in the compiled layers, by name. -/
def findLayerByName (layers : List LayerBuilder) (name : String) : Option LayerBuilder :=
  layers.find? fun b => b.name == name

/-- The numeric ids that occur as producer or as consumer of a connection. -/
def referencedIds (edges : List Connection) : List Nat :=
  edges.map Connection.producer ++ edges.map Connection.consumer

namespace ResNet50

/-- The layers that the buffer part of `connectLayers` (source lines 529-554)
looks up besides the edges: `layers["download"]` or `layers[73]` with
download, `layers[72]` without. -/
def outputLayerRefs (mt : Bool) (n : ResNet50) : List (Option LayerBuilder) :=
  if n.download_ then
    if mt && n.async_ then [findLayerByName (n.buildLayers mt) "download"]
    else [findLayer (n.buildLayers mt) 73]
  else [findLayer (n.buildLayers mt) 72]

end ResNet50

/-- The constant `IMAGENET_CLASS_COUNT` of the benchmark. -/
def IMAGENET_CLASS_COUNT : Nat := 1000

/-- The body of the benchmark's class-selection loop, on the pair
(`argmax`, `valmax`): `if (ptr[i] > valmax) { argmax = i; valmax = ptr[i]; }`. -/
def argmaxStep {α : Type} [LinearOrder α] (ptr : Nat → α) (st : Nat × α) (i : Nat) : Nat × α :=
  if st.2 < ptr i then (i, ptr i) else st

/-- The benchmark's class selection on the scores `ptr[0 .. count)`:
`argmax = 0; valmax = ptr[0]; for (i = 1; i < count; i++) ...`, giving
`argmax`. -/
def argmaxLoop {α : Type} [LinearOrder α] (ptr : Nat → α) (count : Nat) : Nat :=
  ((List.range' 1 (count - 1)).foldl (argmaxStep ptr) (0, ptr 0)).1

/-- The value of `matchedclass` in the benchmark: `-1` when there is no output
buffer, otherwise the result of the selection loop over
`IMAGENET_CLASS_COUNT` scores. -/
def matchedclass {α : Type} [LinearOrder α] (chanbuf : Option (Nat → α)) : Int :=
  match chanbuf with
  | none => -1
  | some ptr => (argmaxLoop ptr IMAGENET_CLASS_COUNT : Nat)

/-- Class scores for the examples: the maximum 7 is taken at the indices 3 and
5. -/
def sampleScores : Nat → Int := fun i => if i = 3 ∨ i = 5 then 7 else (i % 4 : Nat)

/-- Outcome of the benchmark's label lookup: a value, the dereference of a null
pointer, or a read outside the array `labels`. -/
inductive Lookup (α : Type) where
  | ok (a : α)
  | nullDeref
  | outOfBounds
deriving DecidableEq, Repr

/-- The array `labels` after `fread`: `new char[sz+1]` holds the `sz` bytes of
the file followed by one byte that the program never writes. -/
def loadLabels (file : List Nat) (last : Nat) : List Nat :=
  file ++ [last]

/-- The C library function `strpbrk(p, "\n\r")` on the bytes from `p` on: the
offset of the first byte 10 or 13, `NULL` if a zero byte comes first. -/
def strpbrkFrom : List Nat → Lookup (Option Nat)
  | [] => Lookup.outOfBounds
  | c :: cs =>
    if c = 0 then Lookup.ok none
    else if c = 10 ∨ c = 13 then Lookup.ok (some 0)
    else
      match strpbrkFrom cs with
      | Lookup.ok (some k) => Lookup.ok (some (k + 1))
      | r => r

/-- The call `strpbrk(ptr, "\n\r")` with `ptr` an index into the array. -/
def strpbrk (buf : List Nat) (ptr : Nat) : Lookup (Option Nat) :=
  match strpbrkFrom (buf.drop ptr) with
  | Lookup.ok (some k) => Lookup.ok (some (ptr + k))
  | r => r

/-- The loop `while (*lineend == 10 || *lineend == 13) lineend++;` on the bytes
from `lineend` on: the number of bytes skipped. -/
def skipTerminators : List Nat → Lookup Nat
  | [] => Lookup.outOfBounds
  | c :: cs =>
    if c = 10 ∨ c = 13 then
      match skipTerminators cs with
      | Lookup.ok k => Lookup.ok (k + 1)
      | r => r
    else Lookup.ok 0

/-- The two statements that the lookup runs per line:
`lineend = strpbrk(ptr, "\n\r"); while (*lineend == 10 || *lineend == 13) lineend++;`
giving the final `lineend`. -/
def nextLine (buf : List Nat) (ptr : Nat) : Lookup Nat :=
  match strpbrk buf ptr with
  | Lookup.ok none => Lookup.nullDeref
  | Lookup.ok (some lineend) =>
    (match skipTerminators (buf.drop lineend) with
     | Lookup.ok k => Lookup.ok (lineend + k)
     | Lookup.nullDeref => Lookup.nullDeref
     | Lookup.outOfBounds => Lookup.outOfBounds)
  | Lookup.nullDeref => Lookup.nullDeref
  | Lookup.outOfBounds => Lookup.outOfBounds

/-- The loop `for (int c = 0; c < matchedclass; c++) { ...; ptr = lineend; }`
of the lookup, with `count` rounds left. -/
def seekLine (buf : List Nat) : Nat → Nat → Lookup Nat
  | 0, ptr => Lookup.ok ptr
  | count + 1, ptr =>
    match nextLine buf ptr with
    | Lookup.ok lineend => seekLine buf count lineend
    | r => r

/-- The bytes that `std::cout << ptr` prints: those from `ptr` up to the first
zero byte. -/
def cstring : List Nat → Lookup (List Nat)
  | [] => Lookup.outOfBounds
  | c :: cs =>
    if c = 0 then Lookup.ok []
    else
      match cstring cs with
      | Lookup.ok t => Lookup.ok (c :: t)
      | r => r

/-- The benchmark's label lookup for `matchedclass` on the array `labels`: the
bytes it prints between the two newlines. -/
def labelLookup (buf : List Nat) (matchedclass : Nat) : Lookup (List Nat) :=
  match seekLine buf matchedclass 0 with
  | Lookup.ok ptr =>
    (match nextLine buf ptr with
     | Lookup.ok lineend => cstring ((buf.set (lineend - 1) 0).drop ptr)
     | Lookup.nullDeref => Lookup.nullDeref
     | Lookup.outOfBounds => Lookup.outOfBounds)
  | Lookup.nullDeref => Lookup.nullDeref
  | Lookup.outOfBounds => Lookup.outOfBounds

/-- The bytes of a text. -/
def bytesOf (s : String) : List Nat :=
  s.toList.map Char.toNat

namespace ResNet50

/-- The slot that `buf` points to when `setInputBuffer` has got past its wait
in the multithreaded build: the selection made on the state left by the
allocation loop. -/
def targetSlot (n : ResNet50) : Fin ASYNC_BUFFERS :=
  selectBuffer (allocInBuffers n (numbuffers true n))

/-- The upload buffers are distinct allocations: every pool buffer has a
non-null address that the allocator has handed out, and the buffers of two
different slots have different addresses. -/
def poolFresh (n : ResNet50) : Prop :=
  (∀ i b, n.inBuffers_ i = some b → 0 < b.addr ∧ b.addr ≤ n.nextAddr) ∧
  (∀ i j b c, i ≠ j → n.inBuffers_ i = some b → n.inBuffers_ j = some c → b.addr ≠ c.addr)

end ResNet50

/-- Whether the event is a call of `setInputBuffer`. -/
def Event.isSetInput : Event → Bool
  | .setInputBuffer _ => true
  | _ => false

/-- Bookkeeping of the uploads that were accepted and have not reached
`UPLOAD_DONE`, as the list of the slots they occupy, oldest first: an accepted
`setInputBuffer` call enters its slot at the end, an `UPLOAD_DONE` callback
removes the oldest entry (the callbacks arrive in the order in which the
uploads were accepted). -/
def trackPending (n : ResNet50) (pending : List (Fin ASYNC_BUFFERS)) :
    Event → List (Fin ASYNC_BUFFERS)
  | .setInputBuffer _ => pending ++ [n.targetSlot]
  | .internalULCallback _ _ .UPLOAD_DONE => pending.tail
  | _ => pending

/-- The slots with an upload not yet done at the end of a sequence of calls. -/
def pendingAfter : List Event → ResNet50 → List (Fin ASYNC_BUFFERS) → List (Fin ASYNC_BUFFERS)
  | [], _, pending => pending
  | e :: es, n, pending =>
    match step true n e with
    | .ok n1 => pendingAfter es n1 (trackPending n pending e)
    | .blocked => pending
    | .nullDeref => pending

/-- Callbacks and a `forward` call between two uploads. -/
def betweenTrace : List Event :=
  [.forward, .internalULCallback 1 3 .UPLOAD_COMMENCED]

/-- The state at the end of `betweenTrace`, started after the first upload. -/
def afterBetweenTrace : ResNet50 :=
  (run true betweenTrace afterFirstUpload).getD afterFirstUpload

/-- The state after the second upload. -/
def afterSecondUpload : ResNet50 :=
  (afterBetweenTrace.setInputBuffer true sampleData).getD afterBetweenTrace

/-- Three uploads, the first one done before the third is accepted. -/
def threeUploads : List Event :=
  [.setInputBuffer sampleData, .forward, .internalULCallback 1 3 .UPLOAD_COMMENCED,
   .setInputBuffer sampleData, .forward, .internalULCallback 2 4 .UPLOAD_COMMENCED,
   .internalULCallback 1 3 .UPLOAD_DONE]

/-- The state at the end of `threeUploads`. -/
def afterThreeUploads : ResNet50 := (run true threeUploads asyncNet).getD asyncNet

namespace ResNet50

theorem allocInBuffer_frame (n : ResNet50) (i : Fin ASYNC_BUFFERS) :
    (allocInBuffer n i).usedUploadBuffers_ = n.usedUploadBuffers_ ∧
    (allocInBuffer n i).uploadBusy_ = n.uploadBusy_ ∧
    (allocInBuffer n i).usedDownloadBuffers_ = n.usedDownloadBuffers_ ∧
    (allocInBuffer n i).async_ = n.async_ ∧
    (allocInBuffer n i).upload = n.upload ∧
    (allocInBuffer n i).download = n.download ∧
    (allocInBuffer n i).effects = n.effects ∧
    (allocInBuffer n i).asyncDLBuffers_ = n.asyncDLBuffers_ ∧
    (allocInBuffer n i).download_ = n.download_ ∧
    (allocInBuffer n i).upReady_ = n.upReady_ ∧
    (allocInBuffer n i).downReady_ = n.downReady_ := by
  unfold allocInBuffer
  split <;> simp

theorem allocInBuffer_some (n : ResNet50) (i : Fin ASYNC_BUFFERS) :
    ((allocInBuffer n i).inBuffers_ i).isSome = true := by
  unfold allocInBuffer
  split
  · simp [*]
  · simp

theorem allocInBuffer_keeps (n : ResNet50) (i j : Fin ASYNC_BUFFERS)
    (h : (n.inBuffers_ j).isSome = true) : ((allocInBuffer n i).inBuffers_ j) = n.inBuffers_ j := by
  unfold allocInBuffer
  split
  · rfl
  · rename_i hn
    have : j ≠ i := by
      intro hji
      subst hji
      simp [hn] at h
    simp [Function.update, this]

theorem allocInBuffers_frame (n : ResNet50) (k : Nat) :
    (allocInBuffers n k).usedUploadBuffers_ = n.usedUploadBuffers_ ∧
    (allocInBuffers n k).uploadBusy_ = n.uploadBusy_ ∧
    (allocInBuffers n k).usedDownloadBuffers_ = n.usedDownloadBuffers_ ∧
    (allocInBuffers n k).async_ = n.async_ ∧
    (allocInBuffers n k).upload = n.upload ∧
    (allocInBuffers n k).download = n.download ∧
    (allocInBuffers n k).effects = n.effects ∧
    (allocInBuffers n k).asyncDLBuffers_ = n.asyncDLBuffers_ ∧
    (allocInBuffers n k).download_ = n.download_ ∧
    (allocInBuffers n k).upReady_ = n.upReady_ ∧
    (allocInBuffers n k).downReady_ = n.downReady_ := by
  unfold allocInBuffers
  simp only [List.foldl]
  have h0 := allocInBuffer_frame n 0
  have h1 := allocInBuffer_frame (allocInBuffer n 0) 1
  have h2 := allocInBuffer_frame n 1
  split <;> split <;> simp_all

theorem allocInBuffers_two (n : ResNet50) (i : Fin ASYNC_BUFFERS) :
    ((allocInBuffers n ASYNC_BUFFERS).inBuffers_ i).isSome = true := by
  unfold allocInBuffers
  simp only [List.foldl]
  have h0 := allocInBuffer_some n 0
  have h1 := allocInBuffer_some (allocInBuffer n 0) 1
  have h01 := allocInBuffer_keeps (allocInBuffer n 0) 1 0 h0
  fin_cases i
  · simp [h01, h0]
  · simpa using h1


theorem uploadWait_iff (n : ResNet50) :
    uploadWait n = true ↔
      (n.uploadBusy_ = false ∧ n.usedUploadBuffers_ < (ASYNC_BUFFERS : Int)) := by
  simp [uploadWait]

theorem uploadWait_allocInBuffers (n : ResNet50) (k : Nat) :
    uploadWait (allocInBuffers n k) = uploadWait n := by
  obtain ⟨h1, h2, -⟩ := allocInBuffers_frame n k
  simp [uploadWait, h1, h2]

theorem setInputBuffer_mt (n : ResNet50) (data : Nat → Nat) :
    n.setInputBuffer true data =
      if uploadWait n = true then
        copyToBuffer
          { allocInBuffers n (if n.async_ = true then ASYNC_BUFFERS else 1) with
            usedUploadBuffers_ := n.usedUploadBuffers_ + 1, uploadBusy_ := true }
          (selectBuffer (allocInBuffers n (if n.async_ = true then ASYNC_BUFFERS else 1))) data
      else Result.blocked := by
  unfold setInputBuffer
  simp only [if_true, uploadWait_allocInBuffers]
  rw [(allocInBuffers_frame n _).1]

theorem copyToBuffer_pastWait (n : ResNet50) (slot : Fin ASYNC_BUFFERS) (data : Nat → Nat) :
    (copyToBuffer n slot data).pastWait = true := by
  unfold copyToBuffer
  split <;> rfl

theorem setInputBuffer_pastWait (n : ResNet50) (data : Nat → Nat) :
    (n.setInputBuffer true data).pastWait = uploadWait n := by
  rw [setInputBuffer_mt]
  cases hw : uploadWait n
  · simp [Result.pastWait]
  · simp [copyToBuffer_pastWait]

theorem copyToBuffer_ok {n n1 : ResNet50} {slot : Fin ASYNC_BUFFERS} {data : Nat → Nat}
    (h : copyToBuffer n slot data = Result.ok n1) :
    n1.usedUploadBuffers_ = n.usedUploadBuffers_ ∧ n1.uploadBusy_ = n.uploadBusy_ ∧
    n1.usedDownloadBuffers_ = n.usedDownloadBuffers_ ∧ n1.async_ = n.async_ ∧
    n1.download_ = n.download_ ∧ n1.download = n.download ∧ n1.effects = n.effects ∧
    n1.asyncDLBuffers_ = n.asyncDLBuffers_ ∧ n1.upReady_ = n.upReady_ ∧
    n1.downReady_ = n.downReady_ := by
  unfold copyToBuffer at h
  split at h
  · cases h
  · cases h
    simp

theorem setInputBuffer_ok {n n1 : ResNet50} {data : Nat → Nat}
    (h : n.setInputBuffer true data = Result.ok n1) :
    uploadWait n = true ∧ n1.usedUploadBuffers_ = n.usedUploadBuffers_ + 1 ∧
    n1.uploadBusy_ = true ∧ n1.usedDownloadBuffers_ = n.usedDownloadBuffers_ ∧
    n1.async_ = n.async_ ∧ n1.download_ = n.download_ ∧ n1.download = n.download ∧
    n1.effects = n.effects ∧ n1.asyncDLBuffers_ = n.asyncDLBuffers_ ∧
    n1.upReady_ = n.upReady_ ∧ n1.downReady_ = n.downReady_ := by
  have hp := setInputBuffer_pastWait n data
  rw [h] at hp
  have hw : uploadWait n = true := by simpa [Result.pastWait] using hp.symm
  refine ⟨hw, ?_⟩
  rw [setInputBuffer_mt, if_pos hw] at h
  have hc := copyToBuffer_ok h
  have ha := allocInBuffers_frame n (if n.async_ = true then ASYNC_BUFFERS else 1)
  simp only at hc
  obtain ⟨c1, c2, c3, c4, c5, c6, c7, c8, c9, c10⟩ := hc
  obtain ⟨-, -, a3, a4, -, a6, a7, a8, a9, a10, a11⟩ := ha
  exact ⟨c1, c2, c3.trans a3, c4.trans a4, c5.trans a9, c6.trans a6, c7.trans a7,
    c8.trans a8, c9.trans a10, c10.trans a11⟩

theorem setInputBuffer_async_ok (n : ResNet50) (data : Nat → Nat) (ha : n.async_ = true)
    (hw : uploadWait n = true) : ∃ n1, n.setInputBuffer true data = Result.ok n1 := by
  rw [setInputBuffer_mt, if_pos hw]
  simp only [ha, if_true]
  have hs := allocInBuffers_two n (selectBuffer (allocInBuffers n ASYNC_BUFFERS))
  unfold copyToBuffer
  simp only
  split
  · rename_i hnone
    simp [hnone] at hs
  · exact ⟨_, rfl⟩

end ResNet50

namespace ResNet50

theorem refreshInputTexture_frame (n : ResNet50) :
    (refreshInputTexture n).usedUploadBuffers_ = n.usedUploadBuffers_ ∧
    (refreshInputTexture n).uploadBusy_ = n.uploadBusy_ ∧
    (refreshInputTexture n).async_ = n.async_ ∧
    (refreshInputTexture n).download_ = n.download_ ∧
    (refreshInputTexture n).usedDownloadBuffers_ = n.usedDownloadBuffers_ ∧
    (refreshInputTexture n).seqNo = n.seqNo ∧
    (refreshInputTexture n).effects = n.effects := by
  unfold refreshInputTexture
  split <;> simp

theorem forward_async_download (n : ResNet50) (ha : n.async_ = true) (hd : n.download_ = true) :
    n.forward true =
      if downloadWait n = true then
        Result.ok (NeuralNetwork.forward
          { refreshInputTexture n with usedDownloadBuffers_ := n.usedDownloadBuffers_ + 1 })
      else Result.blocked := by
  obtain ⟨-, -, r3, r4, r5, -⟩ := refreshInputTexture_frame n
  unfold forward
  simp only [if_true, r3, r4, r5, ha, hd, downloadWait]

theorem forward_ok {n n1 : ResNet50} {mt : Bool} (h : n.forward mt = Result.ok n1) :
    n1.usedUploadBuffers_ = n.usedUploadBuffers_ ∧ n1.uploadBusy_ = n.uploadBusy_ ∧
    n1.async_ = n.async_ ∧ n1.download_ = n.download_ := by
  obtain ⟨r1, r2, r3, r4, -⟩ := refreshInputTexture_frame n
  unfold forward at h
  simp only [NeuralNetwork.forward] at h
  split at h <;> (try split at h) <;> (try split at h) <;> (try split at h) <;>
    cases h <;> simp [r1, r2, r3, r4]

theorem internalULCallback_frame (n : ResNet50) (s : Nat) (b : Ptr) (st : AsyncState) :
    (n.internalULCallback s b st).usedDownloadBuffers_ = n.usedDownloadBuffers_ ∧
    (n.internalULCallback s b st).async_ = n.async_ ∧
    (n.internalULCallback s b st).download_ = n.download_ ∧
    (n.internalULCallback s b st).download = n.download ∧
    (n.internalULCallback s b st).asyncDLBuffers_ = n.asyncDLBuffers_ := by
  unfold internalULCallback
  cases st <;> simp
  all_goals (split <;> simp)

theorem internalULCallback_upload (n : ResNet50) (s : Nat) (b : Ptr) (st : AsyncState) :
    (n.internalULCallback s b st).usedUploadBuffers_ =
        (if st = AsyncState.UPLOAD_DONE then n.usedUploadBuffers_ - 1
          else n.usedUploadBuffers_) ∧
    (n.internalULCallback s b st).uploadBusy_ =
        (if st = AsyncState.UPLOAD_COMMENCED then false else n.uploadBusy_) := by
  unfold internalULCallback
  cases st <;> simp
  all_goals (split <;> simp)

theorem internalDLCallback_frame (n : ResNet50) (s : Nat) (b : Ptr) (st : AsyncState) :
    (n.internalDLCallback s b st).usedUploadBuffers_ = n.usedUploadBuffers_ ∧
    (n.internalDLCallback s b st).uploadBusy_ = n.uploadBusy_ ∧
    (n.internalDLCallback s b st).async_ = n.async_ ∧
    (n.internalDLCallback s b st).download_ = n.download_ ∧
    (n.internalDLCallback s b st).usedDownloadBuffers_ =
      (if st = AsyncState.DOWNLOAD_DONE then n.usedDownloadBuffers_ - 1
        else n.usedDownloadBuffers_) := by
  unfold internalDLCallback
  cases st <;> simp
  all_goals (split <;> simp)

end ResNet50

theorem run_nil (mt : Bool) (n : ResNet50) : run mt [] n = Result.ok n := rfl

theorem run_cons_ok {mt : Bool} {e : Event} {es : List Event} {n n2 : ResNet50}
    (h : run mt (e :: es) n = Result.ok n2) :
    ∃ n1, step mt n e = Result.ok n1 ∧ run mt es n1 = Result.ok n2 := by
  simp only [run] at h
  split at h
  · exact ⟨_, by assumption, h⟩
  · cases h
  · cases h

theorem upload_bound_aux (evs : List Event) :
    ∀ (k : Nat) (n n2 : ResNet50), n.usedUploadBuffers_ = (k : Int) → k ≤ ASYNC_BUFFERS →
      run true evs n = Result.ok n2 → uploadDiscipline k evs = true →
      0 ≤ n2.usedUploadBuffers_ ∧ n2.usedUploadBuffers_ ≤ (ASYNC_BUFFERS : Int) := by
  induction evs with
  | nil =>
    intro k n n2 hk hle hrun _
    cases hrun
    rw [hk]
    exact ⟨Int.ofNat_nonneg k, by exact_mod_cast hle⟩
  | cons e es ih =>
    intro k n n2 hk hle hrun hdisc
    obtain ⟨n1, hstep, hrest⟩ := run_cons_ok hrun
    cases e with
    | setInputBuffer data =>
      simp only [step] at hstep
      obtain ⟨hw, hu, -⟩ := ResNet50.setInputBuffer_ok hstep
      have hlt := ((ResNet50.uploadWait_iff n).1 hw).2
      rw [hk] at hlt
      have hlt2 : k < ASYNC_BUFFERS := by exact_mod_cast hlt
      simp only [uploadDiscipline] at hdisc
      exact ih (k + 1) n1 n2 (by rw [hu, hk]; push_cast; rfl) hlt2 hrest hdisc
    | forward =>
      simp only [step] at hstep
      obtain ⟨hu, -⟩ := ResNet50.forward_ok hstep
      simp only [uploadDiscipline] at hdisc
      exact ih k n1 n2 (by rw [hu, hk]) hle hrest hdisc
    | internalULCallback s b st =>
      simp only [step] at hstep
      cases hstep
      have hu := (ResNet50.internalULCallback_upload n s b st).1
      cases st with
      | UPLOAD_DONE =>
        simp only [uploadDiscipline, Bool.and_eq_true, decide_eq_true_eq] at hdisc
        obtain ⟨hpos, hdisc⟩ := hdisc
        refine ih (k - 1) _ n2 ?_ (by omega) hrest hdisc
        rw [hu, hk]
        simp only [if_true]
        omega
      | UPLOAD_COMMENCED =>
        simp only [uploadDiscipline] at hdisc
        exact ih k _ n2 (by rw [hu, hk]; simp) hle hrest hdisc
      | DOWNLOAD_COMMENCED =>
        simp only [uploadDiscipline] at hdisc
        exact ih k _ n2 (by rw [hu, hk]; simp) hle hrest hdisc
      | DOWNLOAD_DONE =>
        simp only [uploadDiscipline] at hdisc
        exact ih k _ n2 (by rw [hu, hk]; simp) hle hrest hdisc
    | internalDLCallback s b st =>
      simp only [step] at hstep
      cases hstep
      have hu := (ResNet50.internalDLCallback_frame n s b st).1
      simp only [uploadDiscipline] at hdisc
      exact ih k _ n2 (by rw [hu, hk]) hle hrest hdisc

theorem forward_async_download_ok {n n1 : ResNet50} (ha : n.async_ = true)
    (hd : n.download_ = true) (h : n.forward true = Result.ok n1) :
    n.usedDownloadBuffers_ < (ASYNC_BUFFERS : Int) ∧
    n1 = NeuralNetwork.forward
      { ResNet50.refreshInputTexture n with
        usedDownloadBuffers_ := n.usedDownloadBuffers_ + 1 } := by
  rw [ResNet50.forward_async_download n ha hd] at h
  split at h
  · rename_i hw
    cases h
    exact ⟨by simpa [ResNet50.downloadWait] using hw, rfl⟩
  · cases h

theorem download_bound_aux (evs : List Event) :
    ∀ (k : Nat) (n n2 : ResNet50), n.async_ = true → n.download_ = true →
      n.usedDownloadBuffers_ = (k : Int) → k ≤ ASYNC_BUFFERS →
      run true evs n = Result.ok n2 → downloadDiscipline k evs = true →
      0 ≤ n2.usedDownloadBuffers_ ∧ n2.usedDownloadBuffers_ ≤ (ASYNC_BUFFERS : Int) := by
  induction evs with
  | nil =>
    intro k n n2 _ _ hk hle hrun _
    cases hrun
    rw [hk]
    exact ⟨Int.ofNat_nonneg k, by exact_mod_cast hle⟩
  | cons e es ih =>
    intro k n n2 ha hd hk hle hrun hdisc
    obtain ⟨n1, hstep, hrest⟩ := run_cons_ok hrun
    cases e with
    | setInputBuffer data =>
      simp only [step] at hstep
      obtain ⟨-, -, -, hu, ha1, hd1, -⟩ := ResNet50.setInputBuffer_ok hstep
      simp only [downloadDiscipline] at hdisc
      exact ih k n1 n2 (ha1.trans ha) (hd1.trans hd) (hu.trans hk) hle hrest hdisc
    | forward =>
      simp only [step] at hstep
      obtain ⟨hlt, heq⟩ := forward_async_download_ok ha hd hstep
      obtain ⟨-, -, ha1, hd1⟩ := ResNet50.forward_ok hstep
      rw [hk] at hlt
      have hlt2 : k < ASYNC_BUFFERS := by exact_mod_cast hlt
      simp only [downloadDiscipline] at hdisc
      refine ih (k + 1) n1 n2 (ha1.trans ha) (hd1.trans hd) ?_ hlt2 hrest hdisc
      rw [heq]
      simp only [NeuralNetwork.forward, hk]
      push_cast
      rfl
    | internalULCallback s b st =>
      simp only [step] at hstep
      cases hstep
      obtain ⟨hu, ha1, hd1, -⟩ := ResNet50.internalULCallback_frame n s b st
      have hdisc2 : downloadDiscipline k es = true := by
        cases st <;> simpa only [downloadDiscipline] using hdisc
      exact ih k _ n2 (ha1.trans ha) (hd1.trans hd) (hu.trans hk) hle hrest hdisc2
    | internalDLCallback s b st =>
      simp only [step] at hstep
      cases hstep
      obtain ⟨-, -, ha1, hd1, hu⟩ := ResNet50.internalDLCallback_frame n s b st
      cases st with
      | DOWNLOAD_DONE =>
        simp only [downloadDiscipline, Bool.and_eq_true, decide_eq_true_eq] at hdisc
        obtain ⟨hpos, hdisc⟩ := hdisc
        refine ih (k - 1) _ n2 (ha1.trans ha) (hd1.trans hd) ?_ (by omega) hrest hdisc
        rw [hu, hk]
        simp only [if_true]
        omega
      | UPLOAD_COMMENCED =>
        simp only [downloadDiscipline] at hdisc
        exact ih k _ n2 (ha1.trans ha) (hd1.trans hd) (by rw [hu, hk]; simp) hle hrest hdisc
      | UPLOAD_DONE =>
        simp only [downloadDiscipline] at hdisc
        exact ih k _ n2 (ha1.trans ha) (hd1.trans hd) (by rw [hu, hk]; simp) hle hrest hdisc
      | DOWNLOAD_COMMENCED =>
        simp only [downloadDiscipline] at hdisc
        exact ih k _ n2 (ha1.trans ha) (hd1.trans hd) (by rw [hu, hk]; simp) hle hrest hdisc

theorem busy_stays (evs : List Event) :
    ∀ (n n2 : ResNet50), n.uploadBusy_ = true → run true evs n = Result.ok n2 →
      evs.any Event.isUploadCommenced = false → n2.uploadBusy_ = true := by
  induction evs with
  | nil =>
    intro n n2 hb hrun _
    cases hrun
    exact hb
  | cons e es ih =>
    intro n n2 hb hrun hno
    obtain ⟨n1, hstep, hrest⟩ := run_cons_ok hrun
    simp only [List.any_cons, Bool.or_eq_false_iff] at hno
    obtain ⟨hno1, hno2⟩ := hno
    cases e with
    | setInputBuffer data =>
      simp only [step] at hstep
      obtain ⟨-, -, hb1, -⟩ := ResNet50.setInputBuffer_ok hstep
      exact ih n1 n2 hb1 hrest hno2
    | forward =>
      simp only [step] at hstep
      obtain ⟨-, hb1, -⟩ := ResNet50.forward_ok hstep
      exact ih n1 n2 (hb1.trans hb) hrest hno2
    | internalULCallback s b st =>
      simp only [step] at hstep
      cases hstep
      have hu := (ResNet50.internalULCallback_upload n s b st).2
      cases st with
      | UPLOAD_COMMENCED => simp [Event.isUploadCommenced] at hno1
      | UPLOAD_DONE => exact ih _ n2 (by rw [hu]; simpa using hb) hrest hno2
      | DOWNLOAD_COMMENCED => exact ih _ n2 (by rw [hu]; simpa using hb) hrest hno2
      | DOWNLOAD_DONE => exact ih _ n2 (by rw [hu]; simpa using hb) hrest hno2
    | internalDLCallback s b st =>
      simp only [step] at hstep
      cases hstep
      have hu := (ResNet50.internalDLCallback_frame n s b st).2.1
      exact ih _ n2 (hu.trans hb) hrest hno2

theorem pool_full_stays (evs : List Event) :
    ∀ (n n2 : ResNet50), (ASYNC_BUFFERS : Int) ≤ n.usedUploadBuffers_ →
      run true evs n = Result.ok n2 → evs.any Event.isUploadDone = false →
      (ASYNC_BUFFERS : Int) ≤ n2.usedUploadBuffers_ := by
  induction evs with
  | nil =>
    intro n n2 hb hrun _
    cases hrun
    exact hb
  | cons e es ih =>
    intro n n2 hb hrun hno
    obtain ⟨n1, hstep, hrest⟩ := run_cons_ok hrun
    simp only [List.any_cons, Bool.or_eq_false_iff] at hno
    obtain ⟨hno1, hno2⟩ := hno
    cases e with
    | setInputBuffer data =>
      simp only [step] at hstep
      obtain ⟨hw, -⟩ := ResNet50.setInputBuffer_ok hstep
      have hlt := ((ResNet50.uploadWait_iff n).1 hw).2
      omega
    | forward =>
      simp only [step] at hstep
      obtain ⟨hu, -⟩ := ResNet50.forward_ok hstep
      exact ih n1 n2 (by rw [hu]; exact hb) hrest hno2
    | internalULCallback s b st =>
      simp only [step] at hstep
      cases hstep
      have hu := (ResNet50.internalULCallback_upload n s b st).1
      cases st with
      | UPLOAD_DONE => simp [Event.isUploadDone] at hno1
      | UPLOAD_COMMENCED => exact ih _ n2 (by rw [hu]; simpa using hb) hrest hno2
      | DOWNLOAD_COMMENCED => exact ih _ n2 (by rw [hu]; simpa using hb) hrest hno2
      | DOWNLOAD_DONE => exact ih _ n2 (by rw [hu]; simpa using hb) hrest hno2
    | internalDLCallback s b st =>
      simp only [step] at hstep
      cases hstep
      have hu := (ResNet50.internalDLCallback_frame n s b st).1
      exact ih _ n2 (by rw [hu]; exact hb) hrest hno2

theorem run_mode (evs : List Event) :
    ∀ (n n2 : ResNet50), run true evs n = Result.ok n2 →
      n2.async_ = n.async_ ∧ n2.download_ = n.download_ := by
  induction evs with
  | nil =>
    intro n n2 hrun
    cases hrun
    exact ⟨rfl, rfl⟩
  | cons e es ih =>
    intro n n2 hrun
    obtain ⟨n1, hstep, hrest⟩ := run_cons_ok hrun
    have h2 := ih n1 n2 hrest
    have h1 : n1.async_ = n.async_ ∧ n1.download_ = n.download_ := by
      cases e with
      | setInputBuffer data =>
        simp only [step] at hstep
        obtain ⟨-, -, -, -, ha1, hd1, -⟩ := ResNet50.setInputBuffer_ok hstep
        exact ⟨ha1, hd1⟩
      | forward =>
        simp only [step] at hstep
        obtain ⟨-, -, ha1, hd1⟩ := ResNet50.forward_ok hstep
        exact ⟨ha1, hd1⟩
      | internalULCallback s b st =>
        simp only [step] at hstep
        cases hstep
        obtain ⟨-, ha1, hd1, -⟩ := ResNet50.internalULCallback_frame n s b st
        exact ⟨ha1, hd1⟩
      | internalDLCallback s b st =>
        simp only [step] at hstep
        cases hstep
        obtain ⟨-, -, ha1, hd1, -⟩ := ResNet50.internalDLCallback_frame n s b st
        exact ⟨ha1, hd1⟩
    exact ⟨h2.1.trans h1.1, h2.2.trans h1.2⟩

theorem setInputBuffer_blocked_of_wait {n : ResNet50} (data : Nat → Nat)
    (hw : ResNet50.uploadWait n = false) : n.setInputBuffer true data = Result.blocked := by
  rw [ResNet50.setInputBuffer_mt]
  simp [hw]

theorem uploadWait_of_busy {n : ResNet50} (hb : n.uploadBusy_ = true) :
    ResNet50.uploadWait n = false := by
  simp [ResNet50.uploadWait, hb]

theorem uploadWait_of_full {n : ResNet50} (hf : (ASYNC_BUFFERS : Int) ≤ n.usedUploadBuffers_) :
    ResNet50.uploadWait n = false := by
  simp only [ResNet50.uploadWait, Bool.and_eq_false_iff, decide_eq_false_iff_not]
  right
  omega

theorem no_commenced_of_no_push (evs : List Event) (h : evs.any Event.pushesUpload = false) :
    evs.any Event.isUploadCommenced = false := by
  induction evs with
  | nil => rfl
  | cons e es ih =>
    simp only [List.any_cons, Bool.or_eq_false_iff] at h ⊢
    refine ⟨?_, ih h.2⟩
    have h1 := h.1
    cases e with
    | internalULCallback s b st => cases st <;> simp_all [Event.pushesUpload, Event.isUploadCommenced]
    | _ => rfl

theorem downReadyCalls_append (xs ys : List Effect) :
    downReadyCalls (xs ++ ys) = downReadyCalls xs ++ downReadyCalls ys := by
  induction xs with
  | nil => rfl
  | cons x xs ih => cases x <;> simp [downReadyCalls, ih]

theorem upReadyCalls_append (xs ys : List Effect) :
    upReadyCalls (xs ++ ys) = upReadyCalls xs ++ upReadyCalls ys := by
  induction xs with
  | nil => rfl
  | cons x xs ih => cases x <;> simp [upReadyCalls, ih]

theorem setInputBuffer_single_threaded (n : ResNet50) (data : Nat → Nat) :
    ∃ n1, n.setInputBuffer false data = Result.ok n1 ∧
      n1.upload.cpuInput = ptrOf (n1.inBuffers_ 0) ∧
      n1.usedUploadBuffers_ = n.usedUploadBuffers_ ∧ n1.uploadBusy_ = n.uploadBusy_ := by
  have hs : ((ResNet50.allocInBuffers n 1).inBuffers_ 0).isSome = true := by
    unfold ResNet50.allocInBuffers
    simp only [List.foldl]
    simpa using ResNet50.allocInBuffer_some n 0
  obtain ⟨a1, a2, -⟩ := ResNet50.allocInBuffers_frame n 1
  unfold ResNet50.setInputBuffer
  simp only [Bool.false_eq_true, if_false]
  unfold ResNet50.copyToBuffer
  split
  · rename_i hnone
    simp [hnone] at hs
  · exact ⟨_, rfl, by simp [ptrOf], a1, a2⟩

/-- C1: in asynchronous mode, in every state reached from an initial state
(`usedUploadBuffers_ = 0`, `uploadBusy_ = false`) by a sequence of calls in which
every `setInputBuffer` call got past its wait and every `UPLOAD_DONE` callback
belongs to an upload accepted and not yet done, the number of used upload
buffers lies between `0` and `ASYNC_BUFFERS = 2`.  The bound needs neither the
mode nor the busy flag of the initial state. -/
theorem usedUploadBuffers_bounded (n0 : ResNet50) (evs : List Event) (n : ResNet50)
    (_hasync : n0.async_ = true) (hused : n0.usedUploadBuffers_ = 0)
    (_hbusy : n0.uploadBusy_ = false) (hrun : run true evs n0 = Result.ok n)
    (hdisc : uploadDiscipline 0 evs = true) :
    0 ≤ n.usedUploadBuffers_ ∧ n.usedUploadBuffers_ ≤ (ASYNC_BUFFERS : Int) ∧
      (ASYNC_BUFFERS : Int) = 2 := by
  have h := upload_bound_aux evs 0 n0 n (by simpa using hused) (by decide) hrun hdisc
  exact ⟨h.1, h.2, rfl⟩

theorem usedUploadBuffers_bounded_witness :
    run true uploadTrace asyncNet = Result.ok afterUploadTrace ∧
    uploadDiscipline 0 uploadTrace = true ∧
    afterUploadTrace.usedUploadBuffers_ = 1 ∧
    (0 ≤ afterUploadTrace.usedUploadBuffers_ ∧
      afterUploadTrace.usedUploadBuffers_ ≤ (ASYNC_BUFFERS : Int) ∧
      (ASYNC_BUFFERS : Int) = 2) :=
  ⟨rfl, rfl, by decide,
    usedUploadBuffers_bounded asyncNet uploadTrace afterUploadTrace rfl rfl rfl rfl rfl⟩

/-- C2: in asynchronous mode with download enabled, `forward` returns exactly
when `usedDownloadBuffers_ < ASYNC_BUFFERS`, and the state it returns is the
advance of the engine applied to the state whose counter is already
incremented by one; hence in every state reached from
`usedDownloadBuffers_ = 0` by calls in which every `DOWNLOAD_DONE` callback
belongs to an outstanding pass, the number of downloads in flight lies between
`0` and `ASYNC_BUFFERS = 2`. -/
theorem forward_backpressure (n0 : ResNet50) (evs : List Event) (n : ResNet50)
    (hasync : n0.async_ = true) (hdown : n0.download_ = true)
    (hused : n0.usedDownloadBuffers_ = 0) (hrun : run true evs n0 = Result.ok n)
    (hdisc : downloadDiscipline 0 evs = true) :
    ((n.forward true).isOk = true ↔ n.usedDownloadBuffers_ < (ASYNC_BUFFERS : Int)) ∧
    (∀ n1, n.forward true = Result.ok n1 →
      n1 = NeuralNetwork.forward
          { ResNet50.refreshInputTexture n with
            usedDownloadBuffers_ := n.usedDownloadBuffers_ + 1 } ∧
      n1.usedDownloadBuffers_ = n.usedDownloadBuffers_ + 1 ∧ n1.seqNo = n.seqNo + 1) ∧
    (0 ≤ n.usedDownloadBuffers_ ∧ n.usedDownloadBuffers_ ≤ (ASYNC_BUFFERS : Int) ∧
      (ASYNC_BUFFERS : Int) = 2) := by
  have hmode := run_mode evs n0 n hrun
  have ha : n.async_ = true := hmode.1.trans hasync
  have hd : n.download_ = true := hmode.2.trans hdown
  have h := download_bound_aux evs 0 n0 n hasync hdown (by simpa using hused) (by decide)
    hrun hdisc
  refine ⟨?_, ?_, h.1, h.2, rfl⟩
  · rw [ResNet50.forward_async_download n ha hd]
    by_cases hw : ResNet50.downloadWait n = true
    · simp only [hw, if_true, Result.isOk, true_iff]
      simpa [ResNet50.downloadWait] using hw
    · simp only [hw, if_false, Result.isOk, false_iff]
      simp only [Bool.false_eq_true, false_iff]
      simpa [ResNet50.downloadWait] using hw
  · intro n1 h1
    obtain ⟨-, heq⟩ := forward_async_download_ok ha hd h1
    refine ⟨heq, ?_, ?_⟩
    · rw [heq]
      rfl
    · rw [heq]
      simp only [NeuralNetwork.forward]
      rw [(ResNet50.refreshInputTexture_frame n).2.2.2.2.2.1]

theorem forward_backpressure_witness :
    run true downloadTrace asyncNet = Result.ok afterDownloadTrace ∧
    downloadDiscipline 0 downloadTrace = true ∧
    afterDownloadTrace.usedDownloadBuffers_ = 1 ∧
    (afterDownloadTrace.forward true).isOk = true ∧
    (0 ≤ afterDownloadTrace.usedDownloadBuffers_ ∧
      afterDownloadTrace.usedDownloadBuffers_ ≤ (ASYNC_BUFFERS : Int) ∧
      (ASYNC_BUFFERS : Int) = 2) :=
  ⟨rfl, rfl, by decide, by decide,
    (forward_backpressure asyncNet downloadTrace afterDownloadTrace rfl rfl rfl rfl rfl).2.2⟩

/-- C3: an asynchronous `setInputBuffer` call gets past its wait if and only if
`uploadBusy_` is false and `usedUploadBuffers_ < ASYNC_BUFFERS`; when it does,
it returns, with `usedUploadBuffers_` incremented by exactly one and
`uploadBusy_` set. -/
theorem setInputBuffer_proceeds_iff (n : ResNet50) (data : Nat → Nat)
    (hasync : n.async_ = true) :
    ((n.setInputBuffer true data).pastWait = true ↔
      (n.uploadBusy_ = false ∧ n.usedUploadBuffers_ < (ASYNC_BUFFERS : Int))) ∧
    ((n.setInputBuffer true data).pastWait = true →
      ∃ n1, n.setInputBuffer true data = Result.ok n1 ∧
        n1.usedUploadBuffers_ = n.usedUploadBuffers_ + 1 ∧ n1.uploadBusy_ = true) := by
  rw [ResNet50.setInputBuffer_pastWait]
  refine ⟨ResNet50.uploadWait_iff n, ?_⟩
  intro hw
  obtain ⟨n1, h1⟩ := ResNet50.setInputBuffer_async_ok n data hasync hw
  obtain ⟨-, hu, hb, -⟩ := ResNet50.setInputBuffer_ok h1
  exact ⟨n1, h1, hu, hb⟩

theorem setInputBuffer_proceeds_iff_witness :
    asyncNet.async_ = true ∧
    ((asyncNet.setInputBuffer true sampleData).pastWait = true ↔
      (asyncNet.uploadBusy_ = false ∧ asyncNet.usedUploadBuffers_ < (ASYNC_BUFFERS : Int))) ∧
    (asyncNet.setInputBuffer true sampleData).pastWait = true :=
  ⟨rfl, (setInputBuffer_proceeds_iff asyncNet sampleData rfl).1, rfl⟩

/-- C4, as the claim states it, fails: from the initial state of the
asynchronous network the first `setInputBuffer` call returns and the second
call, issued with no `forward` call in between, already stays in its wait. -/
theorem second_upload_call_blocks :
    asyncNet.setInputBuffer true sampleData = Result.ok afterFirstUpload ∧
    (afterFirstUpload.setInputBuffer true sampleData).pastWait = false ∧
    (run true [.setInputBuffer sampleData, .setInputBuffer sampleData] asyncNet).isOk
      = false :=
  ⟨rfl, rfl, rfl⟩

/-- C4 (amended): with an upload pool bound of 2, when `setInputBuffer` calls
are issued back to back from the initial state with no `forward` call in
between, the first call returns and the second one blocks, the busy flag
being set; after whatever calls follow, `setInputBuffer` can get past its wait
only once an `UPLOAD_COMMENCED` callback has been delivered, and from a state
with both buffers in use only once an `UPLOAD_DONE` callback has been
delivered. -/
theorem back_to_back_uploads (n0 : ResNet50) (d1 d2 : Nat → Nat)
    (hasync : n0.async_ = true) (hused : n0.usedUploadBuffers_ = 0)
    (hbusy : n0.uploadBusy_ = false) :
    ∃ n1, n0.setInputBuffer true d1 = Result.ok n1 ∧
      (n1.setInputBuffer true d2).pastWait = false ∧
      (∀ evs n2, run true evs n1 = Result.ok n2 →
        (n2.setInputBuffer true d2).pastWait = true →
        evs.any Event.isUploadCommenced = true) ∧
      (∀ m evs m2, m.usedUploadBuffers_ = (ASYNC_BUFFERS : Int) →
        run true evs m = Result.ok m2 →
        (m2.setInputBuffer true d2).pastWait = true →
        evs.any Event.isUploadDone = true) := by
  have hw : ResNet50.uploadWait n0 = true :=
    (ResNet50.uploadWait_iff n0).2 ⟨hbusy, by rw [hused]; decide⟩
  obtain ⟨n1, h1⟩ := ResNet50.setInputBuffer_async_ok n0 d1 hasync hw
  obtain ⟨-, -, hb1, -⟩ := ResNet50.setInputBuffer_ok h1
  refine ⟨n1, h1, ?_, ?_, ?_⟩
  · rw [ResNet50.setInputBuffer_pastWait]
    exact uploadWait_of_busy hb1
  · intro evs n2 hrun hpast
    by_contra hno
    have hno2 : evs.any Event.isUploadCommenced = false := by simpa using hno
    have hb2 := busy_stays evs n1 n2 hb1 hrun hno2
    rw [ResNet50.setInputBuffer_pastWait, uploadWait_of_busy hb2] at hpast
    cases hpast
  · intro m evs m2 hm hrun hpast
    by_contra hno
    have hno2 : evs.any Event.isUploadDone = false := by simpa using hno
    have hf := pool_full_stays evs m m2 (le_of_eq hm.symm) hrun hno2
    rw [ResNet50.setInputBuffer_pastWait, uploadWait_of_full hf] at hpast
    cases hpast

theorem back_to_back_uploads_witness :
    asyncNet.async_ = true ∧ asyncNet.usedUploadBuffers_ = 0 ∧
    asyncNet.uploadBusy_ = false ∧
    ∃ n1, asyncNet.setInputBuffer true sampleData = Result.ok n1 ∧
      (n1.setInputBuffer true sampleData).pastWait = false :=
  ⟨rfl, rfl, rfl,
    (back_to_back_uploads asyncNet sampleData sampleData rfl rfl rfl).imp
      (fun _ h => ⟨h.1, h.2.1⟩)⟩

/-- C5 fails in the multithreaded build: the synchronous network accepts its
first `setInputBuffer` call, which sets the busy flag and counts one used
buffer, and the second call stays in the wait on that pool state, also when a
`forward` call comes in between; in the single-threaded build the same two
calls return. -/
theorem sync_second_setInputBuffer_blocks :
    syncNet.async_ = false ∧
    syncNet.setInputBuffer true sampleData = Result.ok afterSyncUpload ∧
    afterSyncUpload.uploadBusy_ = true ∧ afterSyncUpload.usedUploadBuffers_ = 1 ∧
    (afterSyncUpload.setInputBuffer true sampleData).pastWait = false ∧
    (run true [.setInputBuffer sampleData, .setInputBuffer sampleData] syncNet).isOk
      = false ∧
    (run true [.setInputBuffer sampleData, .forward, .setInputBuffer sampleData]
      syncNet).isOk = false ∧
    (run false [.setInputBuffer sampleData, .setInputBuffer sampleData] syncNet).isOk
      = true :=
  ⟨rfl, rfl, rfl, by decide, rfl, rfl, rfl, rfl⟩

/-- C6: in asynchronous mode, after a `setInputBuffer` call has been accepted,
as long as no `forward` call follows and no `UPLOAD_COMMENCED` callback is
delivered, the wait predicate of `setInputBuffer` is false in every later
state and the next `setInputBuffer` call blocks there. -/
theorem upload_without_forward_starves (n : ResNet50) (data : Nat → Nat) (n1 : ResNet50)
    (_hasync : n.async_ = true) (haccept : n.setInputBuffer true data = Result.ok n1)
    (evs : List Event) (n2 : ResNet50) (hno : evs.any Event.pushesUpload = false)
    (hrun : run true evs n1 = Result.ok n2) :
    ResNet50.uploadWait n2 = false ∧
    ∀ d, n2.setInputBuffer true d = Result.blocked := by
  obtain ⟨-, -, hb1, -⟩ := ResNet50.setInputBuffer_ok haccept
  have hb2 := busy_stays evs n1 n2 hb1 hrun (no_commenced_of_no_push evs hno)
  have hw := uploadWait_of_busy hb2
  exact ⟨hw, fun d => setInputBuffer_blocked_of_wait d hw⟩

theorem upload_without_forward_starves_witness :
    asyncNet.async_ = true ∧
    asyncNet.setInputBuffer true sampleData = Result.ok afterFirstUpload ∧
    idleTrace.any Event.pushesUpload = false ∧
    run true idleTrace afterFirstUpload = Result.ok afterIdleTrace ∧
    ResNet50.uploadWait afterIdleTrace = false ∧
    ∀ d, afterIdleTrace.setInputBuffer true d = Result.blocked :=
  ⟨rfl, rfl, rfl, rfl,
    upload_without_forward_starves asyncNet sampleData afterFirstUpload rfl rfl idleTrace
      afterIdleTrace rfl rfl⟩

/-- C7: for every sequence number `s`, `internalULCallback` invoked with
`UPLOAD_COMMENCED` clears `uploadBusy_`, leaves `usedUploadBuffers_` unchanged
and, after `notify_one`, invokes the registered upload-ready hook exactly once,
with the name of the upload layer and `s`. -/
theorem internalULCallback_commenced (n : ResNet50) (s : Nat) (b : Ptr)
    (hreg : n.upReady_ = true) :
    (n.internalULCallback s b AsyncState.UPLOAD_COMMENCED).uploadBusy_ = false ∧
    (n.internalULCallback s b AsyncState.UPLOAD_COMMENCED).usedUploadBuffers_
      = n.usedUploadBuffers_ ∧
    (n.internalULCallback s b AsyncState.UPLOAD_COMMENCED).effects
      = n.effects ++ [Effect.notifyUpload, Effect.upReady n.upload.name s] ∧
    upReadyCalls (n.internalULCallback s b AsyncState.UPLOAD_COMMENCED).effects
      = upReadyCalls n.effects ++ [Effect.upReady n.upload.name s] := by
  have he : (n.internalULCallback s b AsyncState.UPLOAD_COMMENCED).effects
      = n.effects ++ [Effect.notifyUpload, Effect.upReady n.upload.name s] := by
    simp [ResNet50.internalULCallback, hreg]
  refine ⟨?_, ?_, he, ?_⟩
  · simp [ResNet50.internalULCallback, hreg]
  · simp [ResNet50.internalULCallback, hreg]
  · rw [he, upReadyCalls_append]
    rfl

theorem internalULCallback_commenced_witness :
    afterFirstUpload.upReady_ = true ∧ afterFirstUpload.uploadBusy_ = true ∧
    (afterFirstUpload.internalULCallback 1 3 AsyncState.UPLOAD_COMMENCED).uploadBusy_
      = false ∧
    (afterFirstUpload.internalULCallback 1 3 AsyncState.UPLOAD_COMMENCED).effects
      = afterFirstUpload.effects ++ [Effect.notifyUpload, Effect.upReady "upload" 1] :=
  ⟨rfl, rfl, (internalULCallback_commenced afterFirstUpload 1 3 rfl).1,
    (internalULCallback_commenced afterFirstUpload 1 3 rfl).2.2.1⟩

/-- C8: `internalULCallback` invoked with `UPLOAD_DONE` decreases
`usedUploadBuffers_` by one, leaves `uploadBusy_` unchanged and does not invoke
the upload-ready hook: its only effect outside the object is `notify_one`. -/
theorem internalULCallback_done (n : ResNet50) (s : Nat) (b : Ptr) :
    (n.internalULCallback s b AsyncState.UPLOAD_DONE).usedUploadBuffers_
      = n.usedUploadBuffers_ - 1 ∧
    (n.internalULCallback s b AsyncState.UPLOAD_DONE).uploadBusy_ = n.uploadBusy_ ∧
    (n.internalULCallback s b AsyncState.UPLOAD_DONE).effects
      = n.effects ++ [Effect.notifyUpload] ∧
    upReadyCalls (n.internalULCallback s b AsyncState.UPLOAD_DONE).effects
      = upReadyCalls n.effects := by
  have he : (n.internalULCallback s b AsyncState.UPLOAD_DONE).effects
      = n.effects ++ [Effect.notifyUpload] := by
    simp [ResNet50.internalULCallback]
  refine ⟨?_, ?_, he, ?_⟩
  · simp [ResNet50.internalULCallback]
  · simp [ResNet50.internalULCallback]
  · rw [he, upReadyCalls_append]
    simp [upReadyCalls]

/-- C9: on a `DOWNLOAD_COMMENCED` callback the download target becomes
`asyncDLBuffers_[1]` if it was `asyncDLBuffers_[0]` and `asyncDLBuffers_[0]`
otherwise; hence, when the two buffers are distinct and the target is one of
them, the new target differs from the old one and a second
`DOWNLOAD_COMMENCED` callback restores the old one. -/
theorem internalDLCallback_commenced_swaps (n : ResNet50) (s : Nat) (b : Ptr) :
    (n.internalDLCallback s b AsyncState.DOWNLOAD_COMMENCED).download.cpuOutput
      = (if n.download.cpuOutput = n.asyncDLBuffers_ 0 then n.asyncDLBuffers_ 1
          else n.asyncDLBuffers_ 0) ∧
    (n.asyncDLBuffers_ 0 ≠ n.asyncDLBuffers_ 1 →
      (n.download.cpuOutput = n.asyncDLBuffers_ 0 ∨
        n.download.cpuOutput = n.asyncDLBuffers_ 1) →
      (n.internalDLCallback s b AsyncState.DOWNLOAD_COMMENCED).download.cpuOutput
        ≠ n.download.cpuOutput ∧
      ∀ s2 b2,
        ((n.internalDLCallback s b AsyncState.DOWNLOAD_COMMENCED).internalDLCallback s2 b2
          AsyncState.DOWNLOAD_COMMENCED).download.cpuOutput = n.download.cpuOutput) := by
  refine ⟨by simp [ResNet50.internalDLCallback], ?_⟩
  intro hne hcur
  rcases hcur with h0 | h1
  · refine ⟨?_, ?_⟩
    · simp only [ResNet50.internalDLCallback, h0]
      simpa using hne.symm
    · intro s2 b2
      simp only [ResNet50.internalDLCallback, h0]
      simp [hne.symm]
  · have h10 : n.download.cpuOutput ≠ n.asyncDLBuffers_ 0 := by
      rw [h1]
      exact hne.symm
    refine ⟨?_, ?_⟩
    · simp only [ResNet50.internalDLCallback]
      simpa [h10] using Ne.symm h10
    · intro s2 b2
      simp only [ResNet50.internalDLCallback]
      simp [h10, h1]

theorem internalDLCallback_commenced_swaps_witness :
    asyncNet.asyncDLBuffers_ 0 ≠ asyncNet.asyncDLBuffers_ 1 ∧
    asyncNet.download.cpuOutput = asyncNet.asyncDLBuffers_ 0 ∧
    (asyncNet.internalDLCallback 1 1 AsyncState.DOWNLOAD_COMMENCED).download.cpuOutput
      = asyncNet.asyncDLBuffers_ 1 ∧
    (asyncNet.internalDLCallback 1 1 AsyncState.DOWNLOAD_COMMENCED).download.cpuOutput
      ≠ asyncNet.download.cpuOutput ∧
    ((asyncNet.internalDLCallback 1 1 AsyncState.DOWNLOAD_COMMENCED).internalDLCallback 2 2
      AsyncState.DOWNLOAD_COMMENCED).download.cpuOutput = asyncNet.download.cpuOutput :=
  ⟨by decide, rfl, rfl,
    ((internalDLCallback_commenced_swaps asyncNet 1 1).2 (by decide) (Or.inl rfl)).1,
    ((internalDLCallback_commenced_swaps asyncNet 1 1).2 (by decide) (Or.inl rfl)).2 2 2⟩

/-- C10, as the claim states it, fails: with the download-ready hook registered,
a `DOWNLOAD_COMMENCED` callback invokes no hook, and over the whole pass
(`DOWNLOAD_COMMENCED`, then `DOWNLOAD_DONE`) the hook is invoked once, not
twice. -/
theorem downReady_fires_once :
    asyncNet.downReady_ = true ∧
    downReadyCalls (asyncNet.internalDLCallback 1 1 AsyncState.DOWNLOAD_COMMENCED).effects
      = [] ∧
    downReadyCalls ((asyncNet.internalDLCallback 1 1
        AsyncState.DOWNLOAD_COMMENCED).internalDLCallback 1 1
        AsyncState.DOWNLOAD_DONE).effects
      = [Effect.downReady "download" 1 1 0] ∧
    (downReadyCalls ((asyncNet.internalDLCallback 1 1
        AsyncState.DOWNLOAD_COMMENCED).internalDLCallback 1 1
        AsyncState.DOWNLOAD_DONE).effects).length ≠ 2 :=
  ⟨rfl, rfl, rfl, by decide⟩

/-- C10 (amended): for every pass in asynchronous download mode, the download
completion hook registered by the caller fires exactly once: not when the
download layer reports `DOWNLOAD_COMMENCED`, and once, with the layer name, the
sequence number and the buffer, when it reports `DOWNLOAD_DONE`. -/
theorem downReady_once_per_pass (n : ResNet50) (s : Nat) (b1 b2 : Ptr)
    (hreg : n.downReady_ = true) :
    downReadyCalls (n.internalDLCallback s b1 AsyncState.DOWNLOAD_COMMENCED).effects
      = downReadyCalls n.effects ∧
    downReadyCalls (n.internalDLCallback s b2 AsyncState.DOWNLOAD_DONE).effects
      = downReadyCalls n.effects ++
        [Effect.downReady n.download.name s b2 n.usedDownloadBuffers_] ∧
    downReadyCalls ((n.internalDLCallback s b1
        AsyncState.DOWNLOAD_COMMENCED).internalDLCallback s b2
        AsyncState.DOWNLOAD_DONE).effects
      = downReadyCalls n.effects ++
        [Effect.downReady n.download.name s b2 n.usedDownloadBuffers_] := by
  have hdone : ∀ m : ResNet50, m.downReady_ = true →
      downReadyCalls (m.internalDLCallback s b2 AsyncState.DOWNLOAD_DONE).effects
        = downReadyCalls m.effects ++
          [Effect.downReady m.download.name s b2 m.usedDownloadBuffers_] := by
    intro m hm
    have he : (m.internalDLCallback s b2 AsyncState.DOWNLOAD_DONE).effects
        = m.effects ++ [Effect.downReady m.download.name s b2 m.usedDownloadBuffers_,
            Effect.notifyDownload] := by
      simp [ResNet50.internalDLCallback, hm]
    rw [he, downReadyCalls_append]
    rfl
  have hcomm : (n.internalDLCallback s b1 AsyncState.DOWNLOAD_COMMENCED).effects
      = n.effects := by
    simp [ResNet50.internalDLCallback]
  have hreg2 : (n.internalDLCallback s b1 AsyncState.DOWNLOAD_COMMENCED).downReady_
      = true := by
    simpa [ResNet50.internalDLCallback] using hreg
  have hname : (n.internalDLCallback s b1 AsyncState.DOWNLOAD_COMMENCED).download.name
      = n.download.name := by
    simp [ResNet50.internalDLCallback]
  have hused : (n.internalDLCallback s b1
      AsyncState.DOWNLOAD_COMMENCED).usedDownloadBuffers_ = n.usedDownloadBuffers_ := by
    simp [ResNet50.internalDLCallback]
  refine ⟨by rw [hcomm], hdone n hreg, ?_⟩
  rw [hdone _ hreg2, hcomm, hname, hused]

theorem downReady_once_per_pass_witness :
    asyncNet.downReady_ = true ∧
    downReadyCalls ((asyncNet.internalDLCallback 1 1
        AsyncState.DOWNLOAD_COMMENCED).internalDLCallback 1 1
        AsyncState.DOWNLOAD_DONE).effects
      = downReadyCalls asyncNet.effects ++
        [Effect.downReady asyncNet.download.name 1 1 asyncNet.usedDownloadBuffers_] :=
  ⟨rfl, (downReady_once_per_pass asyncNet 1 1 1 rfl).2.2⟩

/-- C11: for every sequence number `s` and buffer `b`, `internalDLCallback`
invoked with `DOWNLOAD_DONE` invokes the download-ready hook, if one is
registered, exactly once, with exactly (name of the download layer, `s`, `b`),
and the hook still finds the old value of `usedDownloadBuffers_`: the slot is
released only after the hook has returned.  Afterwards `usedDownloadBuffers_`
is decreased by exactly one, `notify_one` follows the hook, and the target
buffer of the download layer, the two download buffers and every other member
are unchanged. -/
theorem internalDLCallback_done (n : ResNet50) (s : Nat) (b : Ptr) :
    (n.internalDLCallback s b AsyncState.DOWNLOAD_DONE).effects = n.effects ++
      (if n.downReady_ = true
        then [Effect.downReady n.download.name s b n.usedDownloadBuffers_] else []) ++
      [Effect.notifyDownload] ∧
    (n.internalDLCallback s b AsyncState.DOWNLOAD_DONE).usedDownloadBuffers_
      = n.usedDownloadBuffers_ - 1 ∧
    (n.internalDLCallback s b AsyncState.DOWNLOAD_DONE).download.cpuOutput
      = n.download.cpuOutput ∧
    (n.internalDLCallback s b AsyncState.DOWNLOAD_DONE).asyncDLBuffers_
      = n.asyncDLBuffers_ ∧
    n.internalDLCallback s b AsyncState.DOWNLOAD_DONE =
      { n with
        usedDownloadBuffers_ := n.usedDownloadBuffers_ - 1
        effects := n.effects ++
          (if n.downReady_ = true
            then [Effect.downReady n.download.name s b n.usedDownloadBuffers_] else []) ++
          [Effect.notifyDownload] } := by
  by_cases hreg : n.downReady_ = true
  · refine ⟨?_, ?_, ?_, ?_, ?_⟩ <;> simp [ResNet50.internalDLCallback, hreg]
  · refine ⟨?_, ?_, ?_, ?_, ?_⟩ <;> simp [ResNet50.internalDLCallback, hreg]

theorem deliver_append (b : Bench) (xs ys : List Effect) :
    deliver b (xs ++ ys) = deliver (deliver b xs) ys := by
  induction xs generalizing b with
  | nil => rfl
  | cons x xs ih => cases x <;> simp [deliver, ih]

theorem deliver_downReadyCalls (b : Bench) (xs : List Effect) :
    deliver b (downReadyCalls xs) = deliver b xs := by
  induction xs generalizing b with
  | nil => rfl
  | cons x xs ih => cases x <;> simp [deliver, downReadyCalls, ih]

theorem deliver_last (b : Bench) (xs : List Effect) (name : String) (s : Nat) (buf : Ptr)
    (u : Int) (h : (downReadyCalls xs).getLast? = some (Effect.downReady name s buf u)) :
    deliver b xs = { downid := s, download := buf } := by
  rw [← deliver_downReadyCalls]
  obtain ⟨ys, hys⟩ : ∃ ys, downReadyCalls xs = ys ++ [Effect.downReady name s buf u] := by
    rcases List.eq_nil_or_concat (downReadyCalls xs) with hnil | ⟨ys, y, hy⟩
    · rw [hnil] at h
      cases h
    · rw [hy] at h ⊢
      simp only [List.concat_eq_append, List.getLast?_append, List.getLast?_singleton] at h
      have hy2 : y = Effect.downReady name s buf u := by
        simpa [Option.or] using h
      exact ⟨ys, by rw [List.concat_eq_append, hy2]⟩
  rw [hys, deliver_append]
  rfl

theorem deliver_none (b : Bench) (xs : List Effect) (h : downReadyCalls xs = []) :
    deliver b xs = b := by
  rw [← deliver_downReadyCalls, h]
  rfl

theorem benchWait_ok_iff (b : Bench) (seqid : Nat) :
    benchWait b seqid = Result.ok b ↔ seqid ≤ b.downid := by
  unfold benchWait
  by_cases h : seqid ≤ b.downid
  · simp [h]
  · simp [h]

/-- A wait that returns leaves `seqid ≤ downid`; if a download-ready call has
been delivered, `downid` and `download` are those of the last one. -/
theorem benchWait_after_notification (b0 : Bench) (effs : List Effect) (seqid : Nat)
    (b : Bench) (hwait : benchWait (deliver b0 effs) seqid = Result.ok b) :
    b = deliver b0 effs ∧ seqid ≤ b.downid ∧
    ∀ name s buf u,
      (downReadyCalls effs).getLast? = some (Effect.downReady name s buf u) →
      b.downid = s ∧ seqid ≤ s ∧ b.download = buf := by
  unfold benchWait at hwait
  split at hwait
  · rename_i hge
    cases hwait
    have hle : seqid ≤ (deliver b0 effs).downid := by simpa using hge
    refine ⟨rfl, hle, ?_⟩
    intro name s buf u hlast
    have hd := deliver_last b0 effs name s buf u hlast
    rw [hd] at hle ⊢
    exact ⟨rfl, hle, rfl⟩
  · cases hwait

/-- C13 fails before the first notification.  The benchmark declares `downid`
without an initialiser, and the wait only compares `downid` with `seqid`: in
the first run, with no download-ready notification delivered yet, the wait
returns exactly when the value that `downid` happens to hold is at least
`seqid` (5 against 1 here, or 0 against a sequence number 0), and `download` is
still the null pointer; with a smaller value in `downid` the same wait blocks.
Once the notification of the pass has been delivered the wait returns with its
sequence number and buffer, for every initial value. -/
theorem benchWait_returns_unnotified :
    run true firstRun asyncNet = Result.ok afterFirstRun ∧
    afterFirstRun.seqNo = 1 ∧
    downReadyCalls afterFirstRun.effects = [] ∧
    benchWait (deliver { downid := 5, download := 0 } afterFirstRun.effects)
        afterFirstRun.seqNo
      = Result.ok { downid := 5, download := 0 } ∧
    benchWait (deliver { downid := 0, download := 0 } afterFirstRun.effects)
        afterFirstRun.seqNo
      = Result.blocked ∧
    benchWait (deliver { downid := 0, download := 0 } []) 0
      = Result.ok { downid := 0, download := 0 } ∧
    (∀ b0 : Bench, ∀ seqid : Nat,
      benchWait (deliver b0 afterFirstRun.effects) seqid = Result.ok b0
        ↔ seqid ≤ b0.downid) ∧
    (∀ b0 : Bench,
      benchWait (deliver b0 afterFirstDownload.effects) 1
        = Result.ok { downid := 1, download := 1 }) := by
  refine ⟨rfl, rfl, rfl, rfl, rfl, rfl, ?_, ?_⟩
  · intro b0 seqid
    rw [deliver_none b0 afterFirstRun.effects rfl]
    exact benchWait_ok_iff b0 seqid
  · intro b0
    rw [deliver_last b0 afterFirstDownload.effects "download" 1 1 0 rfl]
    rfl

/-- C18: `getOutputBuffer` returns `nullptr` whenever download is not activated
or the network has not been set up; otherwise it returns the CPU buffer at
output port 0 of the layer named "download". -/
theorem getOutputBuffer_spec (n : ResNet50) :
    ((n.download_ = false ∨ n.setup_ = false) → n.getOutputBuffer = 0) ∧
    (n.download_ = true → n.setup_ = true → n.getOutputBuffer = n.download.cpuOutput) := by
  constructor
  · intro h
    rcases h with h | h <;> simp [ResNet50.getOutputBuffer, h]
  · intro hd hs
    simp [ResNet50.getOutputBuffer, hd, hs]

theorem getOutputBuffer_spec_witness :
    (ResNet50.initial true true true true true).setup_ = false ∧
    (ResNet50.initial true true true true true).getOutputBuffer = 0 ∧
    asyncNet.download_ = true ∧ asyncNet.setup_ = true ∧ asyncNet.download.name = "download" ∧
    asyncNet.getOutputBuffer = asyncNet.download.cpuOutput ∧ asyncNet.getOutputBuffer = 1 :=
  ⟨rfl, (getOutputBuffer_spec (ResNet50.initial true true true true true)).1 (Or.inr rfl),
    rfl, rfl, rfl, (getOutputBuffer_spec asyncNet).2 rfl rfl, rfl⟩

namespace ResNet50

theorem allocInBuffer_pool (n : ResNet50) (i : Fin ASYNC_BUFFERS) :
    (∀ j, (n.inBuffers_ j).isSome = true →
      (allocInBuffer n i).inBuffers_ j = n.inBuffers_ j) ∧
    (∀ j, j ≠ i → (allocInBuffer n i).inBuffers_ j = n.inBuffers_ j) ∧
    ((n.inBuffers_ i).isSome = true → allocInBuffer n i = n) ∧
    (∀ j b, (allocInBuffer n i).inBuffers_ j = some b →
      n.inBuffers_ j = some b ∨ b.shape = inputShape) := by
  refine ⟨fun j hj => allocInBuffer_keeps n i j hj, ?_, ?_, ?_⟩
  · intro j hji
    unfold allocInBuffer
    split
    · rfl
    · simp [Function.update, hji]
  · intro hi
    unfold allocInBuffer
    split
    · rfl
    · rename_i hnone
      simp [hnone] at hi
  · intro j b hb
    unfold allocInBuffer at hb
    split at hb
    · exact Or.inl hb
    · by_cases hji : j = i
      · subst hji
        simp only [Function.update_same, Option.some.injEq] at hb
        right
        rw [← hb]
        rfl
      · left
        simpa [Function.update, hji] using hb

theorem fin2_cases (j : Fin ASYNC_BUFFERS) : j = 0 ∨ j = 1 := by
  have hlt : j.val < 2 := j.isLt
  rcases Nat.lt_or_ge j.val 1 with h | h
  · left
    apply Fin.ext
    simp only [Fin.val_zero]
    omega
  · right
    apply Fin.ext
    simp only [Fin.val_one]
    omega

theorem allocInBuffers_unfold (n : ResNet50) (k : Nat) :
    allocInBuffers n k =
      if 1 < k then allocInBuffer (if 0 < k then allocInBuffer n 0 else n) 1
      else (if 0 < k then allocInBuffer n 0 else n) := by
  unfold allocInBuffers
  simp only [List.foldl]
  rfl

theorem allocInBuffers_pool (n : ResNet50) (k : Nat) :
    (∀ j, (n.inBuffers_ j).isSome = true →
      (allocInBuffers n k).inBuffers_ j = n.inBuffers_ j) ∧
    (∀ j : Fin ASYNC_BUFFERS, j.val < k → ((allocInBuffers n k).inBuffers_ j).isSome = true) ∧
    (∀ j : Fin ASYNC_BUFFERS, k ≤ j.val → (allocInBuffers n k).inBuffers_ j = n.inBuffers_ j) ∧
    ((∀ j : Fin ASYNC_BUFFERS, j.val < k → (n.inBuffers_ j).isSome = true) →
      allocInBuffers n k = n) ∧
    (∀ j b, (allocInBuffers n k).inBuffers_ j = some b →
      n.inBuffers_ j = some b ∨ b.shape = inputShape) := by
  rw [allocInBuffers_unfold]
  by_cases h0 : 0 < k
  · by_cases h1 : 1 < k
    · rw [if_pos h1, if_pos h0]
      obtain ⟨a1, -, a3, a4⟩ := allocInBuffer_pool n 0
      obtain ⟨b1, -, -, b4⟩ := allocInBuffer_pool (allocInBuffer n 0) 1
      refine ⟨?_, ?_, ?_, ?_, ?_⟩
      · intro j hj
        rw [b1 j (by rw [a1 j hj]; exact hj), a1 j hj]
      · intro j _
        rcases fin2_cases j with hj | hj
        · subst hj
          have h := allocInBuffer_some n 0
          rw [b1 0 h]
          exact h
        · subst hj
          exact allocInBuffer_some (allocInBuffer n 0) 1
      · intro j hj
        have hlt : j.val < 2 := j.isLt
        omega
      · intro hall
        rw [a3 (hall 0 h0)]
        exact (allocInBuffer_pool n 1).2.2.1 (hall 1 h1)
      · intro j b hb
        rcases b4 j b hb with h | h
        · exact a4 j b h
        · exact Or.inr h
    · rw [if_neg h1, if_pos h0]
      obtain ⟨a1, a2, a3, a4⟩ := allocInBuffer_pool n 0
      refine ⟨a1, ?_, ?_, ?_, a4⟩
      · intro j hj
        have hj0 : j = 0 := by
          apply Fin.ext
          simp only [Fin.val_zero]
          omega
        subst hj0
        exact allocInBuffer_some n 0
      · intro j hj
        refine a2 j ?_
        intro hj0
        subst hj0
        simp only [Fin.val_zero] at hj
        omega
      · intro hall
        exact a3 (hall 0 h0)
  · have h1 : ¬ 1 < k := by omega
    rw [if_neg h1, if_neg h0]
    refine ⟨fun _ _ => rfl, ?_, fun _ _ => rfl, fun _ => rfl, fun j b hb => Or.inl hb⟩
    intro j hj
    omega

theorem copyToBuffer_pool {n n1 : ResNet50} {slot : Fin ASYNC_BUFFERS} {data : Nat → Nat}
    (h : copyToBuffer n slot data = Result.ok n1) :
    ∃ buf, n.inBuffers_ slot = some buf ∧
      n1.inBuffers_ slot = some { buf with mem := memcpy buf.mem data buf.shape.bytes } ∧
      (∀ j, j ≠ slot → n1.inBuffers_ j = n.inBuffers_ j) ∧
      n1.upload.cpuInput = buf.addr ∧ n1.nextAddr = n.nextAddr ∧ n1.async_ = n.async_ := by
  unfold copyToBuffer at h
  split at h
  · cases h
  · rename_i buf hbuf
    cases h
    refine ⟨buf, hbuf, by simp, ?_, rfl, rfl, rfl⟩
    intro j hj
    simp [Function.update, hj]

theorem copyToBuffer_addrs {n n1 : ResNet50} {slot : Fin ASYNC_BUFFERS} {data : Nat → Nat}
    (h : copyToBuffer n slot data = Result.ok n1) :
    (∀ j, ptrOf (n1.inBuffers_ j) = ptrOf (n.inBuffers_ j)) ∧
    (∀ j, (n1.inBuffers_ j).isSome = (n.inBuffers_ j).isSome) := by
  obtain ⟨buf, h0, h1, h2, -⟩ := copyToBuffer_pool h
  constructor
  · intro j
    by_cases hj : j = slot
    · subst hj
      rw [h0, h1]
      rfl
    · rw [h2 j hj]
  · intro j
    by_cases hj : j = slot
    · subst hj
      rw [h0, h1]
      rfl
    · rw [h2 j hj]

theorem numbuffers_true (n : ResNet50) :
    numbuffers true n = if n.async_ = true then ASYNC_BUFFERS else 1 := rfl

theorem setInputBuffer_st (n : ResNet50) (data : Nat → Nat) :
    n.setInputBuffer false data = copyToBuffer (allocInBuffers n (numbuffers false n)) 0 data := by
  unfold setInputBuffer
  simp only [Bool.false_eq_true, if_false]
  rfl

theorem setInputBuffer_split {mt : Bool} {n n1 : ResNet50} {data : Nat → Nat}
    (h : n.setInputBuffer mt data = Result.ok n1) :
    ∃ m slot, copyToBuffer m slot data = Result.ok n1 ∧
      m.inBuffers_ = (allocInBuffers n (numbuffers mt n)).inBuffers_ ∧
      m.nextAddr = (allocInBuffers n (numbuffers mt n)).nextAddr ∧
      m.async_ = n.async_ := by
  have ha := (allocInBuffers_frame n (numbuffers mt n)).2.2.2.1
  cases mt
  · rw [setInputBuffer_st] at h
    exact ⟨_, _, h, rfl, rfl, ha⟩
  · rw [setInputBuffer_mt, ← numbuffers_true] at h
    split at h
    · exact ⟨_, _, h, rfl, rfl, ha⟩
    · cases h

theorem setInputBuffer_congr (mt : Bool) (n : ResNet50) (d1 d2 : Nat → Nat)
    (h : ∀ j b, (allocInBuffers n (numbuffers mt n)).inBuffers_ j = some b →
      ∀ i, i < b.shape.bytes → d1 i = d2 i) :
    n.setInputBuffer mt d1 = n.setInputBuffer mt d2 := by
  have hcopy : ∀ (m : ResNet50) (slot : Fin ASYNC_BUFFERS),
      m.inBuffers_ = (allocInBuffers n (numbuffers mt n)).inBuffers_ →
      copyToBuffer m slot d1 = copyToBuffer m slot d2 := by
    intro m slot hm
    unfold copyToBuffer
    split
    · rfl
    · rename_i buf hbuf
      have hmem : memcpy buf.mem d1 buf.shape.bytes = memcpy buf.mem d2 buf.shape.bytes := by
        funext i
        unfold memcpy
        split
        · rename_i hi
          exact h slot buf (by rw [← hm]; exact hbuf) i hi
        · rfl
      rw [hmem]
  cases mt
  · rw [setInputBuffer_st, setInputBuffer_st]
    exact hcopy _ _ rfl
  · rw [setInputBuffer_mt, setInputBuffer_mt, ← numbuffers_true]
    split
    · exact hcopy _ _ rfl
    · rfl

theorem poolShaped_iff (n : ResNet50) :
    poolShaped n = true ↔ ∀ i b, n.inBuffers_ i = some b → b.shape = inputShape := by
  unfold poolShaped
  simp only [List.all_cons, List.all_nil, Bool.and_true, Bool.and_eq_true]
  constructor
  · intro h i b hb
    fin_cases i
    · have h0 := h.1
      simp only [Fin.zero_eta] at hb
      rw [hb] at h0
      simpa using h0
    · have h1 := h.2
      simp only [Fin.mk_one] at hb
      rw [hb] at h1
      simpa using h1
  · intro h
    constructor
    · split
      · rfl
      · rename_i b hb
        simpa using h 0 b hb
    · split
      · rfl
      · rename_i b hb
        simpa using h 1 b hb

theorem inputShape_bytes : inputShape.bytes = 602112 := by decide

end ResNet50

namespace ResNet50

theorem forward_pool {mt : Bool} {n n1 : ResNet50} (h : n.forward mt = Result.ok n1) :
    n1.inBuffers_ = n.inBuffers_ ∧ n1.nextAddr = n.nextAddr ∧ n1.async_ = n.async_ := by
  have hr : (refreshInputTexture n).inBuffers_ = n.inBuffers_ ∧
      (refreshInputTexture n).nextAddr = n.nextAddr ∧
      (refreshInputTexture n).async_ = n.async_ := by
    unfold refreshInputTexture
    split <;> simp
  unfold forward at h
  simp only [NeuralNetwork.forward] at h
  split at h <;> (try split at h) <;> (try split at h) <;> (try split at h) <;>
    cases h <;> simp [hr.1, hr.2.1, hr.2.2]

theorem internalULCallback_pool (n : ResNet50) (s : Nat) (b : Ptr) (st : AsyncState) :
    (n.internalULCallback s b st).inBuffers_ = n.inBuffers_ ∧
    (n.internalULCallback s b st).nextAddr = n.nextAddr ∧
    (n.internalULCallback s b st).async_ = n.async_ := by
  unfold internalULCallback
  cases st <;> simp
  all_goals (split <;> simp)

theorem internalDLCallback_pool (n : ResNet50) (s : Nat) (b : Ptr) (st : AsyncState) :
    (n.internalDLCallback s b st).inBuffers_ = n.inBuffers_ ∧
    (n.internalDLCallback s b st).nextAddr = n.nextAddr ∧
    (n.internalDLCallback s b st).async_ = n.async_ := by
  unfold internalDLCallback
  cases st <;> simp
  all_goals (split <;> simp)

theorem setInputBuffer_pool_kept {mt : Bool} {n n1 : ResNet50} {data : Nat → Nat}
    (hinv : ∀ j : Fin ASYNC_BUFFERS, j.val < numbuffers mt n → (n.inBuffers_ j).isSome = true)
    (h : n.setInputBuffer mt data = Result.ok n1) :
    (∀ j, ptrOf (n1.inBuffers_ j) = ptrOf (n.inBuffers_ j)) ∧
    (∀ j, (n1.inBuffers_ j).isSome = (n.inBuffers_ j).isSome) ∧
    n1.nextAddr = n.nextAddr ∧ n1.async_ = n.async_ := by
  obtain ⟨m, slot, hcopy, hm1, hm2, hm3⟩ := setInputBuffer_split h
  rw [(allocInBuffers_pool n (numbuffers mt n)).2.2.2.1 hinv] at hm1 hm2
  obtain ⟨c1, c2⟩ := copyToBuffer_addrs hcopy
  obtain ⟨-, -, -, -, -, c5, c6⟩ := copyToBuffer_pool hcopy
  refine ⟨?_, ?_, c5.trans hm2, c6.trans hm3⟩
  · intro j
    rw [c1 j, hm1]
  · intro j
    rw [c2 j, hm1]

end ResNet50

theorem run_pool (mt : Bool) (evs : List Event) :
    ∀ (n n2 : ResNet50),
      (∀ j : Fin ASYNC_BUFFERS, j.val < ResNet50.numbuffers mt n →
        (n.inBuffers_ j).isSome = true) →
      run mt evs n = Result.ok n2 →
      (∀ j, ptrOf (n2.inBuffers_ j) = ptrOf (n.inBuffers_ j)) ∧
      (∀ j, (n2.inBuffers_ j).isSome = (n.inBuffers_ j).isSome) ∧
      n2.nextAddr = n.nextAddr := by
  induction evs with
  | nil =>
    intro n n2 _ hrun
    cases hrun
    exact ⟨fun _ => rfl, fun _ => rfl, rfl⟩
  | cons e es ih =>
    intro n n2 hinv hrun
    obtain ⟨n1, hstep, hrest⟩ := run_cons_ok hrun
    have h1 : (∀ j, ptrOf (n1.inBuffers_ j) = ptrOf (n.inBuffers_ j)) ∧
        (∀ j, (n1.inBuffers_ j).isSome = (n.inBuffers_ j).isSome) ∧
        n1.nextAddr = n.nextAddr ∧ n1.async_ = n.async_ := by
      cases e with
      | setInputBuffer data =>
        simp only [step] at hstep
        exact ResNet50.setInputBuffer_pool_kept hinv hstep
      | forward =>
        simp only [step] at hstep
        obtain ⟨f1, f2, f3⟩ := ResNet50.forward_pool hstep
        exact ⟨fun j => by rw [f1], fun j => by rw [f1], f2, f3⟩
      | internalULCallback s b st =>
        simp only [step] at hstep
        cases hstep
        obtain ⟨f1, f2, f3⟩ := ResNet50.internalULCallback_pool n s b st
        exact ⟨fun j => by rw [f1], fun j => by rw [f1], f2, f3⟩
      | internalDLCallback s b st =>
        simp only [step] at hstep
        cases hstep
        obtain ⟨f1, f2, f3⟩ := ResNet50.internalDLCallback_pool n s b st
        exact ⟨fun j => by rw [f1], fun j => by rw [f1], f2, f3⟩
    obtain ⟨p1, p2, p3, p4⟩ := h1
    have hinv1 : ∀ j : Fin ASYNC_BUFFERS, j.val < ResNet50.numbuffers mt n1 →
        (n1.inBuffers_ j).isSome = true := by
      intro j hj
      rw [p2 j]
      apply hinv j
      simpa [ResNet50.numbuffers, p4] using hj
    obtain ⟨q1, q2, q3⟩ := ih n1 n2 hinv1 hrest
    exact ⟨fun j => (q1 j).trans (p1 j), fun j => (q2 j).trans (p2 j), q3.trans p3⟩

theorem setInputBuffer_first {mt : Bool} {n n1 : ResNet50} {data : Nat → Nat}
    (h : n.setInputBuffer mt data = Result.ok n1) :
    (∀ j : Fin ASYNC_BUFFERS, j.val < ResNet50.numbuffers mt n1 →
      (n1.inBuffers_ j).isSome = true) ∧
    (∀ j, (n.inBuffers_ j).isSome = true → ptrOf (n1.inBuffers_ j) = ptrOf (n.inBuffers_ j)) ∧
    (∀ j : Fin ASYNC_BUFFERS, n.inBuffers_ j = none →
      ((n1.inBuffers_ j).isSome = true ↔ j.val < ResNet50.numbuffers mt n)) := by
  obtain ⟨m, slot, hcopy, hm1, -, hm3⟩ := ResNet50.setInputBuffer_split h
  obtain ⟨c1, c2⟩ := ResNet50.copyToBuffer_addrs hcopy
  obtain ⟨-, -, -, -, -, -, c6⟩ := ResNet50.copyToBuffer_pool hcopy
  obtain ⟨a1, a2, a3, -, -⟩ := ResNet50.allocInBuffers_pool n (ResNet50.numbuffers mt n)
  have hasync : n1.async_ = n.async_ := c6.trans hm3
  refine ⟨?_, ?_, ?_⟩
  · intro j hj
    rw [c2 j, hm1]
    apply a2 j
    simpa [ResNet50.numbuffers, hasync] using hj
  · intro j hj
    rw [c1 j, hm1, a1 j hj]
  · intro j hnone
    rw [c2 j, hm1]
    constructor
    · intro hsome
      by_contra hge
      rw [a3 j (by omega), hnone] at hsome
      cases hsome
    · intro hlt
      exact a2 j hlt

/-- C19: the upload host buffers are allocated at most once.  The allocation
loop of `setInputBuffer` leaves every slot that holds a buffer as it is; after
the first call that returned, whatever calls follow in the same build leave
the addresses of the pool buffers and the allocator unchanged; and a pool that
was empty before the first call holds 2 buffers in asynchronous mode and 1
buffer in synchronous mode from then on. -/
theorem inBuffers_allocated_once (mt : Bool) (n n1 : ResNet50) (d : Nat → Nat)
    (evs : List Event) (n2 : ResNet50)
    (hfirst : n.setInputBuffer mt d = Result.ok n1) (hrun : run mt evs n1 = Result.ok n2) :
    (∀ k j, (n.inBuffers_ j).isSome = true →
      (ResNet50.allocInBuffers n k).inBuffers_ j = n.inBuffers_ j) ∧
    (∀ j, (n.inBuffers_ j).isSome = true → ptrOf (n1.inBuffers_ j) = ptrOf (n.inBuffers_ j)) ∧
    (ResNet50.poolAddrs n2 = ResNet50.poolAddrs n1 ∧ n2.nextAddr = n1.nextAddr) ∧
    ((∀ j, n.inBuffers_ j = none) →
      ResNet50.poolCount n1 = (if (mt && n.async_) = true then 2 else 1) ∧
      ResNet50.poolCount n2 = (if (mt && n.async_) = true then 2 else 1)) := by
  obtain ⟨hinv1, hkeep, hnew⟩ := setInputBuffer_first hfirst
  obtain ⟨r1, r2, r3⟩ := run_pool mt evs n1 n2 hinv1 hrun
  refine ⟨fun k j hj => (ResNet50.allocInBuffers_pool n k).1 j hj, hkeep, ⟨?_, r3⟩, ?_⟩
  · funext j
    exact r1 j
  · intro hempty
    have hcount : ResNet50.poolCount n2 = ResNet50.poolCount n1 := by
      simp only [ResNet50.poolCount, r2]
    have h0 := hnew 0 (hempty 0)
    have h1 := hnew 1 (hempty 1)
    have hc1 : ResNet50.poolCount n1 = (if (mt && n.async_) = true then 2 else 1) := by
      cases mt <;> cases ha : n.async_ <;>
        simp [ResNet50.numbuffers, ha] at h0 h1 <;>
        simp [ResNet50.poolCount, h0, h1]
    exact ⟨hc1, hcount.trans hc1⟩

theorem inBuffers_allocated_once_witness :
    asyncNet.setInputBuffer true sampleData = Result.ok afterFirstUpload ∧
    run true laterTrace afterFirstUpload = Result.ok afterLaterTrace ∧
    (∀ j, asyncNet.inBuffers_ j = none) ∧
    ResNet50.poolAddrs afterLaterTrace = ResNet50.poolAddrs afterFirstUpload ∧
    afterLaterTrace.nextAddr = afterFirstUpload.nextAddr ∧
    ResNet50.poolCount afterFirstUpload = 2 ∧ ResNet50.poolCount afterLaterTrace = 2 :=
  have h := inBuffers_allocated_once true asyncNet afterFirstUpload sampleData laterTrace
    afterLaterTrace rfl rfl
  ⟨rfl, rfl, fun _ => rfl, h.2.2.1.1, h.2.2.1.2, (h.2.2.2 fun _ => rfl).1,
    (h.2.2.2 fun _ => rfl).2⟩

theorem setInputBuffer_written {mt : Bool} {n n1 : ResNet50} {data : Nat → Nat}
    (h : n.setInputBuffer mt data = Result.ok n1) :
    ∃ slot buf0,
      (ResNet50.allocInBuffers n (ResNet50.numbuffers mt n)).inBuffers_ slot = some buf0 ∧
      n1.inBuffers_ slot = some { buf0 with mem := ResNet50.memcpy buf0.mem data buf0.shape.bytes } ∧
      n1.upload.cpuInput = buf0.addr ∧
      (ResNet50.poolShaped n = true → buf0.shape = ResNet50.inputShape) := by
  obtain ⟨m, slot, hcopy, hm1, -, -⟩ := ResNet50.setInputBuffer_split h
  obtain ⟨buf, c1, c2, -, c4, -⟩ := ResNet50.copyToBuffer_pool hcopy
  rw [hm1] at c1
  refine ⟨slot, buf, c1, c2, c4, ?_⟩
  intro hshape
  rcases (ResNet50.allocInBuffers_pool n (ResNet50.numbuffers mt n)).2.2.2.2 slot buf c1
    with hold | hnew
  · exact (ResNet50.poolShaped_iff n).1 hshape slot buf hold
  · exact hnew

/-- C12: `setInputBuffer` makes a deep copy.  After a call that returned, one of
the two pool slots `inBuffers_[0]`, `inBuffers_[1]` holds a buffer whose bytes
equal the caller's data over the full byte size of the buffer's shape, which
is 602112 for the 224 x 224 x 3 float shape that every pool buffer created by
`setInputBuffer` has; the buffer handed to the upload layer is that pool
buffer, hence no pointer other than a pool address.  The caller's data is an
argument that the function only reads. -/
theorem setInputBuffer_deep_copy (mt : Bool) (n n1 : ResNet50) (data : Nat → Nat)
    (hok : n.setInputBuffer mt data = Result.ok n1) :
    ∃ slot buf, n1.inBuffers_ slot = some buf ∧
      (∀ i, i < buf.shape.bytes → buf.mem i = data i) ∧
      (ResNet50.poolShaped n = true → buf.shape.bytes = 602112 ∧
        buf.shape.bytes = 224 * 224 * 3 * 4) ∧
      n1.upload.cpuInput = buf.addr ∧
      n1.upload.cpuInput = ResNet50.poolAddrs n1 slot ∧
      (∀ p : Ptr, (∀ j, p ≠ ResNet50.poolAddrs n1 j) → n1.upload.cpuInput ≠ p) := by
  obtain ⟨slot, buf0, -, h2, h3, h4⟩ := setInputBuffer_written hok
  have haddr : n1.upload.cpuInput = ResNet50.poolAddrs n1 slot := by
    simp only [ResNet50.poolAddrs, h2, ptrOf, h3]
  refine ⟨slot, _, h2, ?_, ?_, h3, haddr, ?_⟩
  · intro i hi
    simp only [ResNet50.memcpy]
    rw [if_pos hi]
  · intro hshape
    have hb : buf0.shape.bytes = 602112 := by
      rw [h4 hshape]
      exact ResNet50.inputShape_bytes
    exact ⟨hb, hb⟩
  · intro p hp heq
    exact hp slot (heq.symm.trans haddr)

theorem setInputBuffer_deep_copy_witness :
    asyncNet.setInputBuffer true sampleData = Result.ok afterFirstUpload ∧
    ResNet50.poolShaped asyncNet = true ∧
    afterFirstUpload.upload.cpuInput = 3 ∧
    ∃ slot buf, afterFirstUpload.inBuffers_ slot = some buf ∧
      (∀ i, i < buf.shape.bytes → buf.mem i = sampleData i) ∧
      (ResNet50.poolShaped asyncNet = true → buf.shape.bytes = 602112 ∧
        buf.shape.bytes = 224 * 224 * 3 * 4) ∧
      afterFirstUpload.upload.cpuInput = buf.addr ∧
      afterFirstUpload.upload.cpuInput = ResNet50.poolAddrs afterFirstUpload slot ∧
      (∀ p : Ptr, (∀ j, p ≠ ResNet50.poolAddrs afterFirstUpload j) →
        afterFirstUpload.upload.cpuInput ≠ p) :=
  ⟨rfl, rfl, rfl, setInputBuffer_deep_copy true asyncNet afterFirstUpload sampleData rfl⟩

/-- C20: the number of bytes `setInputBuffer` copies from the caller's data is
the interleaved byte size height x width x channels x elementSize of the input
shape, 224 x 224 x 3 x 4 = 602112; it equals the size of the float array that
the benchmark passes whenever the benchmark's check on 224 x 224 has passed;
and the outcome of the call depends on no byte of the caller's data at or
beyond that size. -/
theorem setInputBuffer_copy_size (mt : Bool) (n n1 : ResNet50) (data : Nat → Nat)
    (width height : Nat) (hshape : ResNet50.poolShaped n = true)
    (hok : n.setInputBuffer mt data = Result.ok n1)
    (hcheck : sizeCheckPassed width height = true) :
    (∃ slot buf0,
      (ResNet50.allocInBuffers n (ResNet50.numbuffers mt n)).inBuffers_ slot = some buf0 ∧
      n1.inBuffers_ slot = some { buf0 with mem := ResNet50.memcpy buf0.mem data 602112 } ∧
      buf0.shape.bytes = 602112) ∧
    ResNet50.inputShape.bytes
      = ResNet50.inputShape.height * ResNet50.inputShape.width * ResNet50.inputShape.channels
        * ResNet50.inputShape.dtype.size ∧
    ResNet50.inputShape.bytes = 224 * 224 * 3 * 4 ∧
    readImageBytes width height = 602112 ∧
    (∀ data2 : Nat → Nat, (∀ i, i < readImageBytes width height → data2 i = data i) →
      n.setInputBuffer mt data2 = n.setInputBuffer mt data) := by
  have hwh : width = 224 ∧ height = 224 := by
    simpa [sizeCheckPassed] using hcheck
  have hsize : readImageBytes width height = 602112 := by
    rw [hwh.1, hwh.2]
    rfl
  obtain ⟨slot, buf0, h1, h2, -, h4⟩ := setInputBuffer_written hok
  have hb : buf0.shape.bytes = 602112 := by
    rw [h4 hshape]
    exact ResNet50.inputShape_bytes
  refine ⟨⟨slot, buf0, h1, ?_, hb⟩, rfl, ResNet50.inputShape_bytes, hsize, ?_⟩
  · rw [h2, hb]
  · intro data2 hagree
    apply ResNet50.setInputBuffer_congr
    intro j b hjb i hi
    apply hagree i
    rw [hsize]
    rcases (ResNet50.allocInBuffers_pool n (ResNet50.numbuffers mt n)).2.2.2.2 j b hjb
      with hold | hnew
    · rw [(ResNet50.poolShaped_iff n).1 hshape j b hold, ResNet50.inputShape_bytes] at hi
      exact hi
    · rw [hnew, ResNet50.inputShape_bytes] at hi
      exact hi

theorem setInputBuffer_copy_size_witness :
    ResNet50.poolShaped afterFirstUpload = true ∧
    sizeCheckPassed 224 224 = true ∧ sizeCheckPassed 224 225 = false ∧
    readImageBytes 224 224 = 602112 ∧
    (∀ data2 : Nat → Nat, (∀ i, i < readImageBytes 224 224 → data2 i = sampleData i) →
      asyncNet.setInputBuffer true data2 = asyncNet.setInputBuffer true sampleData) :=
  have h := setInputBuffer_copy_size true asyncNet afterFirstUpload sampleData 224 224
    rfl rfl rfl
  ⟨by decide, rfl, rfl, h.2.2.2.1, h.2.2.2.2⟩

theorem connections_forward (n : ResNet50) :
    ∀ e ∈ n.connections, e.producer < e.consumer := by
  cases hu : n.upload_ <;> cases hd : n.download_ <;>
    simp only [ResNet50.connections, hu, hd] <;> decide

theorem feeds_lt (n : ResNet50) (a b : Nat) (h : Relation.TransGen n.feeds a b) : a < b := by
  induction h with
  | single hab =>
    obtain ⟨e, he, h1, h2⟩ := hab
    have := connections_forward n e he
    omega
  | tail _ hbc ih =>
    obtain ⟨e, he, h1, h2⟩ := hbc
    have := connections_forward n e he
    omega

/-- C14: the connections made by `ResNet50::connectLayers` form a DAG: for
every combination of the flags `upload_` and `download_`, every edge goes from
a layer to a layer with a strictly larger numeric id, so every path of edges
leads to a strictly larger id and no path leads from a layer back to itself. -/
theorem connectLayers_acyclic (n : ResNet50) :
    (∀ e ∈ n.connections, e.producer < e.consumer) ∧
    (∀ a b, Relation.TransGen n.feeds a b → a < b) ∧
    (∀ a, ¬ Relation.TransGen n.feeds a a) :=
  ⟨connections_forward n, feeds_lt n, fun a h => Nat.lt_irrefl a (feeds_lt n a a h)⟩

theorem connectLayers_acyclic_witness :
    (⟨7, 9, 1⟩ : Connection) ∈ asyncNet.connections ∧ (7 : Nat) < 9 ∧
    asyncNet.connections.length = 87 ∧
    ¬ Relation.TransGen asyncNet.feeds 9 9 :=
  ⟨by decide, (connectLayers_acyclic asyncNet).1 ⟨7, 9, 1⟩ (by decide), by decide,
    (connectLayers_acyclic asyncNet).2.2 9⟩

/-- C17: for every combination of the flags `upload_`, `download_` and `async_`,
in either build, the builders that `buildLayers` registers have pairwise
distinct names and pairwise distinct numeric ids. -/
theorem buildLayers_distinct (mt : Bool) (n : ResNet50) :
    ((n.buildLayers mt).map LayerBuilder.name).Nodup ∧
    ((n.buildLayers mt).map LayerBuilder.number).Nodup := by
  cases hu : n.upload_ <;> cases hd : n.download_ <;> cases ha : n.async_ <;> cases mt <;>
    simp only [ResNet50.buildLayers, hu, hd, ha] <;> decide

theorem buildLayers_distinct_witness :
    ((asyncNet.buildLayers true).map LayerBuilder.name).Nodup ∧
    ((asyncNet.buildLayers true).map LayerBuilder.number).Nodup ∧
    (asyncNet.buildLayers true).length = 72 ∧
    ((syncNet.buildLayers false).map LayerBuilder.number).Nodup :=
  ⟨(buildLayers_distinct true asyncNet).1, (buildLayers_distinct true asyncNet).2, by decide,
    (buildLayers_distinct false syncNet).2⟩

/-- C15: with upload enabled, every layer registered by `buildLayers` other than
the root, the upload layer with numeric id 0, has each declared input port
bound exactly once by `connectLayers`: port 0 is the consumer port of exactly
one edge, port 1 is the consumer port of exactly one edge if the layer is
configured with `residual(...)` and of no edge otherwise; no edge binds a port
other than 0 and 1, and no pair of consumer and port occurs in two edges. -/
theorem input_ports_bound_once (mt : Bool) (n : ResNet50) (hup : n.upload_ = true) :
    (∀ b ∈ n.buildLayers mt,
      (b.number = 0 ↔ b.cls = BuilderClass.UpDownLayerBuilder UpDownDirection.UPLOAD) ∧
      (b.number ≠ 0 →
        portBindings n.connections b.number 0 = 1 ∧
        portBindings n.connections b.number 1 = (if b.residual.isSome then 1 else 0))) ∧
    (∀ e ∈ n.connections, e.port ≤ 1) ∧
    (n.connections.map fun e => (e.consumer, e.port)).Nodup := by
  cases hd : n.download_ <;> cases ha : n.async_ <;> cases mt <;>
    simp only [ResNet50.buildLayers, ResNet50.connections, hup, hd, ha] <;> decide

theorem input_ports_bound_once_witness :
    asyncNet.upload_ = true ∧ ResNet50.Builders.conv9 ∈ asyncNet.buildLayers true ∧
    ResNet50.Builders.conv9.number = 9 ∧ ResNet50.Builders.conv9.residual.isSome = true ∧
    portBindings asyncNet.connections 9 0 = 1 ∧ portBindings asyncNet.connections 9 1 = 1 ∧
    portBindings asyncNet.connections 10 1 = 0 :=
  have h := ((input_ports_bound_once true asyncNet rfl).1 ResNet50.Builders.conv9
    (by decide)).2 (by decide)
  ⟨rfl, by decide, rfl, rfl, h.1, h.2, by decide⟩

/-- C16: for every residual (port 1) edge made by `connectLayers`, the
producer and the consumer are layers registered by `buildLayers`, and the
producer's output shape (output channels, height / downsample,
width / downsample, as configured in `buildLayers`) equals the consumer's
output shape. -/
theorem residual_shapes_equal (mt : Bool) (n : ResNet50) :
    ∀ e ∈ n.connections, e.port = 1 →
      (findLayer (n.buildLayers mt) e.producer).isSome = true ∧
      (findLayer (n.buildLayers mt) e.consumer).isSome = true ∧
      (findLayer (n.buildLayers mt) e.producer).map LayerBuilder.outputShape
        = (findLayer (n.buildLayers mt) e.consumer).map LayerBuilder.outputShape := by
  cases hu : n.upload_ <;> cases hd : n.download_ <;> cases ha : n.async_ <;> cases mt <;>
    simp only [ResNet50.buildLayers, ResNet50.connections, hu, hd, ha] <;> decide

theorem residual_shapes_equal_witness :
    Connection.mk 19 21 1 ∈ asyncNet.connections ∧
    findLayer (asyncNet.buildLayers true) 19 = some ResNet50.Builders.conv19 ∧
    findLayer (asyncNet.buildLayers true) 21 = some ResNet50.Builders.conv21 ∧
    ResNet50.Builders.conv19.outputShape = (512, 28, 28) ∧
    ResNet50.Builders.conv21.outputShape = (512, 28, 28) ∧
    (asyncNet.connections.filter fun e => e.port == 1).length = 16 ∧
    (findLayer (asyncNet.buildLayers true) 19).map LayerBuilder.outputShape
      = (findLayer (asyncNet.buildLayers true) 21).map LayerBuilder.outputShape :=
  ⟨by decide, by decide, by decide, by decide, by decide, by decide,
    (residual_shapes_equal true asyncNet (Connection.mk 19 21 1) (by decide) rfl).2.2⟩

set_option maxRecDepth 8000

/-- C22: for every port-0 edge made by `connectLayers`, the producer and the
consumer are layers registered by `buildLayers`, and the producer's output
shape (output channels, height / downsample, width / downsample, or 1 x 1 for
the global pooling layer) equals the consumer's configured input shape (input
channels, height, width). -/
theorem primary_shapes_match (mt : Bool) (n : ResNet50) :
    ∀ e ∈ n.connections, e.port = 0 →
      (findLayer (n.buildLayers mt) e.producer).isSome = true ∧
      (findLayer (n.buildLayers mt) e.consumer).isSome = true ∧
      (findLayer (n.buildLayers mt) e.producer).map LayerBuilder.outputShape
        = (findLayer (n.buildLayers mt) e.consumer).map LayerBuilder.inputShape := by
  cases hu : n.upload_ <;> cases hd : n.download_ <;> cases ha : n.async_ <;> cases mt <;>
    simp only [ResNet50.buildLayers, ResNet50.connections, hu, hd, ha] <;> decide

theorem primary_shapes_match_witness :
    Connection.mk 70 72 0 ∈ asyncNet.connections ∧
    findLayer (asyncNet.buildLayers true) 70 = some ResNet50.Builders.globavg70 ∧
    findLayer (asyncNet.buildLayers true) 72 = some ResNet50.Builders.gemm72 ∧
    ResNet50.Builders.globavg70.outputShape = (2048, 1, 1) ∧
    ResNet50.Builders.gemm72.inputShape = (2048, 1, 1) ∧
    (asyncNet.connections.filter fun e => e.port == 0).length = 71 ∧
    (findLayer (asyncNet.buildLayers true) 70).map LayerBuilder.outputShape
      = (findLayer (asyncNet.buildLayers true) 72).map LayerBuilder.inputShape :=
  ⟨by decide, by decide, by decide, by decide, by decide, by decide,
    (primary_shapes_match true asyncNet (Connection.mk 70 72 0) (by decide) rfl).2.2⟩

/-- C23: for every combination of the flags, every numeric id that
`connectLayers` uses as producer or consumer of an edge is the id of a builder
that `buildLayers` registered under the same flags; id 0 is referenced only
with upload and id 73 only with download; the ids 1 and 71 are neither
registered nor referenced; and the layers that the buffer part of
`connectLayers` looks up are registered as well. -/
theorem connections_refer_to_layers (mt : Bool) (n : ResNet50) :
    (∀ i ∈ referencedIds n.connections, (findLayer (n.buildLayers mt) i).isSome = true) ∧
    (0 ∈ referencedIds n.connections → n.upload_ = true) ∧
    (73 ∈ referencedIds n.connections → n.download_ = true) ∧
    1 ∉ referencedIds n.connections ∧ 71 ∉ referencedIds n.connections ∧
    findLayer (n.buildLayers mt) 1 = none ∧ findLayer (n.buildLayers mt) 71 = none ∧
    (∀ r ∈ n.outputLayerRefs mt, r.isSome = true) := by
  cases hu : n.upload_ <;> cases hd : n.download_ <;> cases ha : n.async_ <;> cases mt <;>
    simp only [ResNet50.outputLayerRefs, ResNet50.buildLayers, ResNet50.connections,
      hu, hd, ha] <;> decide

theorem connections_refer_to_layers_witness :
    (0 : Nat) ∈ referencedIds asyncNet.connections ∧ asyncNet.upload_ = true ∧
    (73 : Nat) ∈ referencedIds asyncNet.connections ∧ asyncNet.download_ = true ∧
    (referencedIds asyncNet.connections).length = 174 ∧
    (findLayer (asyncNet.buildLayers true) 73).isSome = true :=
  have h := connections_refer_to_layers true asyncNet
  ⟨by decide, h.2.1 (by decide), by decide, h.2.2.1 (by decide), by decide,
    h.1 73 (by decide)⟩

/-- C25: for every port-0 edge made by `connectLayers`, the producer's
configured output padding equals the consumer's configured input padding, a
padding that is not set counting as 0; for every port-1 (residual) edge the
producer's output padding equals the consumer's output padding. -/
theorem paddings_match (mt : Bool) (n : ResNet50) :
    ∀ e ∈ n.connections, ∀ p c, findLayer (n.buildLayers mt) e.producer = some p →
      findLayer (n.buildLayers mt) e.consumer = some c →
      (e.port = 0 → p.outputPadding.getD 0 = c.inputPadding.getD 0) ∧
      (e.port = 1 → p.outputPadding.getD 0 = c.outputPadding.getD 0) := by
  have key : ∀ e ∈ n.connections,
      (findLayer (n.buildLayers mt) e.producer).isSome = true ∧
      (findLayer (n.buildLayers mt) e.consumer).isSome = true ∧
      (e.port = 0 →
        (findLayer (n.buildLayers mt) e.producer).map (fun b => b.outputPadding.getD 0)
          = (findLayer (n.buildLayers mt) e.consumer).map (fun b => b.inputPadding.getD 0)) ∧
      (e.port = 1 →
        (findLayer (n.buildLayers mt) e.producer).map (fun b => b.outputPadding.getD 0)
          = (findLayer (n.buildLayers mt) e.consumer).map
              (fun b => b.outputPadding.getD 0)) := by
    cases hu : n.upload_ <;> cases hd : n.download_ <;> cases ha : n.async_ <;> cases mt <;>
      simp only [ResNet50.buildLayers, ResNet50.connections, hu, hd, ha] <;> decide
  intro e he p c hp hc
  obtain ⟨-, -, k0, k1⟩ := key e he
  rw [hp, hc] at k0 k1
  exact ⟨fun h => by simpa using k0 h, fun h => by simpa using k1 h⟩

theorem paddings_match_witness :
    Connection.mk 2 3 0 ∈ asyncNet.connections ∧
    findLayer (asyncNet.buildLayers true) 2 = some ResNet50.Builders.bn2 ∧
    findLayer (asyncNet.buildLayers true) 3 = some ResNet50.Builders.conv3 ∧
    ResNet50.Builders.bn2.outputPadding = some 1 ∧
    ResNet50.Builders.conv3.inputPadding = some 1 ∧
    ResNet50.Builders.bn2.outputPadding.getD 0 = ResNet50.Builders.conv3.inputPadding.getD 0 :=
  ⟨by decide, by decide, by decide, rfl, rfl,
    (paddings_match true asyncNet (Connection.mk 2 3 0) (by decide) ResNet50.Builders.bn2
      ResNet50.Builders.conv3 (by decide) (by decide)).1 rfl⟩

theorem argmax_fold {α : Type} [LinearOrder α] (ptr : Nat → α) (n : Nat) :
    ∀ (s : Nat) (st : Nat × α),
      (st.2 = ptr st.1 ∧ st.1 < s ∧ (∀ j, j < s → ptr j ≤ ptr st.1) ∧
        (∀ j, j < st.1 → ptr j < ptr st.1)) →
      (((List.range' s n).foldl (argmaxStep ptr) st).2
          = ptr ((List.range' s n).foldl (argmaxStep ptr) st).1 ∧
        ((List.range' s n).foldl (argmaxStep ptr) st).1 < s + n ∧
        (∀ j, j < s + n → ptr j ≤ ptr ((List.range' s n).foldl (argmaxStep ptr) st).1) ∧
        (∀ j, j < ((List.range' s n).foldl (argmaxStep ptr) st).1 →
          ptr j < ptr ((List.range' s n).foldl (argmaxStep ptr) st).1)) := by
  induction n with
  | zero =>
    intro s st h
    simpa using h
  | succ n ih =>
    intro s st h
    obtain ⟨h1, h2, h3, h4⟩ := h
    have hstep : (argmaxStep ptr st s).2 = ptr (argmaxStep ptr st s).1 ∧
        (argmaxStep ptr st s).1 < s + 1 ∧
        (∀ j, j < s + 1 → ptr j ≤ ptr (argmaxStep ptr st s).1) ∧
        (∀ j, j < (argmaxStep ptr st s).1 → ptr j < ptr (argmaxStep ptr st s).1) := by
      unfold argmaxStep
      split
      · rename_i hlt
        rw [h1] at hlt
        refine ⟨rfl, Nat.lt_succ_self s, ?_, ?_⟩
        · intro j hj
          rcases Nat.lt_succ_iff_lt_or_eq.1 hj with hjs | hjs
          · exact le_of_lt (lt_of_le_of_lt (h3 j hjs) hlt)
          · rw [hjs]
        · intro j hj
          exact lt_of_le_of_lt (h3 j hj) hlt
      · rename_i hnlt
        rw [h1] at hnlt
        refine ⟨h1, Nat.lt_succ_of_lt h2, ?_, h4⟩
        intro j hj
        rcases Nat.lt_succ_iff_lt_or_eq.1 hj with hjs | hjs
        · exact h3 j hjs
        · rw [hjs]
          exact not_lt.1 hnlt
    have := ih (s + 1) (argmaxStep ptr st s) hstep
    simp only [List.range', List.foldl]
    have hsn : s + 1 + n = s + (n + 1) := by omega
    rw [hsn] at this
    exact this

/-- C26: for every array of `IMAGENET_CLASS_COUNT = 1000` class scores,
compared in a total order, the benchmark's class selection returns an index
`i` below 1000 whose score is greater than or equal to every score of the
array, and every index before `i` has a strictly smaller score, so `i` is the
smallest index that attains the maximum. -/
theorem argmaxLoop_spec {α : Type} [LinearOrder α] (ptr : Nat → α) :
    argmaxLoop ptr IMAGENET_CLASS_COUNT < 1000 ∧
    (∀ j, j < 1000 → ptr j ≤ ptr (argmaxLoop ptr IMAGENET_CLASS_COUNT)) ∧
    (∀ j, j < argmaxLoop ptr IMAGENET_CLASS_COUNT →
      ptr j < ptr (argmaxLoop ptr IMAGENET_CLASS_COUNT)) ∧
    (∀ j, j < 1000 → ptr j = ptr (argmaxLoop ptr IMAGENET_CLASS_COUNT) →
      argmaxLoop ptr IMAGENET_CLASS_COUNT ≤ j) ∧
    matchedclass (some ptr) = (argmaxLoop ptr IMAGENET_CLASS_COUNT : Nat) := by
  have h := argmax_fold ptr (IMAGENET_CLASS_COUNT - 1) 1 (0, ptr 0)
    ⟨rfl, Nat.zero_lt_one, fun j hj => by
      have : j = 0 := by omega
      rw [this], fun j hj => absurd hj (Nat.not_lt_zero j)⟩
  have hcount : 1 + (IMAGENET_CLASS_COUNT - 1) = 1000 := by decide
  rw [hcount] at h
  obtain ⟨-, h2, h3, h4⟩ := h
  refine ⟨h2, h3, h4, ?_, rfl⟩
  intro j _ heq
  by_contra hlt
  have := h4 j (not_le.1 hlt)
  rw [heq] at this
  exact lt_irrefl _ this

theorem argmaxLoop_spec_witness :
    argmaxLoop sampleScores 8 = 3 ∧ sampleScores 3 = 7 ∧ sampleScores 5 = 7 ∧
    argmaxLoop sampleScores IMAGENET_CLASS_COUNT < 1000 ∧
    sampleScores 5 ≤ sampleScores (argmaxLoop sampleScores IMAGENET_CLASS_COUNT) :=
  ⟨by decide, by decide, by decide, (argmaxLoop_spec sampleScores).1,
    (argmaxLoop_spec sampleScores).2.1 5 (by decide)⟩

namespace ResNet50

theorem poolFresh_congr {n m : ResNet50} (h1 : m.inBuffers_ = n.inBuffers_)
    (h2 : m.nextAddr = n.nextAddr) (hf : poolFresh n) : poolFresh m := by
  unfold poolFresh at hf ⊢
  rw [h1, h2]
  exact hf

theorem poolFresh_of_empty (n : ResNet50) (h : ∀ i, n.inBuffers_ i = none) : poolFresh n := by
  constructor
  · intro i b hb
    rw [h i] at hb
    cases hb
  · intro i j b c _ hb
    rw [h i] at hb
    cases hb

theorem allocInBuffer_fresh (n : ResNet50) (i : Fin ASYNC_BUFFERS) (hf : poolFresh n) :
    poolFresh (allocInBuffer n i) := by
  obtain ⟨f1, f2⟩ := hf
  unfold allocInBuffer
  split
  · exact ⟨f1, f2⟩
  · rename_i hnone
    constructor
    · intro j b hb
      simp only at hb ⊢
      by_cases hji : j = i
      · subst hji
        simp only [Function.update_same, Option.some.injEq] at hb
        rw [← hb]
        exact ⟨Nat.succ_pos _, Nat.le_refl _⟩
      · rw [Function.update_noteq hji] at hb
        have := f1 j b hb
        exact ⟨this.1, Nat.le_succ_of_le this.2⟩
    · intro j k b c hjk hb hc
      simp only at hb hc
      by_cases hji : j = i
      · subst hji
        have hki : k ≠ j := fun h => hjk h.symm
        simp only [Function.update_same, Option.some.injEq] at hb
        rw [Function.update_noteq hki] at hc
        have := f1 k c hc
        rw [← hb]
        exact Nat.ne_of_gt (Nat.lt_succ_of_le this.2)
      · rw [Function.update_noteq hji] at hb
        by_cases hki : k = i
        · subst hki
          simp only [Function.update_same, Option.some.injEq] at hc
          have := f1 j b hb
          rw [← hc]
          exact Nat.ne_of_lt (Nat.lt_succ_of_le this.2)
        · rw [Function.update_noteq hki] at hc
          exact f2 j k b c hjk hb hc

theorem allocInBuffers_fresh (n : ResNet50) (k : Nat) (hf : poolFresh n) :
    poolFresh (allocInBuffers n k) := by
  rw [allocInBuffers_unfold]
  by_cases h0 : 0 < k
  · by_cases h1 : 1 < k
    · rw [if_pos h1, if_pos h0]
      exact allocInBuffer_fresh _ 1 (allocInBuffer_fresh n 0 hf)
    · rw [if_neg h1, if_pos h0]
      exact allocInBuffer_fresh n 0 hf
  · have h1 : ¬ 1 < k := by omega
    rw [if_neg h1, if_neg h0]
    exact hf

theorem copyToBuffer_lookup {n n1 : ResNet50} {slot : Fin ASYNC_BUFFERS} {data : Nat → Nat}
    (h : copyToBuffer n slot data = Result.ok n1) (j : Fin ASYNC_BUFFERS) (b : CPUBuffer)
    (hb : n1.inBuffers_ j = some b) :
    ∃ b0, n.inBuffers_ j = some b0 ∧ b0.addr = b.addr := by
  obtain ⟨buf, h0, h1, h2, -⟩ := copyToBuffer_pool h
  by_cases hj : j = slot
  · subst hj
    rw [h1] at hb
    cases hb
    exact ⟨buf, h0, rfl⟩
  · rw [h2 j hj] at hb
    exact ⟨b, hb, rfl⟩

theorem copyToBuffer_fresh {n n1 : ResNet50} {slot : Fin ASYNC_BUFFERS} {data : Nat → Nat}
    (h : copyToBuffer n slot data = Result.ok n1) (hf : poolFresh n) : poolFresh n1 := by
  obtain ⟨f1, f2⟩ := hf
  obtain ⟨-, -, -, -, -, hnext, -⟩ := copyToBuffer_pool h
  constructor
  · intro j b hb
    obtain ⟨b0, hb0, ha⟩ := copyToBuffer_lookup h j b hb
    rw [← ha, hnext]
    exact f1 j b0 hb0
  · intro j k b c hjk hb hc
    obtain ⟨b0, hb0, ha⟩ := copyToBuffer_lookup h j b hb
    obtain ⟨c0, hc0, hca⟩ := copyToBuffer_lookup h k c hc
    rw [← ha, ← hca]
    exact f2 j k b0 c0 hjk hb0 hc0

theorem selectBuffer_other (m : ResNet50) (hf : poolFresh m) (hne : m.upload.cpuInput ≠ 0) :
    ptrOf (m.inBuffers_ (selectBuffer m)) ≠ m.upload.cpuInput := by
  unfold selectBuffer
  rw [if_pos hne]
  by_cases h0 : m.upload.cpuInput = ptrOf (m.inBuffers_ 0)
  · rw [if_pos h0]
    cases hb0 : m.inBuffers_ 0 with
    | none =>
      rw [hb0] at h0
      exact absurd h0 hne
    | some b0 =>
      cases hb1 : m.inBuffers_ 1 with
      | none =>
        intro h
        exact hne h.symm
      | some b1 =>
        rw [hb0] at h0
        simp only [ptrOf] at h0 ⊢
        rw [h0]
        exact hf.2 1 0 b1 b0 (by decide) hb1 hb0
  · rw [if_neg h0]
    exact fun h => h0 h.symm

theorem selectBuffer_first (m : ResNet50) (h : m.upload.cpuInput = 0) : selectBuffer m = 0 := by
  unfold selectBuffer
  simp [h]

theorem setInputBuffer_target {n n2 : ResNet50} {data : Nat → Nat}
    (hf : poolFresh n) (h : n.setInputBuffer true data = Result.ok n2) :
    poolFresh n2 ∧
    n2.upload.cpuInput = poolAddrs n2 (targetSlot n) ∧
    (n2.inBuffers_ (targetSlot n)).isSome = true ∧
    (n.upload.cpuInput = 0 → targetSlot n = 0) ∧
    (n.upload.cpuInput ≠ 0 → poolAddrs n2 (targetSlot n) ≠ n.upload.cpuInput) ∧
    (∀ a, (n.inBuffers_ a).isSome = true → n.upload.cpuInput = poolAddrs n a →
      targetSlot n ≠ a) := by
  have hw : uploadWait n = true := (setInputBuffer_ok h).1
  have hup : (allocInBuffers n (numbuffers true n)).upload = n.upload :=
    (allocInBuffers_frame n (numbuffers true n)).2.2.2.2.1
  have hfa := allocInBuffers_fresh n (numbuffers true n) hf
  rw [setInputBuffer_mt, if_pos hw, ← numbuffers_true] at h
  have hfm : poolFresh
      { allocInBuffers n (numbuffers true n) with
        usedUploadBuffers_ := n.usedUploadBuffers_ + 1, uploadBusy_ := true } :=
    poolFresh_congr rfl rfl hfa
  have hf2 := copyToBuffer_fresh h hfm
  obtain ⟨buf, c0, c1, -, c3, -⟩ := copyToBuffer_pool h
  obtain ⟨a1, -⟩ := copyToBuffer_addrs h
  simp only at c0 a1
  have htgt : targetSlot n = selectBuffer (allocInBuffers n (numbuffers true n)) := rfl
  have haddr : poolAddrs n2 (targetSlot n)
      = ptrOf ((allocInBuffers n (numbuffers true n)).inBuffers_ (targetSlot n)) := by
    simp only [poolAddrs]
    exact a1 (targetSlot n)
  have hother : n.upload.cpuInput ≠ 0 → poolAddrs n2 (targetSlot n) ≠ n.upload.cpuInput := by
    intro hne
    rw [haddr, htgt, ← hup]
    exact selectBuffer_other _ hfa (by rw [hup]; exact hne)
  refine ⟨hf2, ?_, ?_, ?_, hother, ?_⟩
  · rw [c3, haddr, htgt, c0]
    rfl
  · rw [htgt, c1]
    rfl
  · intro h0
    rw [htgt]
    exact selectBuffer_first _ (by rw [hup]; exact h0)
  · intro a hsome hatt hta
    cases hb : n.inBuffers_ a with
    | none =>
      rw [hb] at hsome
      cases hsome
    | some b =>
      have hpos := (hf.1 a b hb).1
      have hne : n.upload.cpuInput ≠ 0 := by
        rw [hatt]
        simp only [poolAddrs, hb, ptrOf]
        exact Nat.ne_of_gt hpos
      apply hother hne
      rw [haddr, hta, (allocInBuffers_pool n (numbuffers true n)).1 a hsome, hatt]
      rfl

theorem forward_upload {mt : Bool} {n n1 : ResNet50} (h : n.forward mt = Result.ok n1) :
    n1.upload = n.upload := by
  have hr : (refreshInputTexture n).upload = n.upload := by
    unfold refreshInputTexture
    split <;> rfl
  unfold forward at h
  simp only [NeuralNetwork.forward] at h
  split at h <;> (try split at h) <;> (try split at h) <;> (try split at h) <;>
    cases h <;> simp [hr]

theorem internalULCallback_keeps_upload (n : ResNet50) (s : Nat) (b : Ptr) (st : AsyncState) :
    (n.internalULCallback s b st).upload = n.upload := by
  unfold internalULCallback
  cases st <;> simp
  all_goals (split <;> simp)

theorem internalDLCallback_keeps_upload (n : ResNet50) (s : Nat) (b : Ptr) (st : AsyncState) :
    (n.internalDLCallback s b st).upload = n.upload := by
  unfold internalDLCallback
  cases st <;> simp
  all_goals (split <;> simp)

end ResNet50

theorem step_keeps_pool {n n1 : ResNet50} {e : Event} (he : e.isSetInput = false)
    (h : step true n e = Result.ok n1) :
    n1.inBuffers_ = n.inBuffers_ ∧ n1.nextAddr = n.nextAddr ∧ n1.upload = n.upload := by
  cases e with
  | setInputBuffer d => simp [Event.isSetInput] at he
  | forward =>
    simp only [step] at h
    obtain ⟨f1, f2, -⟩ := ResNet50.forward_pool h
    exact ⟨f1, f2, ResNet50.forward_upload h⟩
  | internalULCallback s b st =>
    simp only [step] at h
    cases h
    obtain ⟨f1, f2, -⟩ := ResNet50.internalULCallback_pool n s b st
    exact ⟨f1, f2, ResNet50.internalULCallback_keeps_upload n s b st⟩
  | internalDLCallback s b st =>
    simp only [step] at h
    cases h
    obtain ⟨f1, f2, -⟩ := ResNet50.internalDLCallback_pool n s b st
    exact ⟨f1, f2, ResNet50.internalDLCallback_keeps_upload n s b st⟩

theorem run_keeps_pool (evs : List Event) :
    ∀ (n n2 : ResNet50), evs.all (fun e => !e.isSetInput) = true →
      run true evs n = Result.ok n2 →
      n2.inBuffers_ = n.inBuffers_ ∧ n2.nextAddr = n.nextAddr ∧ n2.upload = n.upload := by
  induction evs with
  | nil =>
    intro n n2 _ hrun
    cases hrun
    exact ⟨rfl, rfl, rfl⟩
  | cons e es ih =>
    intro n n2 hall hrun
    obtain ⟨n1, hstep, hrest⟩ := run_cons_ok hrun
    simp only [List.all_cons, Bool.and_eq_true, Bool.not_eq_true'] at hall
    obtain ⟨p1, p2, p3⟩ := step_keeps_pool hall.1 hstep
    obtain ⟨q1, q2, q3⟩ := ih n1 n2 hall.2 hrest
    exact ⟨q1.trans p1, q2.trans p2, q3.trans p3⟩

theorem run_fresh (evs : List Event) :
    ∀ (n n2 : ResNet50), ResNet50.poolFresh n → run true evs n = Result.ok n2 →
      ResNet50.poolFresh n2 := by
  induction evs with
  | nil =>
    intro n n2 hf hrun
    cases hrun
    exact hf
  | cons e es ih =>
    intro n n2 hf hrun
    obtain ⟨n1, hstep, hrest⟩ := run_cons_ok hrun
    refine ih n1 n2 ?_ hrest
    cases he : e.isSetInput
    · obtain ⟨p1, p2, -⟩ := step_keeps_pool he hstep
      exact ResNet50.poolFresh_congr p1 p2 hf
    · cases e with
      | setInputBuffer d =>
        simp only [step] at hstep
        exact (ResNet50.setInputBuffer_target hf hstep).1
      | forward => simp [Event.isSetInput] at he
      | internalULCallback s b st => simp [Event.isSetInput] at he
      | internalDLCallback s b st => simp [Event.isSetInput] at he

theorem setInputBuffer_writes_target {n n2 : ResNet50} {data : Nat → Nat}
    (h : n.setInputBuffer true data = Result.ok n2) :
    ∃ buf0,
      (ResNet50.allocInBuffers n (ResNet50.numbuffers true n)).inBuffers_ n.targetSlot
        = some buf0 ∧
      n2.inBuffers_ n.targetSlot
        = some { buf0 with mem := ResNet50.memcpy buf0.mem data buf0.shape.bytes } ∧
      (∀ j, j ≠ n.targetSlot → n2.inBuffers_ j
        = (ResNet50.allocInBuffers n (ResNet50.numbuffers true n)).inBuffers_ j) := by
  have hw : ResNet50.uploadWait n = true := (ResNet50.setInputBuffer_ok h).1
  rw [ResNet50.setInputBuffer_mt, if_pos hw, ← ResNet50.numbuffers_true] at h
  obtain ⟨buf, c0, c1, c2, -⟩ := ResNet50.copyToBuffer_pool h
  exact ⟨buf, c0, c1, c2⟩

/-- C21: in asynchronous mode `setInputBuffer` cycles through the two upload
buffers.  In every state reached from a state whose pool buffers are distinct
allocations, an accepted call writes one slot and attaches it to the upload
layer; that slot is `inBuffers_[0]` when no buffer is attached yet, and
otherwise its buffer is not the one attached before the call; and the next
accepted call, whatever callbacks and `forward` calls come in between, writes
the other slot. -/
theorem setInputBuffer_cycles (n0 : ResNet50) (evs : List Event) (n1 n2 : ResNet50)
    (d : Nat → Nat) (_hasync : n0.async_ = true) (hfresh : ResNet50.poolFresh n0)
    (hrun : run true evs n0 = Result.ok n1)
    (hcall : n1.setInputBuffer true d = Result.ok n2) :
    (∃ buf0,
      (ResNet50.allocInBuffers n1 (ResNet50.numbuffers true n1)).inBuffers_ n1.targetSlot
        = some buf0 ∧
      n2.inBuffers_ n1.targetSlot
        = some { buf0 with mem := ResNet50.memcpy buf0.mem d buf0.shape.bytes } ∧
      (∀ j, j ≠ n1.targetSlot → n2.inBuffers_ j
        = (ResNet50.allocInBuffers n1 (ResNet50.numbuffers true n1)).inBuffers_ j)) ∧
    n2.upload.cpuInput = ResNet50.poolAddrs n2 n1.targetSlot ∧
    (n1.upload.cpuInput = 0 → n1.targetSlot = 0) ∧
    (n1.upload.cpuInput ≠ 0 → ResNet50.poolAddrs n2 n1.targetSlot ≠ n1.upload.cpuInput) ∧
    (∀ evs2 n3 d2 n4, evs2.all (fun e => !e.isSetInput) = true →
      run true evs2 n2 = Result.ok n3 → n3.setInputBuffer true d2 = Result.ok n4 →
      n3.targetSlot ≠ n1.targetSlot) := by
  have hf1 := run_fresh evs n0 n1 hfresh hrun
  obtain ⟨hf2, t2, t3, t4, t5, -⟩ := ResNet50.setInputBuffer_target hf1 hcall
  refine ⟨setInputBuffer_writes_target hcall, t2, t4, t5, ?_⟩
  intro evs2 n3 d2 n4 hall hrun2 hcall2
  obtain ⟨k1, k2, k3⟩ := run_keeps_pool evs2 n2 n3 hall hrun2
  have hf3 : ResNet50.poolFresh n3 := ResNet50.poolFresh_congr k1 k2 hf2
  obtain ⟨-, -, -, -, -, u6⟩ := ResNet50.setInputBuffer_target hf3 hcall2
  apply u6 n1.targetSlot
  · rw [k1]
    exact t3
  · rw [k3, t2]
    simp only [ResNet50.poolAddrs, k1]

theorem setInputBuffer_cycles_witness :
    run true [] asyncNet = Result.ok asyncNet ∧
    asyncNet.setInputBuffer true sampleData = Result.ok afterFirstUpload ∧
    run true betweenTrace afterFirstUpload = Result.ok afterBetweenTrace ∧
    afterBetweenTrace.setInputBuffer true sampleData = Result.ok afterSecondUpload ∧
    asyncNet.upload.cpuInput = 0 ∧ asyncNet.targetSlot = 0 ∧
    afterBetweenTrace.targetSlot = 1 ∧
    afterBetweenTrace.targetSlot ≠ asyncNet.targetSlot :=
  have h := setInputBuffer_cycles asyncNet [] asyncNet afterFirstUpload sampleData rfl
    (ResNet50.poolFresh_of_empty asyncNet fun _ => rfl) rfl rfl
  ⟨rfl, rfl, rfl, rfl, rfl, h.2.2.1 rfl, by decide,
    h.2.2.2.2 betweenTrace afterBetweenTrace sampleData afterSecondUpload rfl rfl rfl⟩

theorem getLast?_tail_some {α : Type} (p : List α) (a : α) (h : p.tail.getLast? = some a) :
    p.getLast? = some a := by
  cases p with
  | nil => simp at h
  | cons x xs =>
    cases xs with
    | nil => simp at h
    | cons y ys => simpa [List.getLast?_cons_cons] using h

theorem pending_invariant (evs : List Event) :
    ∀ (n n1 : ResNet50) (p : List (Fin ASYNC_BUFFERS)),
      ResNet50.poolFresh n → n.usedUploadBuffers_ = (p.length : Int) →
      (∀ a, p.getLast? = some a →
        (n.inBuffers_ a).isSome = true ∧ n.upload.cpuInput = ResNet50.poolAddrs n a) →
      run true evs n = Result.ok n1 → uploadDiscipline p.length evs = true →
      ResNet50.poolFresh n1 ∧
      n1.usedUploadBuffers_ = ((pendingAfter evs n p).length : Int) ∧
      (∀ a, (pendingAfter evs n p).getLast? = some a →
        (n1.inBuffers_ a).isSome = true ∧
        n1.upload.cpuInput = ResNet50.poolAddrs n1 a) := by
  induction evs with
  | nil =>
    intro n n1 p hf hu hl hrun _
    cases hrun
    exact ⟨hf, hu, hl⟩
  | cons e es ih =>
    intro n n1 p hf hu hl hrun hdisc
    obtain ⟨m, hstep, hrest⟩ := run_cons_ok hrun
    have hpend : pendingAfter (e :: es) n p = pendingAfter es m (trackPending n p e) := by
      simp only [pendingAfter, hstep]
    rw [hpend]
    cases e with
    | setInputBuffer data =>
      simp only [step] at hstep
      obtain ⟨hfm, t2, t3, -⟩ := ResNet50.setInputBuffer_target hf hstep
      obtain ⟨-, hum, -⟩ := ResNet50.setInputBuffer_ok hstep
      simp only [uploadDiscipline] at hdisc
      rw [show trackPending n p (Event.setInputBuffer data) = p ++ [n.targetSlot] from rfl]
      refine ih m n1 (p ++ [n.targetSlot]) hfm ?_ ?_ hrest ?_
      · rw [List.length_append, List.length_singleton, hum, hu]
        push_cast
        rfl
      · intro a ha
        simp only [List.getLast?_append, List.getLast?_singleton] at ha
        have hat : n.targetSlot = a := by simpa [Option.or] using ha
        rw [← hat]
        exact ⟨t3, t2⟩
      · rw [List.length_append, List.length_singleton]
        exact hdisc
    | forward =>
      obtain ⟨k1, k2, k3⟩ := step_keeps_pool (rfl : Event.forward.isSetInput = false) hstep
      simp only [step] at hstep
      obtain ⟨hum, -⟩ := ResNet50.forward_ok hstep
      simp only [uploadDiscipline] at hdisc
      rw [show trackPending n p Event.forward = p from rfl]
      refine ih m n1 p (ResNet50.poolFresh_congr k1 k2 hf) (hum.trans hu) ?_ hrest hdisc
      intro a ha
      simp only [ResNet50.poolAddrs, k1, k3]
      exact hl a ha
    | internalDLCallback s b st =>
      obtain ⟨k1, k2, k3⟩ := step_keeps_pool
        (rfl : (Event.internalDLCallback s b st).isSetInput = false) hstep
      simp only [step] at hstep
      cases hstep
      have hum := (ResNet50.internalDLCallback_frame n s b st).1
      simp only [uploadDiscipline] at hdisc
      have htp : trackPending n p (Event.internalDLCallback s b st) = p := by
        cases st <;> rfl
      rw [htp]
      refine ih _ n1 p (ResNet50.poolFresh_congr k1 k2 hf) (hum.trans hu) ?_ hrest hdisc
      intro a ha
      simp only [ResNet50.poolAddrs, k1, k3]
      exact hl a ha
    | internalULCallback s b st =>
      obtain ⟨k1, k2, k3⟩ := step_keeps_pool
        (rfl : (Event.internalULCallback s b st).isSetInput = false) hstep
      simp only [step] at hstep
      cases hstep
      have hum := (ResNet50.internalULCallback_upload n s b st).1
      have hfm := ResNet50.poolFresh_congr k1 k2 hf
      cases st with
      | UPLOAD_DONE =>
        simp only [uploadDiscipline, Bool.and_eq_true, decide_eq_true_eq] at hdisc
        obtain ⟨hpos, hdisc⟩ := hdisc
        rw [show trackPending n p (Event.internalULCallback s b AsyncState.UPLOAD_DONE)
          = p.tail from rfl]
        refine ih _ n1 p.tail hfm ?_ ?_ hrest ?_
        · rw [hum, hu, List.length_tail]
          simp only [if_true]
          omega
        · intro a ha
          simp only [ResNet50.poolAddrs, k1, k3]
          exact hl a (getLast?_tail_some p a ha)
        · rw [List.length_tail]
          exact hdisc
      | UPLOAD_COMMENCED =>
        simp only [uploadDiscipline] at hdisc
        rw [show trackPending n p (Event.internalULCallback s b AsyncState.UPLOAD_COMMENCED) = p
          from rfl]
        refine ih _ n1 p hfm (by rw [hum, hu]; simp) ?_ hrest hdisc
        intro a ha
        simp only [ResNet50.poolAddrs, k1, k3]
        exact hl a ha
      | DOWNLOAD_COMMENCED =>
        simp only [uploadDiscipline] at hdisc
        rw [show trackPending n p (Event.internalULCallback s b AsyncState.DOWNLOAD_COMMENCED) = p
          from rfl]
        refine ih _ n1 p hfm (by rw [hum, hu]; simp) ?_ hrest hdisc
        intro a ha
        simp only [ResNet50.poolAddrs, k1, k3]
        exact hl a ha
      | DOWNLOAD_DONE =>
        simp only [uploadDiscipline] at hdisc
        rw [show trackPending n p (Event.internalULCallback s b AsyncState.DOWNLOAD_DONE) = p
          from rfl]
        refine ih _ n1 p hfm (by rw [hum, hu]; simp) ?_ hrest hdisc
        intro a ha
        simp only [ResNet50.poolAddrs, k1, k3]
        exact hl a ha

/-- C24: with `UPLOAD_DONE` callbacks delivered only for uploads accepted and
not yet done, and in the order in which the uploads were accepted, in every
state reached in asynchronous mode from an initial state (no upload buffer in
use, pool buffers distinct allocations) the slot that an accepted
`setInputBuffer` call overwrites is not the slot of an upload that has not yet
reached `UPLOAD_DONE`.  The order of `UPLOAD_COMMENCED` and `UPLOAD_DONE` of
one upload is not needed. -/
theorem overwrites_only_done_buffers (n0 : ResNet50) (evs : List Event) (n1 n2 : ResNet50)
    (d : Nat → Nat) (_hasync : n0.async_ = true) (hfresh : ResNet50.poolFresh n0)
    (hused : n0.usedUploadBuffers_ = 0) (hdisc : uploadDiscipline 0 evs = true)
    (hrun : run true evs n0 = Result.ok n1)
    (hcall : n1.setInputBuffer true d = Result.ok n2) :
    n1.targetSlot ∉ pendingAfter evs n0 [] ∧
    (pendingAfter evs n0 []).length ≤ 1 ∧
    (∃ buf0,
      (ResNet50.allocInBuffers n1 (ResNet50.numbuffers true n1)).inBuffers_ n1.targetSlot
        = some buf0 ∧
      n2.inBuffers_ n1.targetSlot
        = some { buf0 with mem := ResNet50.memcpy buf0.mem d buf0.shape.bytes } ∧
      (∀ j, j ≠ n1.targetSlot → n2.inBuffers_ j
        = (ResNet50.allocInBuffers n1 (ResNet50.numbuffers true n1)).inBuffers_ j)) := by
  obtain ⟨hf1, hu1, hl1⟩ := pending_invariant evs n0 n1 [] hfresh (by simpa using hused)
    (fun a ha => by simp at ha) hrun hdisc
  obtain ⟨hw, -⟩ := ResNet50.setInputBuffer_ok hcall
  have hlt := ((ResNet50.uploadWait_iff n1).1 hw).2
  rw [hu1] at hlt
  have hlen : (pendingAfter evs n0 []).length ≤ 1 := by
    have h2 : (pendingAfter evs n0 []).length < 2 := by exact_mod_cast hlt
    omega
  obtain ⟨-, -, -, -, -, t6⟩ := ResNet50.setInputBuffer_target hf1 hcall
  refine ⟨?_, hlen, setInputBuffer_writes_target hcall⟩
  intro hmem
  cases hp : pendingAfter evs n0 [] with
  | nil =>
    rw [hp] at hmem
    cases hmem
  | cons a rest =>
    rw [hp] at hmem hlen
    have hrest : rest = [] := by
      cases rest with
      | nil => rfl
      | cons y ys =>
        simp only [List.length_cons] at hlen
        omega
    subst hrest
    have hta : n1.targetSlot = a := by simpa using hmem
    obtain ⟨s1, s2⟩ := hl1 a (by rw [hp]; rfl)
    exact t6 a s1 s2 hta

theorem overwrites_only_done_buffers_witness :
    uploadDiscipline 0 threeUploads = true ∧
    run true threeUploads asyncNet = Result.ok afterThreeUploads ∧
    (afterThreeUploads.setInputBuffer true sampleData).isOk = true ∧
    pendingAfter threeUploads asyncNet [] = [1] ∧ afterThreeUploads.targetSlot = 0 ∧
    afterThreeUploads.targetSlot ∉ pendingAfter threeUploads asyncNet [] :=
  ⟨rfl, rfl, rfl, by decide, by decide,
    (overwrites_only_done_buffers asyncNet threeUploads afterThreeUploads
      ((afterThreeUploads.setInputBuffer true sampleData).getD afterThreeUploads) sampleData
      rfl (ResNet50.poolFresh_of_empty asyncNet fun _ => rfl) rfl rfl rfl rfl).1⟩

/-- C27 fails on a label file with CR LF line ends: the lookup for class 0
prints the label followed by the carriage return of its line end, because the
zero byte is written over the last byte of the line end only.  It fails, too,
on a file whose last line has no line end: looking up that line, `strpbrk`
returns `NULL`, which the loop dereferences, or the search leaves the array.
On a file with LF line ends, each line ended, the lookup prints the label,
provided the byte after the file's bytes, which the program never writes, is
not 10 or 13. -/
theorem labelLookup_crlf_keeps_cr :
    labelLookup (loadLabels (bytesOf "cat\r\ndog\r\n") 0) 0 = Lookup.ok (bytesOf "cat\r") ∧
    bytesOf "cat\r" ≠ bytesOf "cat" ∧
    labelLookup (loadLabels (bytesOf "cat\ndog") 0) 1 = Lookup.nullDeref ∧
    labelLookup (loadLabels (bytesOf "cat\ndog") 7) 1 = Lookup.outOfBounds ∧
    labelLookup (loadLabels (bytesOf "cat\ndog\n") 0) 0 = Lookup.ok (bytesOf "cat") ∧
    labelLookup (loadLabels (bytesOf "cat\ndog\n") 0) 1 = Lookup.ok (bytesOf "dog") ∧
    labelLookup (loadLabels (bytesOf "cat\ndog\n") 10) 1 = Lookup.outOfBounds := by
  decide

end FyuseNet
